import Mathlib

/-!
Nomad agent command: configuration validation and signal handling.

A shallow embedding of `command/agent/command.go`:

* `IsValidConfig` (lines 323-543), the validation gate applied to the merged
  configuration and the CLI overlay;
* `terminateGracefully` (lines 983-1035) and `handleSignals` (lines 1038-1105),
  the signal arbitration loops, together with `handleReload` (lines 1128-1207);
* `Run` (lines 769-911) and the startup functions it calls: `SetupLoggers`,
  `setupTelemetry`, `setupAgent`, `startupJoin` and `handleRetryJoin`.

Conventions.  A Go `error` is an `Option String` (`none` is `nil`).  Go `int`
is `Int`.  Everything written to `c.Ui` is collected in a list of `Diag`.
Functions, constants and types that the file uses but that are declared in
other packages are parameters, gathered in `Externals`; what a run reads from
outside its arguments (the filesystem, the order in which the runtime visits
the entries of a map) is gathered in `World`.
-/

namespace Nomad

/-- Go `error`: `none` is `nil`, `some msg` is an error whose text is `msg`. -/
abbrev GoError := Option String

/-- One message written to the command's `Ui`. -/
inductive Diag where
  | Error (msg : String)
  | Warn (msg : String)
  | Output (msg : String)
  | Info (msg : String)
deriving DecidableEq, Repr

/-- Types of the configuration blocks whose declarations live in other
packages; the file only passes them to their own validators. -/
structure Blocks where
  Telemetry : Type
  TLSRest : Type
  SchedulerConfig : Type
  ArtifactConfig : Type
  RPCConfig : Type

/-- The `config.TLSConfig` block: the two switches the file reads, and the rest. -/
structure TLSConfig (B : Blocks) where
  EnableHTTP : Bool
  EnableRPC : Bool
  rest : B.TLSRest

/-- One entry of `config.Client.HostVolumes`. -/
structure HostVolume where
  Name : String
  Path : String
deriving DecidableEq, Repr

/-- One entry of `config.Client.HostNetworks`. -/
structure HostNetwork where
  Name : String
  ReservedPorts : String
deriving DecidableEq, Repr

/-- The block `config.Client.Reserved`. -/
structure Resources where
  ReservedPorts : String
deriving DecidableEq, Repr

/-- One entry of `config.Consuls` or of `config.Vaults`. -/
structure ClusterConfig where
  Name : String
deriving DecidableEq, Repr

/-- The fields of the `Telemetry` block that `setupTelemetry` reads, and the
rest of the block.  Durations are in nanoseconds; `FilterDefault` is a
pointer. -/
structure Telemetry (B : Blocks) where
  inMemoryCollectionInterval : Int := 0
  inMemoryRetentionPeriod : Int := 0
  DisableHostname : Bool := false
  UseNodeName : Bool := false
  FilterDefault : Option Bool := none
  StatsiteAddr : String := ""
  StatsdAddr : String := ""
  PrometheusMetrics : Bool := false
  DataDogAddr : String := ""
  DataDogTags : List String := []
  CirconusAPIToken : String := ""
  CirconusAPIApp : String := ""
  CirconusAPIURL : String := ""
  CirconusSubmissionInterval : String := ""
  CirconusCheckSubmissionURL : String := ""
  CirconusCheckID : String := ""
  CirconusCheckForceMetricActivation : String := ""
  CirconusCheckInstanceID : String := ""
  CirconusCheckSearchTag : String := ""
  CirconusCheckTags : String := ""
  CirconusCheckDisplayName : String := ""
  CirconusBrokerID : String := ""
  CirconusBrokerSelectTag : String := ""
  rest : B.Telemetry

/-- The structured join block `server_join`; a nil slice is the empty list and
`RetryInterval` is a duration in nanoseconds. -/
structure ServerJoin where
  StartJoin : List String := []
  RetryJoin : List String := []
  RetryMaxAttempts : Int := 0
  RetryInterval : Int := 0
deriving DecidableEq, Repr

/-- The fields of `ServerConfig` that the file reads.  `StartJoin`,
`RetryJoin`, `RetryMaxAttempts` and `RetryInterval` are the deprecated flat
join fields; `ServerJoin` is a pointer.  The join fields default to the Go
zero values. -/
structure ServerConfig (B : Blocks) where
  Enabled : Bool
  EncryptKey : String
  DefaultSchedulerConfig : B.SchedulerConfig
  BootstrapExpect : Int
  OIDCIssuer : String
  ProtocolVersion : Int
  StartJoin : List String := []
  RetryJoin : List String := []
  RetryMaxAttempts : Int := 0
  RetryInterval : Int := 0
  ServerJoin : Option ServerJoin := none

/-- The fields of `ClientConfig` that the file reads.  `Meta` is a Go map,
given by its entries (distinct keys); `Reserved` is a pointer. -/
structure ClientConfig (B : Blocks) where
  Enabled : Bool
  StateDir : String
  AllocDir : String
  AllocMountsDir : String
  HostVolumesDir : String
  HostVolumePluginDir : String
  Meta : List (String × String)
  NodePool : String
  HostVolumes : List HostVolume
  MinDynamicPort : Int
  MaxDynamicPort : Int
  Reserved : Option Resources
  HostNetworks : List HostNetwork
  Artifact : B.ArtifactConfig
  PreferredAddressFamily : String
  ServerJoin : Option ServerJoin := none

/-- The fields of `Config` that the file reads.  `Server` and `Client` are
dereferenced without a nil check by `IsValidConfig` (`readConfig` has made
them non-nil), so they are plain fields; `TLSConfig` and `Telemetry` are
tested against nil.  The fields read by `Run`, `SetupLoggers` and `setupAgent`
only default to the Go zero values. -/
structure Config (B : Blocks) where
  Region : String
  Datacenter : String
  DataDir : String
  PluginDir : String
  LogLevel : String
  DevMode : Bool
  LeaveOnInt : Bool
  LeaveOnTerm : Bool
  Telemetry : Option (Telemetry B)
  TLSConfig : Option (TLSConfig B)
  Server : ServerConfig B
  Client : ClientConfig B
  Consuls : List ClusterConfig
  Vaults : List ClusterConfig
  RPC : B.RPCConfig
  NodeName : String := ""
  Files : List String := []
  LogJson : Bool := false
  EnableSyslog : Bool := false
  SyslogFacility : String := ""
  LogFile : String := ""
  LogRotateDuration : String := ""
  DisableUpdateCheck : Option Bool := none

/-- What the file takes from other packages: constants, the validators of the
configuration blocks, and the path and formatting helpers of the standard
library.  `URLParse` gives the scheme of the parsed URL. -/
structure Externals (B : Blocks) where
  MaxValidPort : Int
  NodePoolAll : String
  serfKeyring : String
  NodeNetworkAF_IPv4 : String
  NodeNetworkAF_IPv6 : String
  IsAbs : String → Bool
  Join : String → String → String
  Quote : String → String
  TelemetryValidate : Option (Telemetry B) → GoError
  TLSIsEmpty : TLSConfig B → Bool
  EncryptBytes : ServerConfig B → GoError
  IsValidInterpVariable : String → Bool
  SchedulerValidate : B.SchedulerConfig → GoError
  ValidateNodePoolName : String → GoError
  ValidateConsulClusterName : String → GoError
  ValidateVaultClusterName : String → GoError
  ParsePortRanges : String → GoError
  ArtifactValidate : B.ArtifactConfig → GoError
  AddressFamilyValidate : String → GoError
  RPCValidate : B.RPCConfig → GoError
  URLParse : String → Except String String

/-- What one run of the validation reads besides its arguments: `Range m` is
the order in which a `for ... range` visits the entries of the map `m`
(unspecified by the language), `Stat p` tells whether `os.Stat p` succeeds,
and `SetChecksum` reads the certificate files named by the TLS block. -/
structure World (B : Blocks) where
  Range : List (String × String) → List (String × String)
  Stat : String → Bool
  SetChecksum : TLSConfig B → GoError

/-- A `range` visits every entry of the map exactly once. -/
def World.RangeIsPerm {B : Blocks} (W : World B) : Prop :=
  ∀ m : List (String × String), (W.Range m).Perm m

/-- The outcome of one block of `IsValidConfig`: `ok = false` when the block
executed `return false`, and `ui` holds what the block wrote to `c.Ui`. -/
structure Block where
  ok : Bool
  ui : List Diag
deriving DecidableEq, Repr

/-- A block that reports an error and returns false. -/
def Block.fatal (msg : String) : Block := ⟨false, [Diag.Error msg]⟩

/-- A block that falls through silently. -/
def Block.pass : Block := ⟨true, []⟩

/-- A block that writes messages and falls through. -/
def Block.say (ds : List Diag) : Block := ⟨true, ds⟩

/-- Sequential composition: the blocks run in order up to and including the
first one that returns false. -/
def Block.seq : List Block → Block
  | [] => Block.pass
  | b :: bs => if b.ok then ⟨(Block.seq bs).ok, b.ui ++ (Block.seq bs).ui⟩ else ⟨false, b.ui⟩

/-- `strings.ContainsAny s chars`. -/
def ContainsAny (s chars : String) : Bool :=
  s.data.any (fun c => chars.data.contains c)

/-- The text `%d` prints for an `int`. -/
def fmtInt (n : Int) : String := toString n

/-- The map literal `dirs` of `IsValidConfig` (lines 372-380). -/
def dirs {B : Blocks} (config : Config B) : List (String × String) :=
  [ ("data-dir", config.DataDir),
    ("plugin-dir", config.PluginDir),
    ("alloc-dir", config.Client.AllocDir),
    ("alloc-mounts-dir", config.Client.AllocMountsDir),
    ("host-volumes-dir", config.Client.HostVolumesDir),
    ("host-volume-plugin-dir", config.Client.HostVolumePluginDir),
    ("state-dir", config.Client.StateDir) ]

/-- The loop `for k, dir := range dirs` (lines 381-390) over the entries in
the order the runtime yields them. -/
def checkDirs {B : Blocks} (X : Externals B) : List (String × String) → Block
  | [] => Block.pass
  | (k, dir) :: rest =>
    if dir = "" then checkDirs X rest
    else if !X.IsAbs dir then
      Block.fatal (k ++ " must be given as an absolute path: got " ++ dir)
    else checkDirs X rest

/-- The loop `for k := range config.Client.Meta` (lines 393-398). -/
def checkMeta {B : Blocks} (X : Externals B) : List (String × String) → Block
  | [] => Block.pass
  | (k, _) :: rest =>
    if !X.IsValidInterpVariable k then Block.fatal ("Invalid Client.Meta key: " ++ k)
    else checkMeta X rest

/-- The loops over `config.Consuls` and `config.Vaults` (lines 419-428): an
invalid name is reported and the loop goes on. -/
def checkClusters (validate : String → GoError) (label : String) :
    List ClusterConfig → List Diag
  | [] => []
  | c :: rest =>
    match validate c.Name with
    | some err => Diag.Error (label ++ err) :: checkClusters validate label rest
    | none => checkClusters validate label rest

/-- The loop over `config.Client.HostVolumes` (lines 430-435). -/
def checkHostVolumes : List HostVolume → Block
  | [] => Block.pass
  | v :: rest =>
    if v.Path = "" then Block.fatal "Missing path in host_volume config"
    else checkHostVolumes rest

/-- The loop over `config.Client.HostNetworks` (lines 463-470). -/
def checkHostNetworks {B : Blocks} (X : Externals B) : List HostNetwork → Block
  | [] => Block.pass
  | hn :: rest =>
    match X.ParsePortRanges hn.ReservedPorts with
    | some err =>
      Block.fatal ("host_network[" ++ X.Quote hn.Name ++ "].reserved_ports "
        ++ X.Quote hn.ReservedPorts ++ " invalid: " ++ err)
    | none => checkHostNetworks X rest

/-- Lines 324-328: the agent must run in at least one mode. -/
def checkMode {B : Blocks} (config : Config B) : Block :=
  if !(config.Server.Enabled || config.Client.Enabled) then
    Block.fatal "Must specify either server, client or dev mode for the agent."
  else Block.pass

/-- Lines 330-334: the region must not contain a null byte. -/
def checkRegion {B : Blocks} (config : Config B) : Block :=
  if ContainsAny config.Region "\x00" then
    Block.fatal "Region contains invalid characters"
  else Block.pass

/-- Lines 336-340: the datacenter must contain neither a null byte nor `*`. -/
def checkDatacenter {B : Blocks} (config : Config B) : Block :=
  if ContainsAny config.Datacenter "\x00*" then
    Block.fatal "Datacenter contains invalid characters (null or '*')"
  else Block.pass

/-- Lines 342-345: the telemetry block. -/
def checkTelemetry {B : Blocks} (X : Externals B) (config : Config B) : Block :=
  match X.TelemetryValidate config.Telemetry with
  | some err => Block.fatal ("telemetry block invalid: " ++ err)
  | none => Block.pass

/-- Lines 350-354: the TLS checksum; a failure is only reported. -/
def checkTLSChecksum {B : Blocks} (X : Externals B) (W : World B) (config : Config B) : Block :=
  match config.TLSConfig with
  | some tls =>
    if !X.TLSIsEmpty tls then
      match W.SetChecksum tls with
      | some err =>
        Block.say [Diag.Error ("WARNING: Error when parsing TLS configuration: " ++ err)]
      | none => Block.pass
    else Block.pass
  | none => Block.pass

/-- Lines 355-358: the mTLS warning. -/
def warnMTLS {B : Blocks} (config : Config B) : Block :=
  if !config.DevMode && (match config.TLSConfig with
      | none => true
      | some tls => !tls.EnableHTTP || !tls.EnableRPC) then
    Block.say [Diag.Error "WARNING: mTLS is not configured - Nomad is not secure without mTLS!"]
  else Block.pass

/-- Lines 360-369: the gossip encryption key, and the keyring file on disk. -/
def checkEncryptKey {B : Blocks} (X : Externals B) (W : World B) (config : Config B) : Block :=
  if config.Server.EncryptKey ≠ "" then
    match X.EncryptBytes config.Server with
    | some err => Block.fatal ("Invalid encryption key: " ++ err)
    | none =>
      if W.Stat (X.Join config.DataDir X.serfKeyring) then
        Block.say [Diag.Warn "WARNING: keyring exists but -encrypt given, using keyring"]
      else Block.pass
  else Block.pass

/-- Lines 392-399: the client metadata keys, checked only in client mode. -/
def checkClientMeta {B : Blocks} (X : Externals B) (W : World B) (config : Config B) : Block :=
  if config.Client.Enabled then checkMeta X (W.Range config.Client.Meta) else Block.pass

/-- Lines 401-404: the default scheduler configuration. -/
def checkScheduler {B : Blocks} (X : Externals B) (config : Config B) : Block :=
  match X.SchedulerValidate config.Server.DefaultSchedulerConfig with
  | some err => Block.fatal err
  | none => Block.pass

/-- Lines 406-417: the node pool name. -/
def checkNodePool {B : Blocks} (X : Externals B) (config : Config B) : Block :=
  if config.Client.NodePool ≠ "" then
    match X.ValidateNodePoolName config.Client.NodePool with
    | some err => Block.fatal ("Invalid node pool: " ++ err)
    | none =>
      if config.Client.NodePool = X.NodePoolAll then
        Block.fatal ("Invalid node pool: node is not allowed to register in node pool "
          ++ X.Quote X.NodePoolAll)
      else Block.pass
  else Block.pass

/-- Lines 437-440: the lower bound of the dynamic port range. -/
def checkMinDynamicPort {B : Blocks} (X : Externals B) (config : Config B) : Block :=
  if config.Client.MinDynamicPort < 0 ∨ config.Client.MinDynamicPort > X.MaxValidPort then
    Block.fatal ("Invalid dynamic port range: min_dynamic_port="
      ++ fmtInt config.Client.MinDynamicPort)
  else Block.pass

/-- Lines 441-444: the upper bound of the dynamic port range. -/
def checkMaxDynamicPort {B : Blocks} (X : Externals B) (config : Config B) : Block :=
  if config.Client.MaxDynamicPort < 0 ∨ config.Client.MaxDynamicPort > X.MaxValidPort then
    Block.fatal ("Invalid dynamic port range: max_dynamic_port="
      ++ fmtInt config.Client.MaxDynamicPort)
  else Block.pass

/-- Lines 445-448: the ordering of the dynamic port range. -/
def checkDynamicPortOrder {B : Blocks} (config : Config B) : Block :=
  if config.Client.MinDynamicPort > config.Client.MaxDynamicPort then
    Block.fatal ("Invalid dynamic port range: min_dynamic_port="
      ++ fmtInt config.Client.MinDynamicPort ++ " and max_dynamic_port="
      ++ fmtInt config.Client.MaxDynamicPort)
  else Block.pass

/-- Lines 450-461: `client.reserved` must be set, and its port ranges must parse. -/
def checkReserved {B : Blocks} (X : Externals B) (config : Config B) : Block :=
  match config.Client.Reserved with
  | none => Block.fatal "client.reserved must be initialized. Please report a bug."
  | some reserved =>
    if reserved.ReservedPorts ≠ "" then
      match X.ParsePortRanges reserved.ReservedPorts with
      | some err =>
        Block.fatal ("reserved.reserved_ports " ++ X.Quote reserved.ReservedPorts
          ++ " invalid: " ++ err)
      | none => Block.pass
    else Block.pass

/-- Lines 472-475: the artifact block. -/
def checkArtifact {B : Blocks} (X : Externals B) (config : Config B) : Block :=
  match X.ArtifactValidate config.Client.Artifact with
  | some err => Block.fatal ("client.artifact block invalid: " ++ err)
  | none => Block.pass

/-- Lines 477-483: the preferred address family. -/
def checkAddressFamily {B : Blocks} (X : Externals B) (config : Config B) : Block :=
  match X.AddressFamilyValidate config.Client.PreferredAddressFamily with
  | some _ =>
    Block.fatal ("Invalid preferred-address-family value: "
      ++ config.Client.PreferredAddressFamily ++ " (valid values: "
      ++ X.NodeNetworkAF_IPv4 ++ ", " ++ X.NodeNetworkAF_IPv6 ++ ")")
  | none => Block.pass

/-- Lines 484-487: the RPC block. -/
def checkRPC {B : Blocks} (X : Externals B) (config : Config B) : Block :=
  match X.RPCValidate config.RPC with
  | some err => Block.fatal ("rpc block invalid: " ++ err ++ ")")
  | none => Block.pass

/-- Lines 491-494: server mode needs the data directory. -/
def checkServerDataDir {B : Blocks} (config : Config B) : Block :=
  if config.Server.Enabled ∧ config.DataDir = "" then
    Block.fatal "Must specify \"data_dir\" config option or \"data-dir\" CLI flag"
  else Block.pass

/-- Lines 496-507: client mode needs the data directory or the four
directories derived from it. -/
def checkClientDirs {B : Blocks} (config : Config B) : Block :=
  if config.Client.Enabled ∧ config.DataDir = "" then
    if config.Client.AllocDir = "" ∨ config.Client.AllocMountsDir = "" ∨
        config.Client.StateDir = "" ∨ config.PluginDir = "" then
      Block.fatal ("Must specify the state, alloc-dir, alloc-mounts-dir and "
        ++ "plugin-dir if data-dir is omitted.")
    else Block.pass
  else Block.pass

/-- Lines 509-514: a bootstrap count on the command line needs server mode. -/
def checkBootstrapCLI {B : Blocks} (config cmdConfig : Config B) : Block :=
  if !config.Server.Enabled ∧ cmdConfig.Server.BootstrapExpect > 0 then
    Block.fatal "Bootstrap requires server mode to be enabled"
  else Block.pass

/-- Lines 515-517: the warning for a bootstrap count of one. -/
def warnBootstrapOne {B : Blocks} (config : Config B) : Block :=
  if config.Server.Enabled ∧ config.Server.BootstrapExpect = 1 then
    Block.say [Diag.Error "WARNING: Bootstrap mode enabled! Potentially unsafe operation."]
  else Block.pass

/-- Lines 518-520: the warning for an even bootstrap count (Go `%` truncates). -/
def warnBootstrapEven {B : Blocks} (config : Config B) : Block :=
  if config.Server.Enabled ∧ Int.tmod config.Server.BootstrapExpect 2 = 0 then
    Block.say [Diag.Error
      "WARNING: Number of bootstrap servers should ideally be set to an odd number."]
  else Block.pass

/-- Lines 522-533: the OIDC issuer must parse as a URL. -/
def checkOIDCIssuer {B : Blocks} (X : Externals B) (config : Config B) : Block :=
  if config.Server.Enabled ∧ config.Server.OIDCIssuer ≠ "" then
    match X.URLParse config.Server.OIDCIssuer with
    | Except.error err =>
      Block.fatal ("Error using server.oidc_issuer = \"" ++ config.Server.OIDCIssuer
        ++ "\" as a base URL: " ++ err)
    | Except.ok scheme =>
      if scheme ≠ "https" then
        Block.say [Diag.Warn ("server.oidc_issuer = \"" ++ config.Server.OIDCIssuer
          ++ "\" is not using https. Many OIDC implementations require https.")]
      else Block.pass
  else Block.pass

/-- Lines 489-534: the checks made outside dev mode only. -/
def checkNonDev {B : Blocks} (X : Externals B) (config cmdConfig : Config B) : Block :=
  if !config.DevMode then
    Block.seq
      [ checkServerDataDir config,
        checkClientDirs config,
        checkBootstrapCLI config cmdConfig,
        warnBootstrapOne config,
        warnBootstrapEven config,
        checkOIDCIssuer X config ]
  else Block.pass

/-- Lines 536-540: the deprecated protocol version field. -/
def warnProtocolVersion {B : Blocks} (config : Config B) : Block :=
  if config.Server.ProtocolVersion ≠ 0 then
    Block.say [Diag.Warn "Please remove deprecated protocol_version field from config."]
  else Block.pass

/-- The blocks of `Command.IsValidConfig` (lines 323-543), in source order. -/
def IsValidConfigBlocks {B : Blocks} (X : Externals B) (W : World B)
    (config cmdConfig : Config B) : List Block :=
  [ checkMode config,
    checkRegion config,
    checkDatacenter config,
    checkTelemetry X config,
    checkTLSChecksum X W config,
    warnMTLS config,
    checkEncryptKey X W config,
    checkDirs X (W.Range (dirs config)),
    checkClientMeta X W config,
    checkScheduler X config,
    checkNodePool X config,
    Block.say (checkClusters X.ValidateConsulClusterName "Invalid Consul configuration: "
      config.Consuls),
    Block.say (checkClusters X.ValidateVaultClusterName "Invalid Vault configuration: "
      config.Vaults),
    checkHostVolumes config.Client.HostVolumes,
    checkMinDynamicPort X config,
    checkMaxDynamicPort X config,
    checkDynamicPortOrder config,
    checkReserved X config,
    checkHostNetworks X config.Client.HostNetworks,
    checkArtifact X config,
    checkAddressFamily X config,
    checkRPC X config,
    checkNonDev X config cmdConfig,
    warnProtocolVersion config ]

/-- `Command.IsValidConfig` (lines 323-543): `ok` is the returned boolean and
`ui` is what was written to `c.Ui`. -/
def IsValidConfig {B : Blocks} (X : Externals B) (W : World B)
    (config cmdConfig : Config B) : Block :=
  Block.seq (IsValidConfigBlocks X W config cmdConfig)

/-! ## Signal arbitration

The two `select` loops are functions of the sequence of events that the loop
receives, in the order of arrival, each event being handled before the next
one arrives.  The lifecycle state is the control location: blocked in the loop
of `handleSignals`, blocked in the loop of `terminateGracefully`, or returned
with an exit code. -/

/-- The signals registered with `signal.Notify` (line 1042); `os.Interrupt`
is `SIGINT`. -/
inductive Signal where
  | SIGINT
  | SIGTERM
  | SIGHUP
  | SIGPIPE
deriving DecidableEq, Repr

/-- The text `%v` prints for a signal. -/
def Signal.String : Signal → String
  | Signal.SIGINT => "interrupt"
  | Signal.SIGTERM => "terminated"
  | Signal.SIGHUP => "hangup"
  | Signal.SIGPIPE => "broken pipe"

/-- What can happen while the command waits: a value on `signalCh`, on the
service-stop channel, on `c.ShutdownCh` or on `c.retryJoinErrCh`, the timer of
the graceful shutdown firing, and the goroutine's call of `c.agent.Leave`
returning. -/
inductive Event where
  | signal (sig : Signal)
  | winsvcShutdown
  | shutdown
  | retryJoinErr
  | timeout
  | leaveReturned (err : GoError)
deriving DecidableEq, Repr

/-- Where the command is: in the `select` of `handleSignals`, in the `select`
of `terminateGracefully`, or returned with an exit code. -/
inductive LifecycleState where
  | Running
  | GracefulShutdown
  | Terminated (code : Int)
deriving DecidableEq, Repr

/-- The notifications sent to the service manager. -/
inductive SdState where
  | sdReady
  | sdReloading
  | sdStopping
deriving DecidableEq, Repr

/-- The `circonus.Config` built by `setupTelemetry` (lines 1285-1310). -/
structure CirconusConfig where
  Interval : String
  TokenKey : String
  TokenApp : String
  URL : String
  SubmissionURL : String
  ID : String
  ForceMetricActivation : String
  InstanceID : String
  SearchTag : String
  Tags : String
  DisplayName : String
  BrokerID : String
  BrokerSelectTag : String
deriving DecidableEq, Repr

/-- The metrics sinks that `setupTelemetry` constructs, with the arguments of
their constructors (and the tags set on the datadog sink). -/
inductive Sink where
  | inmem (interval : Int) (retention : Int)
  | statsite (addr : String)
  | statsd (addr : String)
  | prometheus
  | datadog (addr : String) (hostname : String) (tags : List String)
  | circonus (cfg : CirconusConfig)
deriving DecidableEq, Repr

/-- The sink given to `metrics.NewGlobal`: one sink, or a `FanoutSink`. -/
inductive MetricSink where
  | single (sink : Sink)
  | fanout (sinks : List Sink)
deriving DecidableEq, Repr

/-- The fields of `metrics.Config` that `setupTelemetry` sets. -/
structure MetricsConf where
  HostName : String
  EnableHostname : Bool
  EnableHostnameLabel : Bool
  AllowedPrefixes : List String
  BlockedPrefixes : List String
  FilterDefault : Bool
deriving DecidableEq, Repr

/-- The three `retryJoiner` values built by `handleRetryJoin`: the empty one
used to validate the deprecated fields, the server's and the client's. -/
inductive Joiner where
  | empty
  | server
  | client
deriving DecidableEq, Repr

/-- What the command does to the outside, in order: messages on the `Ui`,
lines of the agent's logger, notifications, the start of the goroutine that
calls `c.agent.Leave`, the creation of the timer (nanoseconds), the calls
of the reload methods and of the listener shutdown and construction, and, at
startup, the creation of the logger and the flush of the log gate, the steps
of the telemetry setup, the creation and the shutdown of the agent, the
scheduling of the update check, the call of the server's `Join`, and the start
of a goroutine running `RetryJoin`. -/
inductive Effect where
  | Ui (d : Diag)
  | Log (level : String) (msg : String)
  | SdNotify (state : SdState)
  | Leave
  | NewTimer (d : Int)
  | AgentReload
  | ServerReload
  | ClientReload
  | HTTPShutdown
  | NewHTTPServers
  | NewLogger
  | LogGateFlush
  | NewInmemSink (interval : Int) (retention : Int)
  | DefaultInmemSignal
  | NewSink (sink : Sink)
  | SinkStart
  | NewGlobal (conf : MetricsConf) (sink : MetricSink)
  | NewAgent
  | AgentShutdown
  | UpdateCheck
  | Join (addrs : List String)
  | RetryJoin (joiner : Joiner)
deriving DecidableEq, Repr

/-- The drain block of the client's running configuration; `Deadline` is a
`time.Duration` in nanoseconds. -/
structure DrainConfig where
  Deadline : Int
deriving DecidableEq, Repr

/-- The client's running configuration, as far as the file reads it. -/
structure ClientRuntimeConfig where
  Drain : Option DrainConfig
deriving DecidableEq, Repr

/-- The client subsystem: `GetConfig` may yield nil. -/
structure Client where
  GetConfig : Option ClientRuntimeConfig
deriving DecidableEq, Repr

/-- The agent: its current configuration (`GetConfig`), whether a server is
running (`Server() != nil`), the client if any, and the rest of its state. -/
structure Agent (B : Blocks) (S : Type) where
  config : Config B
  server : Bool
  client : Option Client
  rest : S

/-- The state of the command while it handles signals: the agent, the number
of HTTP servers, whether the goroutine calling `Leave` is in flight, and the
effects so far. -/
structure Command (B : Blocks) (S : Type) where
  agent : Agent B S
  httpServers : Nat
  leaving : Bool
  effects : List Effect

/-- Append effects to the history. -/
def Command.emit {B : Blocks} {S : Type} (c : Command B S) (es : List Effect) :
    Command B S :=
  { c with effects := c.effects ++ es }

/-- Methods of the agent, the server and the client, and helpers of the
package, that are declared in other files. -/
structure AgentOps (B : Blocks) (S : Type) where
  ToUpper : String → String
  isLogLevelValid : String → Bool
  validLogLevels : String
  ShouldReload : Agent B S → Config B → Bool × Bool
  Reload : Agent B S → Config B → Agent B S × GoError
  convertServerConfig : Config B → GoError
  ServerReload : Agent B S → Config B → Agent B S × GoError
  convertClientConfig : Config B → GoError
  finalizeClientConfig : Agent B S → Config B → GoError
  ClientReload : Agent B S → Config B → Agent B S × GoError
  NewHTTPServers : Agent B S → Config B → Except String Nat

/-- What `readConfig` reads at the time it runs: the outcome of lines 61-314
(flag parsing, loading and merging the sources, normalisation), that is the
messages written, and the merged configuration with the CLI overlay unless
the function returned nil there; and the world seen by the validation. -/
structure Inputs (B : Blocks) where
  assembleUi : List Diag
  assembled : Option (Config B × Config B)
  world : World B

/-- `Command.readConfig` (lines 61-321): nil unless the sources assemble and
the result is valid. -/
def readConfig {B : Blocks} (X : Externals B) (inp : Inputs B) :
    Option (Config B) × List Diag :=
  match inp.assembled with
  | none => (none, inp.assembleUi)
  | some (config, cmdConfig) =>
    if (IsValidConfig X inp.world config cmdConfig).ok then
      (some config, inp.assembleUi ++ (IsValidConfig X inp.world config cmdConfig).ui)
    else
      (none, inp.assembleUi ++ (IsValidConfig X inp.world config cmdConfig).ui)

/-- `Command.reloadHTTPServer` (lines 1109-1123). -/
def reloadHTTPServer {B : Blocks} {S : Type} (A : AgentOps B S) (c : Command B S) :
    Command B S × GoError :=
  let c₁ := c.emit (Effect.Log "info" "reloading HTTP server with new TLS configuration"
    :: List.replicate c.httpServers Effect.HTTPShutdown ++ [Effect.NewHTTPServers])
  match A.NewHTTPServers c.agent c.agent.config with
  | Except.error err => (c₁, some err)
  | Except.ok servers => ({ c₁ with httpServers := servers }, none)

/-- Lines 1196-1206 of `handleReload`: the listeners are restarted last. -/
def handleReloadHTTP {B : Blocks} {S : Type} (A : AgentOps B S) (shouldReloadHTTP : Bool)
    (c : Command B S) : Command B S × GoError :=
  if shouldReloadHTTP then
    match reloadHTTPServer A c with
    | (c₁, some _) => (c₁.emit [Effect.Log "error" "reloading config failed"], none)
    | (c₁, none) => (c₁, none)
  else (c, none)

/-- Lines 1176-1206 of `handleReload`: the client, then the listeners. -/
def handleReloadClient {B : Blocks} {S : Type} (A : AgentOps B S) (newConf : Config B)
    (shouldReloadHTTP : Bool) (c : Command B S) : Command B S × GoError :=
  match c.agent.client with
  | some _ =>
    let c₁ := c.emit [Effect.Log "debug" "starting reload of client config"]
    match A.convertClientConfig newConf with
    | some _ => (c₁.emit [Effect.Log "error" "failed to convert client config"], none)
    | none =>
      match A.finalizeClientConfig c₁.agent newConf with
      | some _ => (c₁.emit [Effect.Log "error" "failed to finalize client config"], none)
      | none =>
        let c₂ := { c₁.emit [Effect.ClientReload] with
                    agent := (A.ClientReload c₁.agent newConf).1 }
        match (A.ClientReload c₁.agent newConf).2 with
        | some err =>
          (c₂.emit [Effect.Log "error" "reloading client config failed"],
            some ("reloading client config failed: " ++ err))
        | none => handleReloadHTTP A shouldReloadHTTP c₂
  | none => handleReloadHTTP A shouldReloadHTTP c

/-- Lines 1158-1206 of `handleReload`: the server, then the rest. -/
def handleReloadServer {B : Blocks} {S : Type} (A : AgentOps B S) (newConf : Config B)
    (shouldReloadHTTP : Bool) (c : Command B S) : Command B S × GoError :=
  if c.agent.server then
    let c₁ := c.emit [Effect.Log "debug" "starting reload of server config"]
    match A.convertServerConfig newConf with
    | some _ => (c₁.emit [Effect.Log "error" "failed to convert server config"], none)
    | none =>
      let c₂ := { c₁.emit [Effect.ServerReload] with
                  agent := (A.ServerReload c₁.agent newConf).1 }
      match (A.ServerReload c₁.agent newConf).2 with
      | some err =>
        (c₂.emit [Effect.Log "error" "reloading server config failed"],
          some ("reloading server config failed: " ++ err))
      | none => handleReloadClient A newConf shouldReloadHTTP c₂
  else handleReloadClient A newConf shouldReloadHTTP c

/-- Lines 1148-1206 of `handleReload`: the agent, then the rest. -/
def handleReloadAgent {B : Blocks} {S : Type} (A : AgentOps B S) (newConf : Config B)
    (c : Command B S) : Command B S × GoError :=
  if (A.ShouldReload c.agent newConf).1 then
    let c₁ := { c.emit [Effect.Log "debug" "starting reload of agent config",
                  Effect.AgentReload] with
                agent := (A.Reload c.agent newConf).1 }
    match (A.Reload c.agent newConf).2 with
    | some _ => (c₁.emit [Effect.Log "error" "failed to reload the config"], none)
    | none => handleReloadServer A newConf (A.ShouldReload c.agent newConf).2 c₁
  else handleReloadServer A newConf (A.ShouldReload c.agent newConf).2 c

/-- `Command.handleReload` (lines 1128-1207): the new state and the returned
error. -/
def handleReload {B : Blocks} {S : Type} (X : Externals B) (A : AgentOps B S)
    (inp : Inputs B) (c : Command B S) : Command B S × GoError :=
  let c₁ := c.emit (Effect.Ui (Diag.Output "Reloading configuration...")
    :: (readConfig X inp).2.map Effect.Ui)
  match (readConfig X inp).1 with
  | none => (c₁.emit [Effect.Ui (Diag.Error "Failed to reload configs")], none)
  | some newConf =>
    -- Change the log level
    if !A.isLogLevelValid (A.ToUpper newConf.LogLevel) then
      handleReloadAgent A { newConf with LogLevel := c₁.agent.config.LogLevel }
        (c₁.emit [Effect.Ui (Diag.Error ("Invalid log level: " ++ A.ToUpper newConf.LogLevel
          ++ ". Valid log levels are: " ++ A.validLogLevels))])
    else handleReloadAgent A newConf c₁

/-- The constant `gracefulTimeout` (line 44): five seconds, in nanoseconds. -/
def gracefulTimeout : Int := 5 * 1000000000

/-- Wrap-around of a 64-bit signed integer, the type of `time.Duration`. -/
def int64 (n : Int) : Int := (n + 2 ^ 63) % 2 ^ 64 - 2 ^ 63

/-- Lines 990-1000 of `terminateGracefully`: the duration given to the timer,
and the message written when the client's configuration cannot be read. -/
def gracefulDelay {B : Blocks} {S : Type} (agent : Agent B S) : Int × List Effect :=
  match agent.client with
  | none => (gracefulTimeout, [])
  | some client =>
    match client.GetConfig with
    | none =>
      (gracefulTimeout, [Effect.Ui (Diag.Output
        "Unable to read the agent configuration, using the default graceful timeout")])
    | some config =>
      match config.Drain with
      | none => (gracefulTimeout, [])
      | some drain =>
        if drain.Deadline ≠ 0 then (int64 (gracefulTimeout + drain.Deadline), [])
        else (gracefulTimeout, [])

/-- The loop of `terminateGracefully` (lines 1013-1034).  The goroutine of
lines 1003-1009 closes `gracefulCh` only when `Leave` returned nil; when it
returned an error it writes the error and ends, and the loop keeps waiting.
Events of channels that this `select` does not read are left unread. -/
def waitGraceful {B : Blocks} {S : Type} (c : Command B S) :
    List Event → Command B S × LifecycleState
  | [] => (c, LifecycleState.GracefulShutdown)
  | Event.signal Signal.SIGPIPE :: rest =>
    waitGraceful
      (c.emit [Effect.Log "trace" "caught SIGPIPE during graceful shutdown, ignoring"]) rest
  | Event.signal _ :: _ =>
    (c.emit [Effect.Log "trace" "caught signal during graceful shutdown"],
      LifecycleState.Terminated 1)
  | Event.timeout :: _ => (c, LifecycleState.Terminated 1)
  | Event.leaveReturned err :: rest =>
    if c.leaving then
      match err with
      | some msg =>
        waitGraceful
          ({ c with leaving := false }.emit [Effect.Ui (Diag.Error ("Error: " ++ msg))]) rest
      | none => ({ c with leaving := false }, LifecycleState.Terminated 0)
    else waitGraceful c rest
  | Event.winsvcShutdown :: rest => waitGraceful c rest
  | Event.shutdown :: rest => waitGraceful c rest
  | Event.retryJoinErr :: rest => waitGraceful c rest

/-- Lines 984-1011 of `terminateGracefully`: the notification, the timeout,
the goroutine that calls `Leave`, and the timer. -/
def startGraceful {B : Blocks} {S : Type} (c : Command B S) : Command B S :=
  { c.emit ([Effect.SdNotify SdState.sdStopping] ++ (gracefulDelay c.agent).2 ++
      [Effect.Ui (Diag.Output "Gracefully shutting down agent..."), Effect.Leave,
        Effect.NewTimer (gracefulDelay c.agent).1]) with
    leaving := true }

/-- `Command.terminateGracefully` (lines 983-1035). -/
def terminateGracefully {B : Blocks} {S : Type} (c : Command B S) (events : List Event) :
    Command B S × LifecycleState :=
  waitGraceful (startGraceful c) events

/-- One step of the trace given to `handleSignals`: the event, and what a
reload would read if the event triggers one. -/
structure Tick (B : Blocks) where
  event : Event
  inputs : Inputs B

/-- The loop of `handleSignals` (lines 1055-1104).  The timer and the leave
goroutine do not exist while this loop runs, so their events are skipped. -/
def runSignals {B : Blocks} {S : Type} (X : Externals B) (A : AgentOps B S)
    (c : Command B S) : List (Tick B) → Command B S × LifecycleState
  | [] => (c, LifecycleState.Running)
  | ⟨Event.signal Signal.SIGPIPE, _⟩ :: rest =>
    -- Skip any SIGPIPE signal
    runSignals X A
      (c.emit [Effect.Ui (Diag.Output ("Caught signal: " ++ Signal.SIGPIPE.String))]) rest
  | ⟨Event.signal Signal.SIGHUP, inp⟩ :: rest =>
    match handleReload X A inp
        (c.emit [Effect.Ui (Diag.Output ("Caught signal: " ++ Signal.SIGHUP.String)),
          Effect.SdNotify SdState.sdReloading]) with
    | (c₁, some err) =>
      (c₁.emit [Effect.Ui (Diag.Error ("Fatal error while reloading: " ++ err))],
        LifecycleState.Terminated 1)
    | (c₁, none) => runSignals X A (c₁.emit [Effect.SdNotify SdState.sdReady]) rest
  | ⟨Event.signal Signal.SIGTERM, _⟩ :: rest =>
    if !c.agent.config.LeaveOnTerm then
      (c.emit [Effect.Ui (Diag.Output ("Caught signal: " ++ Signal.SIGTERM.String))],
        LifecycleState.Terminated 1)
    else
      terminateGracefully
        (c.emit [Effect.Ui (Diag.Output ("Caught signal: " ++ Signal.SIGTERM.String))])
        (rest.map Tick.event)
  | ⟨Event.signal Signal.SIGINT, _⟩ :: rest =>
    if !c.agent.config.LeaveOnInt then
      (c.emit [Effect.Ui (Diag.Output ("Caught signal: " ++ Signal.SIGINT.String))],
        LifecycleState.Terminated 1)
    else
      terminateGracefully
        (c.emit [Effect.Ui (Diag.Output ("Caught signal: " ++ Signal.SIGINT.String))])
        (rest.map Tick.event)
  | ⟨Event.winsvcShutdown, _⟩ :: rest =>
    if !c.agent.config.LeaveOnInt then (c, LifecycleState.Terminated 1)
    else terminateGracefully c (rest.map Tick.event)
  | ⟨Event.shutdown, _⟩ :: rest =>
    if !c.agent.config.LeaveOnInt then (c, LifecycleState.Terminated 1)
    else terminateGracefully c (rest.map Tick.event)
  | ⟨Event.retryJoinErr, _⟩ :: _ => (c, LifecycleState.Terminated 1)
  | ⟨Event.timeout, _⟩ :: rest => runSignals X A c rest
  | ⟨Event.leaveReturned _, _⟩ :: rest => runSignals X A c rest

/-- `Command.handleSignals` (lines 1038-1105): `notifyErr` is the error of
`openNotify`. -/
def handleSignals {B : Blocks} {S : Type} (X : Externals B) (A : AgentOps B S)
    (notifyErr : GoError) (c : Command B S) (ticks : List (Tick B)) :
    Command B S × LifecycleState :=
  runSignals X A
    (c.emit ((match notifyErr with
        | some _ => [Effect.Log "debug" "notify socket could not be accessed"]
        | none => []) ++ [Effect.SdNotify SdState.sdReady]))
    ticks

/-! ## Startup

`Run` (lines 769-911) and the functions it calls before the signal loop.  The
effects record the calls made on `c.Ui`, whichever implementation `Run` has
put behind it. -/

/-- What the startup takes from other packages and files: the defaults of the
metrics library, the prefix filters of the telemetry block, the constructors
of the external sinks, of the syslog logger and of the agent, the parser of
durations, the server's `Join`, the validation of a `retryJoiner`, the lines
of the agent synopsis printed by lines 862-894, and the rest of a zero
`Telemetry` value. -/
structure RunOps (B : Blocks) (S : Type) where
  DefaultConfig : MetricsConf
  zeroTelemetry : B.Telemetry
  PrefixFilters : Telemetry B → Except String (List String × List String)
  NewSink : Sink → GoError
  NewSyslogLogger : String → String → GoError
  ParseDuration : String → GoError
  NewAgent : Config B → Except String (Agent B S)
  ServerJoin : Agent B S → List String → Except String Int
  Validate : Joiner → Config B → GoError
  InfoLines : Agent B S → Config B → List String

/-- `SetupLoggers` (lines 549-623): nil unless the log level is valid and the
syslog and file writers can be set up; the configuration comes back with
`EnableSyslog` cleared when the level is `OFF`. -/
def SetupLoggers {B : Blocks} {S : Type} (A : AgentOps B S) (R : RunOps B S)
    (config : Config B) : Option (Config B) × List Diag :=
  if !A.isLogLevelValid (A.ToUpper config.LogLevel) then
    (none, [Diag.Error ("Invalid log level: " ++ A.ToUpper config.LogLevel
      ++ ". Valid log levels are: " ++ A.validLogLevels)])
  else
    let config₁ : Config B :=
      if A.ToUpper config.LogLevel = "OFF" then { config with EnableSyslog := false }
      else config
    let syslog : Bool × List Diag :=
      if config₁.EnableSyslog then
        match R.NewSyslogLogger (A.ToUpper config.LogLevel) config₁.SyslogFacility with
        | some err =>
          (false, [Diag.Output ("Config enable_syslog is `true` with log_level="
              ++ config.LogLevel),
            Diag.Error ("Syslog setup failed: " ++ err)])
        | none =>
          (true, [Diag.Output ("Config enable_syslog is `true` with log_level="
            ++ config.LogLevel)])
      else (true, [])
    if !syslog.1 then (none, syslog.2)
    else if config₁.LogFile ≠ "" ∧ config₁.LogRotateDuration ≠ "" then
      match R.ParseDuration config₁.LogRotateDuration with
      | some err =>
        (none, syslog.2 ++ [Diag.Error ("Failed to parse log rotation duration: " ++ err)])
      | none => (some config₁, syslog.2)
    else (some config₁, syslog.2)

/-- The `circonus.Config` of lines 1285-1310, with its three defaults. -/
def circonusConfig {B : Blocks} (tel : Telemetry B) : CirconusConfig where
  Interval := tel.CirconusSubmissionInterval
  TokenKey := tel.CirconusAPIToken
  TokenApp := if tel.CirconusAPIApp = "" then "nomad" else tel.CirconusAPIApp
  URL := tel.CirconusAPIURL
  SubmissionURL := tel.CirconusCheckSubmissionURL
  ID := tel.CirconusCheckID
  ForceMetricActivation := tel.CirconusCheckForceMetricActivation
  InstanceID := tel.CirconusCheckInstanceID
  SearchTag :=
    if tel.CirconusCheckSearchTag = "" then "service:nomad" else tel.CirconusCheckSearchTag
  Tags := tel.CirconusCheckTags
  DisplayName :=
    if tel.CirconusCheckDisplayName = "" then "Nomad" else tel.CirconusCheckDisplayName
  BrokerID := tel.CirconusBrokerID
  BrokerSelectTag := tel.CirconusBrokerSelectTag

/-- The external sinks that the telemetry block asks for, in the order in
which `setupTelemetry` constructs them (lines 1245-1318): statsite, statsd,
prometheus, datadog, circonus. -/
def requestedSinks {B : Blocks} (nodeName : String) (tel : Telemetry B) : List Sink :=
  (if tel.StatsiteAddr ≠ "" then [Sink.statsite tel.StatsiteAddr] else []) ++
  (if tel.StatsdAddr ≠ "" then [Sink.statsd tel.StatsdAddr] else []) ++
  (if tel.PrometheusMetrics then [Sink.prometheus] else []) ++
  (if tel.DataDogAddr ≠ "" then [Sink.datadog tel.DataDogAddr nodeName tel.DataDogTags]
    else []) ++
  (if tel.CirconusAPIToken ≠ "" ∨ tel.CirconusCheckSubmissionURL ≠ "" then
    [Sink.circonus (circonusConfig tel)] else [])

/-- The calls made for a sink whose constructor succeeds: the constructor,
and `Start` for the circonus sink (line 1316). -/
def sinkCalls (sink : Sink) : List Effect :=
  match sink with
  | Sink.circonus _ => [Effect.NewSink sink, Effect.SinkStart]
  | _ => [Effect.NewSink sink]

/-- The constructors are called in order; the first error ends the function
(`return inm, err`).  The result is the calls made, and the error or the
`fanout` built. -/
def buildSinks {B : Blocks} {S : Type} (R : RunOps B S) :
    List Sink → List Effect × Except String (List Sink)
  | [] => ([], Except.ok [])
  | sink :: rest =>
    match R.NewSink sink with
    | some err => ([Effect.NewSink sink], Except.error err)
    | none =>
      match buildSinks R rest with
      | (calls, Except.error err) => (sinkCalls sink ++ calls, Except.error err)
      | (calls, Except.ok fanout) => (sinkCalls sink ++ calls, Except.ok (sink :: fanout))

/-- The metrics configuration of lines 1222-1243, before the global sink is
chosen. -/
def metricsConf {B : Blocks} {S : Type} (R : RunOps B S) (config : Config B)
    (tel : Telemetry B) (allowed blocked : List String) : MetricsConf :=
  { R.DefaultConfig with
    EnableHostname := if tel.UseNodeName then true else !tel.DisableHostname
    EnableHostnameLabel := !tel.DisableHostname
    HostName := if tel.UseNodeName then config.NodeName else R.DefaultConfig.HostName
    AllowedPrefixes := allowed
    BlockedPrefixes := blocked
    FilterDefault :=
      match tel.FilterDefault with
      | some b => b
      | none => R.DefaultConfig.FilterDefault }

/-- `Command.setupTelemetry` (lines 1210-1330): the effects and the error. -/
def setupTelemetry {B : Blocks} {S : Type} (R : RunOps B S) (config : Config B) :
    List Effect × GoError :=
  let telConfig : Telemetry B :=
    match config.Telemetry with
    | none => { rest := R.zeroTelemetry }
    | some tel => tel
  let inm := Sink.inmem telConfig.inMemoryCollectionInterval telConfig.inMemoryRetentionPeriod
  let start : List Effect :=
    [Effect.NewInmemSink telConfig.inMemoryCollectionInterval
        telConfig.inMemoryRetentionPeriod,
      Effect.DefaultInmemSignal]
  match R.PrefixFilters telConfig with
  | Except.error err => (start, some err)
  | Except.ok (allowed, blocked) =>
    match (buildSinks R (requestedSinks config.NodeName telConfig)).2 with
    | Except.error err =>
      (start ++ (buildSinks R (requestedSinks config.NodeName telConfig)).1, some err)
    | Except.ok fanout =>
      -- Initialize the global sink
      if fanout.length > 0 then
        (start ++ (buildSinks R (requestedSinks config.NodeName telConfig)).1 ++
          [Effect.NewGlobal (metricsConf R config telConfig allowed blocked)
            (MetricSink.fanout (fanout ++ [inm]))], none)
      else
        (start ++ (buildSinks R (requestedSinks config.NodeName telConfig)).1 ++
          [Effect.NewGlobal
            { metricsConf R config telConfig allowed blocked with EnableHostname := false }
            (MetricSink.single inm)], none)

/-- `Command.setupAgent` (lines 626-673), run after the effects `before`: the
command with the new agent and its HTTP servers, or the effects up to the
error.  The update check is scheduled when `DisableUpdateCheck` is set and
false. -/
def setupAgent {B : Blocks} {S : Type} (A : AgentOps B S) (R : RunOps B S)
    (config : Config B) (before : List Effect) : Except (List Effect) (Command B S) :=
  match R.NewAgent config with
  | Except.error err =>
    Except.error (before ++
      [Effect.Ui (Diag.Output "Starting Nomad agent..."), Effect.NewAgent,
        Effect.Log "error" "error starting agent",
        Effect.Ui (Diag.Error ("Error starting agent: " ++ err))])
  | Except.ok agent =>
    match A.NewHTTPServers agent config with
    | Except.error err =>
      Except.error (before ++
        [Effect.Ui (Diag.Output "Starting Nomad agent..."), Effect.NewAgent,
          Effect.NewHTTPServers, Effect.AgentShutdown,
          Effect.Ui (Diag.Error ("Error starting http server: " ++ err))])
    | Except.ok servers =>
      Except.ok
        { agent := agent
          httpServers := servers
          leaving := false
          effects := before ++
            [Effect.Ui (Diag.Output "Starting Nomad agent..."), Effect.NewAgent,
              Effect.NewHTTPServers] ++
            (if config.DisableUpdateCheck = some false then [Effect.UpdateCheck] else []) }

/-- The list `config.Server.ServerJoin.StartJoin`, empty when the block is
nil: its length is the variable `new` of lines 1340-1343. -/
def newStartJoin {B : Blocks} (config : Config B) : List String :=
  match config.Server.ServerJoin with
  | some sj => sj.StartJoin
  | none => []

/-- `Command.startupJoin` (lines 1332-1367). -/
def startupJoin {B : Blocks} {S : Type} (R : RunOps B S) (config : Config B)
    (c : Command B S) : Command B S × GoError :=
  -- Nothing to do
  if !config.Server.Enabled then (c, none)
  -- Validate both old and new aren't being set
  else if config.Server.StartJoin.length ≠ 0 ∧ (newStartJoin config).length ≠ 0 then
    (c, some ("server_join and start_join cannot both be defined; "
      ++ "prefer setting the server_join block"))
  -- Nothing to do
  else if config.Server.StartJoin.length + (newStartJoin config).length = 0 then (c, none)
  else
    -- Combine the lists and join
    let joining : List String :=
      if (newStartJoin config).length ≠ 0 then config.Server.StartJoin ++ newStartJoin config
      else config.Server.StartJoin
    match R.ServerJoin c.agent joining with
    | Except.error err =>
      (c.emit [Effect.Ui (Diag.Output "Joining cluster..."), Effect.Join joining], some err)
    | Except.ok n =>
      (c.emit [Effect.Ui (Diag.Output "Joining cluster..."), Effect.Join joining,
        Effect.Ui (Diag.Output ("Join completed. Synced with " ++ fmtInt n
          ++ " initial agents"))], none)

/-- Lines 925-937 of `handleRetryJoin`: the deprecated fields are moved into
the `server_join` block `sj` and cleared. -/
def moveRetryJoin {B : Blocks} (server : ServerConfig B) (sj : ServerJoin) :
    ServerConfig B :=
  { server with
    ServerJoin := some
      { sj with
        RetryJoin := if server.RetryJoin.length ≠ 0 then server.RetryJoin else sj.RetryJoin
        RetryMaxAttempts :=
          if server.RetryMaxAttempts ≠ 0 then server.RetryMaxAttempts
          else sj.RetryMaxAttempts
        RetryInterval :=
          if server.RetryInterval ≠ 0 then server.RetryInterval else sj.RetryInterval }
    RetryJoin := []
    RetryMaxAttempts := 0
    RetryInterval := 0 }

/-- The `RetryJoin` list of a `server_join` block, empty when the block is
nil: the test `ServerJoin != nil && len(ServerJoin.RetryJoin) != 0` of lines
942-944 and 961-963 is that this list is not empty. -/
def blockRetryJoin (serverJoin : Option ServerJoin) : List String :=
  match serverJoin with
  | some sj => sj.RetryJoin
  | none => []

/-- Lines 961-979 of `handleRetryJoin`: the client's joiner. -/
def handleRetryJoinClient {B : Blocks} {S : Type} (R : RunOps B S) (config : Config B)
    (c : Command B S) : Command B S × Config B × GoError :=
  if config.Client.Enabled ∧ (blockRetryJoin config.Client.ServerJoin).length ≠ 0 then
    match R.Validate Joiner.client config with
    | some err => (c, config, some err)
    | none => (c.emit [Effect.RetryJoin Joiner.client], config, none)
  else (c, config, none)

/-- Lines 942-979 of `handleRetryJoin`: the server's joiner, then the client's. -/
def handleRetryJoinServer {B : Blocks} {S : Type} (R : RunOps B S) (config : Config B)
    (c : Command B S) : Command B S × Config B × GoError :=
  if config.Server.Enabled ∧ (blockRetryJoin config.Server.ServerJoin).length ≠ 0 then
    match R.Validate Joiner.server config with
    | some err => (c, config, some err)
    | none => handleRetryJoinClient R config (c.emit [Effect.RetryJoin Joiner.server])
  else handleRetryJoinClient R config c

/-- `Command.handleRetryJoin` (lines 914-980).  The function writes into the
configuration it is given, so the configuration comes back; the result is
`none` when line 927 assigns through a nil `ServerJoin` pointer, which is a
run-time panic. -/
def handleRetryJoin {B : Blocks} {S : Type} (R : RunOps B S) (config : Config B)
    (c : Command B S) : Option (Command B S × Config B × GoError) :=
  if config.Server.Enabled ∧ config.Server.RetryJoin.length ≠ 0 then
    match R.Validate Joiner.empty config with
    | some err => some (c, config, some err)
    | none =>
      match config.Server.ServerJoin with
      | none => none
      | some sj =>
        -- Remove the duplicate fields
        some (handleRetryJoinServer R { config with Server := moveRetryJoin config.Server sj }
          (c.emit [Effect.Log "warn"
            "using deprecated retry_join fields. Upgrade configuration to use server_join"]))
  else some (handleRetryJoinServer R config c)

/-- The deferred function of `Run` (lines 844-854), run when `Run` returns:
the agent is shut down, then every HTTP server. -/
def runDeferred {B : Blocks} {S : Type} (c : Command B S) : List Effect :=
  c.effects ++ Effect.AgentShutdown :: List.replicate c.httpServers Effect.HTTPShutdown

/-- Lines 856-910 of `Run`, once the agent is set up: the startup join, the
synopsis, the retry join and the signal loop.  A panic ends the process with
status 2 after the deferred function. -/
def runAgent {B : Blocks} {S : Type} (X : Externals B) (A : AgentOps B S) (R : RunOps B S)
    (notifyErr : GoError) (config : Config B) (c : Command B S) (ticks : List (Tick B)) :
    List Effect × LifecycleState :=
  -- Join startup nodes if specified
  match startupJoin R config c with
  | (c₁, some err) =>
    (runDeferred (c₁.emit [Effect.Ui (Diag.Error err)]), LifecycleState.Terminated 1)
  | (c₁, none) =>
    let c₂ := c₁.emit
      ([Effect.Ui (Diag.Output "Nomad agent configuration:\n")] ++
        (R.InfoLines c₁.agent config).map (fun l => Effect.Ui (Diag.Info l)) ++
        [Effect.Ui (Diag.Output ""),
          Effect.Ui (Diag.Output "Nomad agent started! Log data will stream in below:\n"),
          Effect.LogGateFlush])
    -- Start retry join process
    match handleRetryJoin R config c₂ with
    | none => (runDeferred c₂, LifecycleState.Terminated 2)
    | some (c₃, _, some err) =>
      (runDeferred (c₃.emit [Effect.Ui (Diag.Error err)]), LifecycleState.Terminated 1)
    | some (c₃, _, none) =>
      -- Wait for exit
      match handleSignals X A notifyErr c₃ ticks with
      | (c₄, LifecycleState.Terminated code) =>
        (runDeferred c₄, LifecycleState.Terminated code)
      | (c₄, state) => (c₄.effects, state)

/-- Lines 824-842 of `Run`, once the loggers are set up: the configuration
files are named, then the telemetry and the agent are set up. -/
def runSetup {B : Blocks} {S : Type} (X : Externals B) (A : AgentOps B S) (R : RunOps B S)
    (notifyErr : GoError) (config : Config B) (before : List Effect)
    (ticks : List (Tick B)) : List Effect × LifecycleState :=
  let logged : List Effect := before ++
    [if config.Files.length > 0 then
        Effect.Ui (Diag.Output ("Loaded configuration from "
          ++ String.intercalate ", " config.Files))
      else Effect.Ui (Diag.Output "No configuration files loaded")]
  -- Initialize the telemetry
  match setupTelemetry R config with
  | (tel, some err) =>
    (logged ++ tel ++ [Effect.Ui (Diag.Error ("Error initializing telemetry: " ++ err))],
      LifecycleState.Terminated 1)
  | (tel, none) =>
    -- Create the agent
    match setupAgent A R config (logged ++ tel) with
    | Except.error effects => (effects ++ [Effect.LogGateFlush], LifecycleState.Terminated 1)
    | Except.ok c => runAgent X A R notifyErr config c ticks

/-- `Command.Run` (lines 769-911): the effects and the state in which the
trace `ticks` leaves the command; `Terminated code` is the returned code.
`inp` is what `readConfig` reads from the arguments and the files. -/
def Run {B : Blocks} {S : Type} (X : Externals B) (A : AgentOps B S) (R : RunOps B S)
    (notifyErr : GoError) (inp : Inputs B) (ticks : List (Tick B)) :
    List Effect × LifecycleState :=
  -- Parse our configs
  match readConfig X inp with
  | (none, ui) => (ui.map Effect.Ui, LifecycleState.Terminated 1)
  | (some config, ui) =>
    -- Set up the log outputs.
    match SetupLoggers A R config with
    | (none, lui) => (ui.map Effect.Ui ++ lui.map Effect.Ui, LifecycleState.Terminated 1)
    | (some config₁, lui) =>
      runSetup X A R notifyErr config₁
        (ui.map Effect.Ui ++ lui.map Effect.Ui ++ Effect.NewLogger ::
          (if config₁.LogJson then [Effect.LogGateFlush] else []))
        ticks

/-! ## Concrete instances

A concrete set of externals, a world and configurations, on which the
definitions can be evaluated. -/

/-- Blocks without content. -/
def Sample.blocks : Blocks := ⟨Unit, Unit, Unit, Unit, Unit⟩

/-- Externals that accept every block; paths follow the Unix rules. -/
def Sample.externals : Externals Sample.blocks where
  MaxValidPort := 65536
  NodePoolAll := "all"
  serfKeyring := "server/serf.keyring"
  NodeNetworkAF_IPv4 := "ipv4"
  NodeNetworkAF_IPv6 := "ipv6"
  IsAbs := fun p => p.data.head? == some '/'
  Join := fun a b => a ++ "/" ++ b
  Quote := fun s => "\"" ++ s ++ "\""
  TelemetryValidate := fun _ => none
  TLSIsEmpty := fun _ => false
  EncryptBytes := fun _ => none
  IsValidInterpVariable := fun k => !k.data.contains ' '
  SchedulerValidate := fun _ => none
  ValidateNodePoolName := fun _ => none
  ValidateConsulClusterName := fun _ => none
  ValidateVaultClusterName := fun _ => none
  ParsePortRanges := fun _ => none
  ArtifactValidate := fun _ => none
  AddressFamilyValidate := fun _ => none
  RPCValidate := fun _ => none
  URLParse := fun _ => Except.ok "https"

/-- A world whose maps are visited in the order they were written, with no
keyring file on disk. -/
def Sample.world : World Sample.blocks := ⟨id, fun _ => false, fun _ => none⟩

/-- A world whose maps are visited in the opposite order. -/
def Sample.worldRev : World Sample.blocks := ⟨List.reverse, fun _ => false, fun _ => none⟩

/-- A client block with every directory derived from `/var/nomad`. -/
def Sample.client : ClientConfig Sample.blocks where
  Enabled := true
  StateDir := "/var/nomad/client"
  AllocDir := "/var/nomad/alloc"
  AllocMountsDir := "/var/nomad/mounts"
  HostVolumesDir := ""
  HostVolumePluginDir := ""
  Meta := [("rack", "r1")]
  NodePool := "default"
  HostVolumes := []
  MinDynamicPort := 20000
  MaxDynamicPort := 32000
  Reserved := some ⟨""⟩
  HostNetworks := []
  Artifact := ()
  PreferredAddressFamily := ""

/-- A server block asking for three bootstrap servers. -/
def Sample.server : ServerConfig Sample.blocks where
  Enabled := true
  EncryptKey := ""
  DefaultSchedulerConfig := ()
  BootstrapExpect := 3
  OIDCIssuer := ""
  ProtocolVersion := 0

/-- A mixed-mode configuration that passes validation. -/
def Sample.config : Config Sample.blocks where
  Region := "global"
  Datacenter := "dc1"
  DataDir := "/var/nomad"
  PluginDir := "/var/nomad/plugins"
  LogLevel := "INFO"
  DevMode := false
  LeaveOnInt := false
  LeaveOnTerm := false
  Telemetry := some { rest := () }
  TLSConfig := none
  Server := Sample.server
  Client := Sample.client
  Consuls := [⟨"default"⟩]
  Vaults := [⟨"default"⟩]
  RPC := ()

/-- The overlay of a command line that sets no option. -/
def Sample.cmdConfig : Config Sample.blocks :=
  { Sample.config with
    Region := "", Datacenter := "", DataDir := "", PluginDir := "", LogLevel := "",
    Server := { Sample.server with Enabled := false, BootstrapExpect := 0 },
    Client :=
      { Sample.client with
        Enabled := false, StateDir := "", AllocDir := "", AllocMountsDir := "",
        Meta := [], NodePool := "", MinDynamicPort := 0, MaxDynamicPort := 0,
        Reserved := none },
    Consuls := [], Vaults := [] }

/-- A configuration with neither mode enabled. -/
def Sample.configNoMode : Config Sample.blocks :=
  { Sample.config with
    Server := { Sample.server with Enabled := false },
    Client := { Sample.client with Enabled := false } }

/-- A client-only configuration whose file asks for three bootstrap servers. -/
def Sample.configClientBootstrap : Config Sample.blocks :=
  { Sample.config with Server := { Sample.server with Enabled := false } }

/-- A configuration whose dynamic port range is inverted. -/
def Sample.configBadPorts : Config Sample.blocks :=
  { Sample.config with
    Client := { Sample.client with MinDynamicPort := 32000, MaxDynamicPort := 20000 } }

/-- A configuration with two relative directories. -/
def Sample.configTwoRelative : Config Sample.blocks :=
  { Sample.config with DataDir := "data", PluginDir := "plugins" }

/-- A configuration with one relative directory. -/
def Sample.configOneRelative : Config Sample.blocks :=
  { Sample.config with PluginDir := "plugins" }

/-- A server configuration with a gossip encryption key. -/
def Sample.configEncrypt : Config Sample.blocks :=
  { Sample.config with Server := { Sample.server with EncryptKey := "a2V5" } }

/-- A world in which the keyring file exists. -/
def Sample.worldKeyring : World Sample.blocks := ⟨id, fun _ => true, fun _ => none⟩

/-- The entries of `dirs` that are populated and not absolute. -/
def relativeDirs {B : Blocks} (X : Externals B) (config : Config B) :
    List (String × String) :=
  (dirs config).filter (fun p => decide (p.2 ≠ "") && !X.IsAbs p.2)

/-- The entries of `Client.Meta` whose key is not a valid interpolation variable. -/
def invalidMetaKeys {B : Blocks} (X : Externals B) (config : Config B) :
    List (String × String) :=
  config.Client.Meta.filter (fun p => !X.IsValidInterpVariable p.1)

/-- Events on which the loop of `terminateGracefully` takes no decision: a
broken pipe, and values on channels that its `select` does not read. -/
def Event.passesGraceful : Event → Bool
  | Event.signal Signal.SIGPIPE => true
  | Event.winsvcShutdown => true
  | Event.shutdown => true
  | Event.retryJoinErr => true
  | _ => false

/-- Agent methods that always succeed and leave the agent as it is. -/
def Sample.agentOps : AgentOps Sample.blocks Unit where
  ToUpper := fun s => s
  isLogLevelValid := fun s => s = "INFO" || s = "DEBUG"
  validLogLevels := "[TRACE DEBUG INFO WARN ERROR OFF]"
  ShouldReload := fun _ _ => (false, false)
  Reload := fun a _ => (a, none)
  convertServerConfig := fun _ => none
  ServerReload := fun a _ => (a, none)
  convertClientConfig := fun _ => none
  finalizeClientConfig := fun _ _ => none
  ClientReload := fun a _ => (a, none)
  NewHTTPServers := fun _ _ => Except.ok 1

/-- A command whose agent leaves on interrupt and on terminate. -/
def Sample.commandLeave : Command Sample.blocks Unit where
  agent :=
    { config := { Sample.config with LeaveOnInt := true, LeaveOnTerm := true }
      server := true
      client := some ⟨some ⟨none⟩⟩
      rest := () }
  httpServers := 1
  leaving := false
  effects := []

/-- A command whose agent does not leave on a signal. -/
def Sample.commandNoLeave : Command Sample.blocks Unit where
  agent := { config := Sample.config, server := true, client := none, rest := () }
  httpServers := 1
  leaving := false
  effects := []

/-- Inputs of a reload that read the sample configuration again. -/
def Sample.inputs : Inputs Sample.blocks :=
  ⟨[], some (Sample.config, Sample.cmdConfig), Sample.world⟩

/-- A tick of the sample trace. -/
def Sample.tick (e : Event) : Tick Sample.blocks := ⟨e, Sample.inputs⟩

/-- A command whose agent leaves on terminate but not on interrupt. -/
def Sample.commandTermOnly : Command Sample.blocks Unit :=
  { Sample.commandLeave with
    agent :=
      { Sample.commandLeave.agent with
        config := { Sample.config with LeaveOnInt := false, LeaveOnTerm := true } } }

/-- Inputs of a reload whose configuration file cannot be loaded. -/
def Sample.inputsUnreadable : Inputs Sample.blocks :=
  ⟨[Diag.Error "Error loading configuration from /etc/nomad.d: unexpected token"], none,
    Sample.world⟩

/-- Lines 1136-1146 of `handleReload`: the configuration with which the
reload goes on, which keeps the current log level when its own is not valid. -/
def reloadTarget {B : Blocks} {S : Type} (A : AgentOps B S) (current newConf : Config B) :
    Config B :=
  if !A.isLogLevelValid (A.ToUpper newConf.LogLevel) then
    { newConf with LogLevel := current.LogLevel }
  else newConf

/-- Agent methods that succeed, for a reload that touches the TLS settings. -/
def Sample.agentOpsTLS : AgentOps Sample.blocks Unit :=
  { Sample.agentOps with ShouldReload := fun _ _ => (false, true) }

/-- Agent methods for a reload that touches the TLS settings and in which the
server's configuration does not convert. -/
def Sample.agentOpsBadServer : AgentOps Sample.blocks Unit :=
  { Sample.agentOpsTLS with convertServerConfig := fun _ => some "invalid server config" }

/-- Agent methods for a reload in which the client's configuration does not
convert. -/
def Sample.agentOpsBadClient : AgentOps Sample.blocks Unit :=
  { Sample.agentOps with convertClientConfig := fun _ => some "invalid client config" }

/-- Agent methods for a reload in which the client's configuration cannot be
finalized. -/
def Sample.agentOpsBadFinalize : AgentOps Sample.blocks Unit :=
  { Sample.agentOps with finalizeClientConfig := fun _ _ => some "no node" }

/-- The effects that contact other nodes to join a cluster: the call of the
server's `Join` and the start of a `RetryJoin` goroutine. -/
def Effect.isJoin : Effect → Bool
  | Effect.Join _ => true
  | Effect.RetryJoin _ => true
  | _ => false

/-- The deprecation notice written by `handleRetryJoin` (line 939). -/
def retryJoinNotice : Effect :=
  Effect.Log "warn"
    "using deprecated retry_join fields. Upgrade configuration to use server_join"

/-- Startup functions that always succeed; the agent has a server and a
client when the configuration enables them. -/
def Sample.runOps : RunOps Sample.blocks Unit where
  DefaultConfig := ⟨"host", true, false, [], [], true⟩
  zeroTelemetry := ()
  PrefixFilters := fun _ => Except.ok ([], [])
  NewSink := fun _ => none
  NewSyslogLogger := fun _ _ => none
  ParseDuration := fun _ => none
  NewAgent := fun config =>
    Except.ok
      { config := config
        server := config.Server.Enabled
        client := if config.Client.Enabled then some ⟨some ⟨none⟩⟩ else none
        rest := () }
  ServerJoin := fun _ addrs => Except.ok addrs.length
  Validate := fun _ _ => none
  InfoLines := fun _ _ => []

/-- Inputs that assemble into the configuration with neither mode enabled. -/
def Sample.inputsNoMode : Inputs Sample.blocks :=
  ⟨[], some (Sample.configNoMode, Sample.cmdConfig), Sample.world⟩

/-- A server configuration that sets both `start_join` and the `start_join`
of the `server_join` block. -/
def Sample.configBothStartJoin : Config Sample.blocks :=
  { Sample.config with
    Server :=
      { Sample.server with
        StartJoin := ["10.0.0.1"], ServerJoin := some { StartJoin := ["10.0.0.2"] } } }

/-- Inputs that assemble into the configuration with both join lists. -/
def Sample.inputsBothStartJoin : Inputs Sample.blocks :=
  ⟨[], some (Sample.configBothStartJoin, Sample.cmdConfig), Sample.world⟩

/-- A server configuration with the deprecated `retry_join` and `retry_max`
fields and an empty `server_join` block. -/
def Sample.configLegacyRetry : Config Sample.blocks :=
  { Sample.config with
    Server :=
      { Sample.server with
        RetryJoin := ["10.0.0.1", "10.0.0.2"], RetryMaxAttempts := 3,
        ServerJoin := some {} } }

/-- Events on which the loop of `terminateGracefully` returns 1: the timer
firing, and every signal but a broken pipe. -/
def Event.forcesExit : Event → Bool
  | Event.timeout => true
  | Event.signal Signal.SIGPIPE => false
  | Event.signal _ => true
  | _ => false

/-- The blocks of `IsValidConfig` that come before the checks made outside dev
mode (lines 324-487). -/
def blocksBeforeNonDev {B : Blocks} (X : Externals B) (W : World B)
    (config cmdConfig : Config B) : List Block :=
  (IsValidConfigBlocks X W config cmdConfig).take 22

/-- What `IsValidConfig` writes after the bootstrap warnings: the check of the
OIDC issuer and, when it passes, the warning on the protocol version. -/
def uiAfterBootstrap {B : Blocks} (X : Externals B) (config : Config B) : List Diag :=
  (checkOIDCIssuer X config).ui ++
    (if (checkOIDCIssuer X config).ok then (warnProtocolVersion config).ui else [])

/-- A client-only configuration without data directory that sets the
allocation and state directories only. -/
def Sample.configAllocStateOnly : Config Sample.blocks :=
  { Sample.config with
    DataDir := "", PluginDir := "",
    Server := { Sample.server with Enabled := false },
    Client := { Sample.client with AllocMountsDir := "" } }

/-- A client-only configuration without data directory that sets the four
directories. -/
def Sample.configFourDirs : Config Sample.blocks :=
  { Sample.config with
    DataDir := "", Server := { Sample.server with Enabled := false } }

/-- A server configuration with no bootstrap count. -/
def Sample.configBootstrapZero : Config Sample.blocks :=
  { Sample.config with Server := { Sample.server with BootstrapExpect := 0 } }

/-- A server configuration with a bootstrap count of one. -/
def Sample.configBootstrapOne : Config Sample.blocks :=
  { Sample.config with Server := { Sample.server with BootstrapExpect := 1 } }

/-- A command whose client has the largest drain deadline that a
`time.Duration` can hold. -/
def Sample.commandDrainMax : Command Sample.blocks Unit :=
  { Sample.commandLeave with
    agent :=
      { Sample.commandLeave.agent with
        client := some ⟨some ⟨some ⟨9223372036854775807⟩⟩⟩ } }

/-- A command whose client drains for at most one minute. -/
def Sample.commandDrainMinute : Command Sample.blocks Unit :=
  { Sample.commandLeave with
    agent :=
      { Sample.commandLeave.agent with
        client := some ⟨some ⟨some ⟨60000000000⟩⟩⟩ } }

/-- Lines 1212-1217 of `setupTelemetry`: the telemetry block, or a zero value
when the configuration has none. -/
def telemetryOf {B : Blocks} {S : Type} (R : RunOps B S) (config : Config B) :
    Telemetry B :=
  match config.Telemetry with
  | none => { rest := R.zeroTelemetry }
  | some tel => tel

/-- The in-memory sink of line 1219. -/
def inmemSink {B : Blocks} (tel : Telemetry B) : Sink :=
  Sink.inmem tel.inMemoryCollectionInterval tel.inMemoryRetentionPeriod

/-- The calls of `metrics.NewGlobal` among the effects: the configuration and
the sink installed by each. -/
def globalSinks : List Effect → List (MetricsConf × MetricSink)
  | [] => []
  | Effect.NewGlobal conf sink :: rest => (conf, sink) :: globalSinks rest
  | _ :: rest => globalSinks rest

/-- A configuration with a statsd endpoint and `disable_hostname` set. -/
def Sample.configStatsdNoHostname : Config Sample.blocks :=
  { Sample.config with
    Telemetry := some { DisableHostname := true, StatsdAddr := "127.0.0.1:8125", rest := () } }

/-- A configuration with a statsite and a datadog endpoint. -/
def Sample.configTwoSinks : Config Sample.blocks :=
  { Sample.config with
    NodeName := "node1",
    Telemetry := some
      { StatsiteAddr := "127.0.0.1:8125", DataDogAddr := "127.0.0.1:8126", rest := () } }

/-- Inputs that assemble into the configuration with two endpoints. -/
def Sample.inputsTwoSinks : Inputs Sample.blocks :=
  ⟨[], some (Sample.configTwoSinks, Sample.cmdConfig), Sample.world⟩

/-- Startup functions in which the datadog sink cannot be constructed. -/
def Sample.runOpsBadDatadog : RunOps Sample.blocks Unit :=
  { Sample.runOps with
    NewSink := fun sink =>
      match sink with
      | Sink.datadog _ _ _ => some "dial udp: connection refused"
      | _ => none }

/-- One step of the retry-join coordinator: a failed resolution of the
addresses, a call of the join function, a sleep of the retry interval, the
fatal signal on the shared error channel, and the clean exit. -/
inductive JoinStep where
  | resolveFailed (err : String)
  | join (addrs : List String)
  | sleep (interval : Int)
  | fatal
  | done
deriving DecidableEq, Repr

/-- Modelled from the spec: step 4 of the algorithm of section 4.4, which the
coordinator runs after a failed attempt.  The attempt counter is incremented;
if `maxAttempts > 0` and the counter reaches it, a fatal signal is pushed on
the shared error channel and the coordinator exits; otherwise it sleeps for
`retryInterval` and retries (`next` is the rest of the run). -/
def retryJoinFailed (joinCfg : ServerJoin) (attempt : Nat) (steps : List JoinStep)
    (next : Option (List JoinStep)) : Option (List JoinStep) :=
  if joinCfg.RetryMaxAttempts > 0 ∧ ((attempt + 1 : Nat) : Int) = joinCfg.RetryMaxAttempts then
    some (steps ++ [JoinStep.fatal])
  else
    match next with
    | none => none
    | some rest => some (steps ++ JoinStep.sleep joinCfg.RetryInterval :: rest)

/-- Modelled from the spec: `retryJoiner.RetryJoin`, the retry-join
coordinator that `handleRetryJoin` starts (lines 958 and 976) and whose
declaration is in a file that is not among the sources.  Section 4.4: looped
until success or exhaustion, (1) the configured list is resolved into
addresses, a failure of the resolution counting as a failed attempt; (2) the
join function is invoked, and succeeds when it returns no error; (3) on
success the coordinator exits; (4) on error `retryJoinFailed` applies.
`resolve k` and `join k` are the outcomes of the resolver and of the join
function at the attempt numbered `k`; the first argument bounds the number of
attempts made, and the result is `none` when that bound is reached. -/
def RetryJoin (joinCfg : ServerJoin) (resolve : Nat → Except String (List String))
    (join : Nat → List String → Except String Int) : Nat → Nat → Option (List JoinStep)
  | 0, _ => none
  | fuel + 1, attempt =>
    match resolve attempt with
    | Except.error err =>
      retryJoinFailed joinCfg attempt [JoinStep.resolveFailed err]
        (RetryJoin joinCfg resolve join fuel (attempt + 1))
    | Except.ok addrs =>
      match join attempt addrs with
      | Except.ok _ => some [JoinStep.join addrs, JoinStep.done]
      | Except.error _ =>
        retryJoinFailed joinCfg attempt [JoinStep.join addrs]
          (RetryJoin joinCfg resolve join fuel (attempt + 1))

/-- Agent methods for a reload that asks for nothing and in which the server's
`Reload` fails. -/
def Sample.agentOpsServerReloadFails : AgentOps Sample.blocks Unit :=
  { Sample.agentOps with ServerReload := fun a _ => (a, some "rpc listener: address in use") }

/-- Agent methods for a reload that touches the TLS settings and in which the
server's `Reload` fails. -/
def Sample.agentOpsTLSServerReloadFails : AgentOps Sample.blocks Unit :=
  { Sample.agentOpsTLS with ServerReload := fun a _ => (a, some "rpc listener: address in use") }

/-- Whether a step of the coordinator is a call of the join function. -/
def JoinStep.isJoin : JoinStep → Bool
  | JoinStep.join _ => true
  | _ => false

/-- Whether a step of the coordinator is a sleep. -/
def JoinStep.isSleep : JoinStep → Bool
  | JoinStep.sleep _ => true
  | _ => false

/-- Whether a step of the coordinator opens an attempt: a failed resolution
of the addresses, or a call of the join function. -/
def JoinStep.isAttempt : JoinStep → Bool
  | JoinStep.resolveFailed _ => true
  | JoinStep.join _ => true
  | _ => false

/-- The first step of the attempt numbered `k` of `RetryJoin` when the join
function fails: the failed resolution, or the call of join on the addresses
resolved. -/
def failedAttempt (resolve : Nat → Except String (List String)) (k : Nat) : JoinStep :=
  match resolve k with
  | Except.error err => JoinStep.resolveFailed err
  | Except.ok addrs => JoinStep.join addrs

/-- A join block that allows three attempts, thirty seconds apart. -/
def Sample.serverJoinThree : ServerJoin :=
  { RetryJoin := ["10.0.0.1"], RetryMaxAttempts := 3, RetryInterval := 30000000000 }

/-- A resolver that fails at the second attempt (numbered 1) only. -/
def Sample.resolveFailsOnce (k : Nat) : Except String (List String) :=
  if k = 1 then Except.error "lookup nomad.service.consul: no such host"
  else Except.ok ["10.0.0.1"]

/-! ## Sequencing lemmas -/

theorem Block.seq_ok_iff (bs : List Block) :
    (Block.seq bs).ok = true ↔ ∀ b ∈ bs, b.ok = true := by
  induction bs with
  | nil => simp [Block.seq, Block.pass]
  | cons b bs ih =>
    by_cases hb : b.ok = true
    · simp [Block.seq, hb, ih]
    · simp [Block.seq, hb]

theorem Block.seq_ok_false_of_mem {bs : List Block} {b : Block} (hmem : b ∈ bs)
    (hb : b.ok = false) : (Block.seq bs).ok = false := by
  cases h : (Block.seq bs).ok with
  | false => rfl
  | true =>
    have := (Block.seq_ok_iff bs).1 h b hmem
    simp [hb] at this

/-- Every block of an accepted configuration fell through. -/
theorem IsValidConfig_ok_blocks {B : Blocks} {X : Externals B} {W : World B}
    {config cmdConfig : Config B} (h : (IsValidConfig X W config cmdConfig).ok = true) :
    ∀ b ∈ IsValidConfigBlocks X W config cmdConfig, b.ok = true :=
  (Block.seq_ok_iff _).1 h

/-- A block that returned false makes the whole validation return false. -/
theorem IsValidConfig_rejects {B : Blocks} {X : Externals B} {W : World B}
    {config cmdConfig : Config B} {b : Block}
    (hmem : b ∈ IsValidConfigBlocks X W config cmdConfig) (hb : b.ok = false) :
    (IsValidConfig X W config cmdConfig).ok = false :=
  Block.seq_ok_false_of_mem hmem hb

/-! ## Mode selection -/

/-- C1: a configuration in which neither server mode nor client mode is
enabled is rejected by `IsValidConfig`, whatever the CLI overlay. -/
theorem C1_rejects_without_mode {B : Blocks} (X : Externals B) (W : World B)
    (config cmdConfig : Config B)
    (hs : config.Server.Enabled = false) (hc : config.Client.Enabled = false) :
    (IsValidConfig X W config cmdConfig).ok = false := by
  apply IsValidConfig_rejects (b := checkMode config)
  · simp [IsValidConfigBlocks]
  · simp [checkMode, hs, hc, Block.fatal]

/-- Witness for C1: the sample configuration with both modes switched off. -/
theorem C1_rejects_without_mode_witness :
    Sample.configNoMode.Server.Enabled = false ∧
    Sample.configNoMode.Client.Enabled = false ∧
    (IsValidConfig Sample.externals Sample.world Sample.configNoMode Sample.cmdConfig).ok
      = false :=
  ⟨rfl, rfl, C1_rejects_without_mode Sample.externals Sample.world Sample.configNoMode
    Sample.cmdConfig rfl rfl⟩

/-! ## Dynamic port range -/

/-- C2: `IsValidConfig` returns false whenever `MinDynamicPort > MaxDynamicPort`
or either bound lies outside `[0, MaxValidPort]`; equivalently, an accepted
configuration satisfies `0 ≤ MinDynamicPort ≤ MaxDynamicPort ≤ MaxValidPort`. -/
theorem C2_dynamic_port_range {B : Blocks} (X : Externals B) (W : World B)
    (config cmdConfig : Config B) :
    ((config.Client.MinDynamicPort > config.Client.MaxDynamicPort ∨
      config.Client.MinDynamicPort < 0 ∨ config.Client.MinDynamicPort > X.MaxValidPort ∨
      config.Client.MaxDynamicPort < 0 ∨ config.Client.MaxDynamicPort > X.MaxValidPort) →
      (IsValidConfig X W config cmdConfig).ok = false) ∧
    ((IsValidConfig X W config cmdConfig).ok = true →
      0 ≤ config.Client.MinDynamicPort ∧
      config.Client.MinDynamicPort ≤ config.Client.MaxDynamicPort ∧
      config.Client.MaxDynamicPort ≤ X.MaxValidPort) := by
  have accepted : (IsValidConfig X W config cmdConfig).ok = true →
      0 ≤ config.Client.MinDynamicPort ∧
      config.Client.MinDynamicPort ≤ config.Client.MaxDynamicPort ∧
      config.Client.MaxDynamicPort ≤ X.MaxValidPort := by
    intro hok
    have hb := IsValidConfig_ok_blocks hok
    have hmin := hb (checkMinDynamicPort X config) (by simp [IsValidConfigBlocks])
    have hmax := hb (checkMaxDynamicPort X config) (by simp [IsValidConfigBlocks])
    have hord := hb (checkDynamicPortOrder config) (by simp [IsValidConfigBlocks])
    unfold checkMinDynamicPort at hmin
    unfold checkMaxDynamicPort at hmax
    unfold checkDynamicPortOrder at hord
    split at hmin
    · simp [Block.fatal] at hmin
    · split at hmax
      · simp [Block.fatal] at hmax
      · split at hord
        · simp [Block.fatal] at hord
        · omega
  refine ⟨?_, accepted⟩
  intro hbad
  cases hok : (IsValidConfig X W config cmdConfig).ok with
  | false => rfl
  | true =>
    have := accepted hok
    omega

/-- Witness for C2: an inverted range is rejected, and the accepted sample
configuration has its range within bounds. -/
theorem C2_dynamic_port_range_witness :
    (IsValidConfig Sample.externals Sample.world Sample.configBadPorts Sample.cmdConfig).ok
      = false ∧
    (0 ≤ Sample.config.Client.MinDynamicPort ∧
      Sample.config.Client.MinDynamicPort ≤ Sample.config.Client.MaxDynamicPort ∧
      Sample.config.Client.MaxDynamicPort ≤ Sample.externals.MaxValidPort) :=
  ⟨(C2_dynamic_port_range Sample.externals Sample.world Sample.configBadPorts
      Sample.cmdConfig).1 (Or.inl (by decide)),
   (C2_dynamic_port_range Sample.externals Sample.world Sample.config
      Sample.cmdConfig).2 (by decide)⟩

/-! ## Directory roles -/

theorem checkDirs_ok_iff {B : Blocks} (X : Externals B) (l : List (String × String)) :
    (checkDirs X l).ok = true ↔ ∀ p ∈ l, p.2 = "" ∨ X.IsAbs p.2 = true := by
  induction l with
  | nil => simp [checkDirs, Block.pass]
  | cons p rest ih =>
    obtain ⟨k, dir⟩ := p
    by_cases hd : dir = ""
    · simp [checkDirs, hd, ih]
    · by_cases ha : X.IsAbs dir = true
      · simp [checkDirs, hd, ha, ih]
      · simp [checkDirs, hd, ha, Block.fatal]

/-- C3: in a configuration accepted by `IsValidConfig`, each of the seven
directory roles (data-dir, plugin-dir, alloc-dir, alloc-mounts-dir,
host-volumes-dir, host-volume-plugin-dir, state-dir) is empty or absolute;
hence a configuration with a populated relative directory is rejected.  The
`range` over the map of directories visits each entry once. -/
theorem C3_directories_empty_or_absolute {B : Blocks} (X : Externals B) (W : World B)
    (config cmdConfig : Config B) (hrange : W.RangeIsPerm)
    (hok : (IsValidConfig X W config cmdConfig).ok = true) :
    (config.DataDir = "" ∨ X.IsAbs config.DataDir = true) ∧
    (config.PluginDir = "" ∨ X.IsAbs config.PluginDir = true) ∧
    (config.Client.AllocDir = "" ∨ X.IsAbs config.Client.AllocDir = true) ∧
    (config.Client.AllocMountsDir = "" ∨ X.IsAbs config.Client.AllocMountsDir = true) ∧
    (config.Client.HostVolumesDir = "" ∨ X.IsAbs config.Client.HostVolumesDir = true) ∧
    (config.Client.HostVolumePluginDir = "" ∨
      X.IsAbs config.Client.HostVolumePluginDir = true) ∧
    (config.Client.StateDir = "" ∨ X.IsAbs config.Client.StateDir = true) := by
  have hb := IsValidConfig_ok_blocks hok
  have hd := hb (checkDirs X (W.Range (dirs config))) (by simp [IsValidConfigBlocks])
  rw [checkDirs_ok_iff] at hd
  have hall : ∀ p ∈ dirs config, p.2 = "" ∨ X.IsAbs p.2 = true :=
    fun p hp => hd p ((hrange (dirs config)).mem_iff.2 hp)
  refine ⟨hall ("data-dir", _) ?_, hall ("plugin-dir", _) ?_, hall ("alloc-dir", _) ?_,
    hall ("alloc-mounts-dir", _) ?_, hall ("host-volumes-dir", _) ?_,
    hall ("host-volume-plugin-dir", _) ?_, hall ("state-dir", _) ?_⟩ <;> simp [dirs]

/-- Witness for C3: the sample configuration, whose directories are absolute
or empty. -/
theorem C3_directories_empty_or_absolute_witness :
    (Sample.config.DataDir = "" ∨ Sample.externals.IsAbs Sample.config.DataDir = true) ∧
    (Sample.config.PluginDir = "" ∨ Sample.externals.IsAbs Sample.config.PluginDir = true) ∧
    (Sample.config.Client.AllocDir = "" ∨
      Sample.externals.IsAbs Sample.config.Client.AllocDir = true) ∧
    (Sample.config.Client.AllocMountsDir = "" ∨
      Sample.externals.IsAbs Sample.config.Client.AllocMountsDir = true) ∧
    (Sample.config.Client.HostVolumesDir = "" ∨
      Sample.externals.IsAbs Sample.config.Client.HostVolumesDir = true) ∧
    (Sample.config.Client.HostVolumePluginDir = "" ∨
      Sample.externals.IsAbs Sample.config.Client.HostVolumePluginDir = true) ∧
    (Sample.config.Client.StateDir = "" ∨
      Sample.externals.IsAbs Sample.config.Client.StateDir = true) :=
  C3_directories_empty_or_absolute Sample.externals Sample.world Sample.config
    Sample.cmdConfig (fun m => List.Perm.refl m) (by decide)

/-! ## Directories and bootstrap outside dev mode -/

/-- The blocks run outside dev mode all fell through in an accepted
configuration. -/
theorem IsValidConfig_ok_nonDev {B : Blocks} {X : Externals B} {W : World B}
    {config cmdConfig : Config B} (hdev : config.DevMode = false)
    (hok : (IsValidConfig X W config cmdConfig).ok = true) :
    (checkServerDataDir config).ok = true ∧ (checkClientDirs config).ok = true ∧
    (checkBootstrapCLI config cmdConfig).ok = true ∧
    (checkOIDCIssuer X config).ok = true := by
  have hb := IsValidConfig_ok_blocks hok
  have hn := hb (checkNonDev X config cmdConfig) (by simp [IsValidConfigBlocks])
  simp only [checkNonDev, hdev, Bool.not_false, if_true] at hn
  rw [Block.seq_ok_iff] at hn
  exact ⟨hn _ (by simp), hn _ (by simp), hn _ (by simp), hn _ (by simp)⟩

/-- C4: in a configuration with `DevMode` false that `IsValidConfig` accepts,
server mode implies a non-empty `DataDir`, and client mode implies a non-empty
`DataDir` or non-empty `AllocDir`, `AllocMountsDir`, `StateDir` and
`PluginDir`. -/
theorem C4_required_directories {B : Blocks} (X : Externals B) (W : World B)
    (config cmdConfig : Config B) (hdev : config.DevMode = false)
    (hok : (IsValidConfig X W config cmdConfig).ok = true) :
    (config.Server.Enabled = true → config.DataDir ≠ "") ∧
    (config.Client.Enabled = true →
      config.DataDir ≠ "" ∨
      (config.Client.AllocDir ≠ "" ∧ config.Client.AllocMountsDir ≠ "" ∧
        config.Client.StateDir ≠ "" ∧ config.PluginDir ≠ "")) := by
  obtain ⟨hs, hc, -, -⟩ := IsValidConfig_ok_nonDev hdev hok
  constructor
  · intro hen hdd
    simp [checkServerDataDir, hen, hdd, Block.fatal] at hs
  · intro hen
    by_cases hdd : config.DataDir = ""
    · right
      unfold checkClientDirs at hc
      rw [if_pos ⟨hen, hdd⟩] at hc
      split at hc
      · simp [Block.fatal] at hc
      · rename_i hmissing
        simp only [not_or] at hmissing
        exact hmissing
    · exact Or.inl hdd

/-- Witness for C4: the sample mixed-mode configuration. -/
theorem C4_required_directories_witness :
    (Sample.config.Server.Enabled = true → Sample.config.DataDir ≠ "") ∧
    (Sample.config.Client.Enabled = true →
      Sample.config.DataDir ≠ "" ∨
      (Sample.config.Client.AllocDir ≠ "" ∧ Sample.config.Client.AllocMountsDir ≠ "" ∧
        Sample.config.Client.StateDir ≠ "" ∧ Sample.config.PluginDir ≠ "")) :=
  C4_required_directories Sample.externals Sample.world Sample.config Sample.cmdConfig
    rfl (by decide)

/-- C5, as stated, fails: a client-only configuration outside dev mode whose
merged `Server.BootstrapExpect` is 3 (set by a configuration file), with no
bootstrap count on the command line, is accepted. -/
theorem C5_counterexample :
    Sample.configClientBootstrap.DevMode = false ∧
    Sample.configClientBootstrap.Server.Enabled = false ∧
    Sample.configClientBootstrap.Server.BootstrapExpect > 0 ∧
    (IsValidConfig Sample.externals Sample.world Sample.configClientBootstrap
      Sample.cmdConfig).ok = true := by
  refine ⟨rfl, rfl, by decide, by decide⟩

/-- C5, amended: outside dev mode, with server mode disabled, a bootstrap
count greater than zero in the CLI overlay (`cmdConfig.Server.BootstrapExpect`)
makes `IsValidConfig` return false. -/
theorem C5_bootstrap_cli_requires_server {B : Blocks} (X : Externals B) (W : World B)
    (config cmdConfig : Config B) (hdev : config.DevMode = false)
    (hs : config.Server.Enabled = false) (hb : cmdConfig.Server.BootstrapExpect > 0) :
    (IsValidConfig X W config cmdConfig).ok = false := by
  cases hok : (IsValidConfig X W config cmdConfig).ok with
  | false => rfl
  | true =>
    obtain ⟨-, -, hcli, -⟩ := IsValidConfig_ok_nonDev hdev hok
    simp [checkBootstrapCLI, hs, hb, Block.fatal] at hcli

/-- Witness for C5 amended: the client-only sample with `-bootstrap-expect=3`
on the command line. -/
theorem C5_bootstrap_cli_requires_server_witness :
    (IsValidConfig Sample.externals Sample.world Sample.configClientBootstrap
      { Sample.cmdConfig with
        Server := { Sample.cmdConfig.Server with BootstrapExpect := 3 } }).ok = false :=
  C5_bootstrap_cli_requires_server Sample.externals Sample.world
    Sample.configClientBootstrap
    { Sample.cmdConfig with Server := { Sample.cmdConfig.Server with BootstrapExpect := 3 } }
    rfl rfl (by decide)

/-! ## Determinism of the validation -/

theorem Block.seq_ok_congr {bs cs : List Block} (h : bs.map Block.ok = cs.map Block.ok) :
    (Block.seq bs).ok = (Block.seq cs).ok := by
  induction bs generalizing cs with
  | nil =>
    cases cs with
    | nil => rfl
    | cons c cs => simp at h
  | cons b bs ih =>
    cases cs with
    | nil => simp at h
    | cons c cs =>
      simp only [List.map_cons, List.cons.injEq] at h
      have := ih h.2
      by_cases hb : b.ok = true
      · have hc : c.ok = true := h.1 ▸ hb
        simp [Block.seq, hb, hc, this]
      · have hc : ¬ c.ok = true := h.1 ▸ hb
        simp [Block.seq, hb, hc]

theorem checkMeta_ok_iff {B : Blocks} (X : Externals B) (l : List (String × String)) :
    (checkMeta X l).ok = true ↔ ∀ p ∈ l, X.IsValidInterpVariable p.1 = true := by
  induction l with
  | nil => simp [checkMeta, Block.pass]
  | cons p rest ih =>
    obtain ⟨k, v⟩ := p
    by_cases hk : X.IsValidInterpVariable k = true
    · simp [checkMeta, hk, ih]
    · simp [checkMeta, hk, Block.fatal]

theorem checkDirs_ok_perm {B : Blocks} (X : Externals B) {l₁ l₂ : List (String × String)}
    (h : l₁.Perm l₂) : (checkDirs X l₁).ok = (checkDirs X l₂).ok := by
  rw [Bool.eq_iff_iff, checkDirs_ok_iff, checkDirs_ok_iff]
  exact ⟨fun H p hp => H p (h.mem_iff.2 hp), fun H p hp => H p (h.mem_iff.1 hp)⟩

theorem checkMeta_ok_perm {B : Blocks} (X : Externals B) {l₁ l₂ : List (String × String)}
    (h : l₁.Perm l₂) : (checkMeta X l₁).ok = (checkMeta X l₂).ok := by
  rw [Bool.eq_iff_iff, checkMeta_ok_iff, checkMeta_ok_iff]
  exact ⟨fun H p hp => H p (h.mem_iff.2 hp), fun H p hp => H p (h.mem_iff.1 hp)⟩

theorem checkTLSChecksum_ok {B : Blocks} (X : Externals B) (W : World B) (config : Config B) :
    (checkTLSChecksum X W config).ok = true := by
  unfold checkTLSChecksum
  split
  · split
    · split <;> rfl
    · rfl
  · rfl

theorem checkEncryptKey_ok_world {B : Blocks} (X : Externals B) (W₁ W₂ : World B)
    (config : Config B) :
    (checkEncryptKey X W₁ config).ok = (checkEncryptKey X W₂ config).ok := by
  unfold checkEncryptKey
  split
  · split
    · rfl
    · split <;> split <;> rfl
  · rfl

/-- The loop over the directories reports the first populated relative entry. -/
theorem checkDirs_eq_filter {B : Blocks} (X : Externals B) (l : List (String × String)) :
    checkDirs X l =
      match l.filter (fun p => decide (p.2 ≠ "") && !X.IsAbs p.2) with
      | [] => Block.pass
      | p :: _ => Block.fatal (p.1 ++ " must be given as an absolute path: got " ++ p.2) := by
  induction l with
  | nil => simp [checkDirs]
  | cons p rest ih =>
    obtain ⟨k, dir⟩ := p
    by_cases hd : dir = ""
    · simp [checkDirs, hd, ih]
    · by_cases ha : X.IsAbs dir = true
      · simp [checkDirs, hd, ha, ih]
      · simp [checkDirs, hd, ha]

/-- The loop over the metadata keys reports the first invalid key. -/
theorem checkMeta_eq_filter {B : Blocks} (X : Externals B) (l : List (String × String)) :
    checkMeta X l =
      match l.filter (fun p => !X.IsValidInterpVariable p.1) with
      | [] => Block.pass
      | p :: _ => Block.fatal ("Invalid Client.Meta key: " ++ p.1) := by
  induction l with
  | nil => simp [checkMeta]
  | cons p rest ih =>
    obtain ⟨k, v⟩ := p
    by_cases hk : X.IsValidInterpVariable k = true
    · simp [checkMeta, hk, ih]
    · simp [checkMeta, hk]

theorem perm_eq_of_length_le_one {α : Type} {l₁ l₂ : List α} (h : l₁.Perm l₂)
    (hlen : l₂.length ≤ 1) : l₁ = l₂ := by
  match l₂, hlen, h with
  | [], _, h => exact List.Perm.eq_nil h
  | [a], _, h => exact List.perm_singleton.1 h
  | _ :: _ :: _, hlen, _ => simp at hlen

theorem filter_range_eq {B : Blocks} (W : World B) (hrange : W.RangeIsPerm)
    (f : String × String → Bool) (m : List (String × String))
    (hlen : (m.filter f).length ≤ 1) : (W.Range m).filter f = m.filter f :=
  perm_eq_of_length_le_one ((hrange m).filter f) hlen

/-- C6, as stated, fails: with two relative directories the diagnostic depends
on the order in which the map of directories is visited, and with an
encryption key it depends on whether the keyring file exists on disk. -/
theorem C6_counterexample :
    Sample.world.RangeIsPerm ∧ Sample.worldRev.RangeIsPerm ∧
    (IsValidConfig Sample.externals Sample.world Sample.configTwoRelative
      Sample.cmdConfig).ui ≠
    (IsValidConfig Sample.externals Sample.worldRev Sample.configTwoRelative
      Sample.cmdConfig).ui ∧
    (IsValidConfig Sample.externals Sample.world Sample.configEncrypt Sample.cmdConfig).ui ≠
    (IsValidConfig Sample.externals Sample.worldKeyring Sample.configEncrypt
      Sample.cmdConfig).ui :=
  ⟨fun m => List.Perm.refl m, fun m => List.reverse_perm m, by decide, by decide⟩

/-- C6, amended: two runs of `IsValidConfig` on the same configuration and CLI
overlay give the same accept/reject result, whatever the order in which maps
are visited and whatever the filesystem holds; they also write the same
diagnostics when both runs see the same filesystem, at most one populated
directory role is relative and at most one `Client.Meta` key is invalid. -/
theorem C6_validation_determinism {B : Blocks} (X : Externals B) (W₁ W₂ : World B)
    (config cmdConfig : Config B) (h₁ : W₁.RangeIsPerm) (h₂ : W₂.RangeIsPerm) :
    (IsValidConfig X W₁ config cmdConfig).ok = (IsValidConfig X W₂ config cmdConfig).ok ∧
    (W₁.Stat = W₂.Stat → W₁.SetChecksum = W₂.SetChecksum →
      (relativeDirs X config).length ≤ 1 → (invalidMetaKeys X config).length ≤ 1 →
      IsValidConfig X W₁ config cmdConfig = IsValidConfig X W₂ config cmdConfig) := by
  constructor
  · apply Block.seq_ok_congr
    have hperm : ∀ m, (W₁.Range m).Perm (W₂.Range m) := fun m => (h₁ m).trans (h₂ m).symm
    have hmeta : (checkClientMeta X W₁ config).ok = (checkClientMeta X W₂ config).ok := by
      unfold checkClientMeta
      split
      · exact checkMeta_ok_perm X (hperm _)
      · rfl
    simp only [IsValidConfigBlocks, List.map_cons, List.map_nil, checkTLSChecksum_ok,
      checkEncryptKey_ok_world X W₁ W₂ config, checkDirs_ok_perm X (hperm (dirs config)),
      hmeta]
  · intro hstat hsum hdirs hmeta
    have hd : checkDirs X (W₁.Range (dirs config)) = checkDirs X (W₂.Range (dirs config)) := by
      rw [checkDirs_eq_filter, checkDirs_eq_filter, filter_range_eq W₁ h₁ _ _ hdirs,
        filter_range_eq W₂ h₂ _ _ hdirs]
    have hm : checkClientMeta X W₁ config = checkClientMeta X W₂ config := by
      unfold checkClientMeta
      split
      · rw [checkMeta_eq_filter, checkMeta_eq_filter, filter_range_eq W₁ h₁ _ _ hmeta,
          filter_range_eq W₂ h₂ _ _ hmeta]
      · rfl
    have ht : checkTLSChecksum X W₁ config = checkTLSChecksum X W₂ config := by
      simp only [checkTLSChecksum, hsum]
    have he : checkEncryptKey X W₁ config = checkEncryptKey X W₂ config := by
      simp only [checkEncryptKey, hstat]
    simp only [IsValidConfig, IsValidConfigBlocks, hd, hm, ht, he]

/-- Witness for C6 amended: the sample with one relative directory, its maps
visited in opposite orders. -/
theorem C6_validation_determinism_witness :
    (IsValidConfig Sample.externals Sample.world Sample.configOneRelative
      Sample.cmdConfig).ok =
    (IsValidConfig Sample.externals Sample.worldRev Sample.configOneRelative
      Sample.cmdConfig).ok ∧
    IsValidConfig Sample.externals Sample.world Sample.configOneRelative Sample.cmdConfig =
    IsValidConfig Sample.externals Sample.worldRev Sample.configOneRelative
      Sample.cmdConfig :=
  have h := C6_validation_determinism Sample.externals Sample.world Sample.worldRev
    Sample.configOneRelative Sample.cmdConfig (fun m => List.Perm.refl m)
    (fun m => List.reverse_perm m)
  ⟨h.1, h.2 rfl rfl (by decide) (by decide)⟩

/-! ## The signal loops -/

theorem waitGraceful_ne_running {B : Blocks} {S : Type} (c : Command B S)
    (events : List Event) : (waitGraceful c events).2 ≠ LifecycleState.Running := by
  induction events generalizing c with
  | nil => simp [waitGraceful]
  | cons e rest ih =>
    cases e with
    | signal sig => cases sig <;> simp [waitGraceful, ih]
    | leaveReturned err =>
      cases err <;> by_cases hl : c.leaving = true <;> simp [waitGraceful, hl, ih]
    | _ => simp [waitGraceful, ih]

/-- Once the loop of `terminateGracefully` is waiting after a prefix of the
events, the rest of the events is handled from the state reached. -/
theorem waitGraceful_append {B : Blocks} {S : Type} (c c₁ : Command B S)
    (pre more : List Event)
    (h : waitGraceful c pre = (c₁, LifecycleState.GracefulShutdown)) :
    waitGraceful c (pre ++ more) = waitGraceful c₁ more := by
  induction pre generalizing c with
  | nil =>
    simp only [waitGraceful, Prod.mk.injEq, and_true] at h
    simp [h]
  | cons e rest ih =>
    cases e with
    | signal sig =>
      cases sig <;> simp only [waitGraceful, List.cons_append, Prod.mk.injEq] at h ⊢
      all_goals first
        | exact ih _ h
        | (exfalso; simp at h)
    | leaveReturned err =>
      cases err <;> by_cases hl : c.leaving = true <;>
        simp only [waitGraceful, List.cons_append, hl, if_true, if_false, Prod.mk.injEq] at h ⊢
      all_goals first
        | exact ih _ h
        | (exfalso; simp at h)
    | timeout => simp [waitGraceful] at h
    | _ =>
      simp only [waitGraceful, List.cons_append] at h ⊢
      exact ih _ h

theorem terminateGracefully_ne_running {B : Blocks} {S : Type} (c : Command B S)
    (events : List Event) : (terminateGracefully c events).2 ≠ LifecycleState.Running :=
  waitGraceful_ne_running _ _

/-- Once the loop of `handleSignals` is waiting after a prefix of the trace,
the rest of the trace is handled from the state reached. -/
theorem runSignals_append {B : Blocks} {S : Type} (X : Externals B) (A : AgentOps B S)
    (c c₁ : Command B S) (pre more : List (Tick B))
    (h : runSignals X A c pre = (c₁, LifecycleState.Running)) :
    runSignals X A c (pre ++ more) = runSignals X A c₁ more := by
  induction pre generalizing c with
  | nil =>
    simp only [runSignals, Prod.mk.injEq, and_true] at h
    simp [h]
  | cons t rest ih =>
    obtain ⟨e, inp⟩ := t
    cases e with
    | signal sig =>
      cases sig with
      | SIGPIPE =>
        simp only [runSignals, List.cons_append] at h ⊢
        exact ih _ h
      | SIGHUP =>
        simp only [runSignals, List.cons_append] at h ⊢
        split at h
        · simp at h
        · exact ih _ h
      | SIGTERM =>
        simp only [runSignals, List.cons_append] at h ⊢
        split at h
        · simp at h
        · exact absurd (congrArg Prod.snd h) (terminateGracefully_ne_running _ _)
      | SIGINT =>
        simp only [runSignals, List.cons_append] at h ⊢
        split at h
        · simp at h
        · exact absurd (congrArg Prod.snd h) (terminateGracefully_ne_running _ _)
    | winsvcShutdown =>
      simp only [runSignals] at h
      split at h
      · simp at h
      · exact absurd (congrArg Prod.snd h) (terminateGracefully_ne_running _ _)
    | shutdown =>
      simp only [runSignals] at h
      split at h
      · simp at h
      · exact absurd (congrArg Prod.snd h) (terminateGracefully_ne_running _ _)
    | retryJoinErr => simp [runSignals] at h
    | timeout =>
      simp only [runSignals, List.cons_append] at h ⊢
      exact ih _ h
    | leaveReturned err =>
      simp only [runSignals, List.cons_append] at h ⊢
      exact ih _ h

/-- Events on which the graceful loop takes no decision leave it waiting. -/
theorem waitGraceful_passes {B : Blocks} {S : Type} (c : Command B S) (mid : List Event)
    (hmid : ∀ e ∈ mid, e.passesGraceful = true) :
    ∃ c₁ : Command B S, waitGraceful c mid = (c₁, LifecycleState.GracefulShutdown) ∧
      c₁.leaving = c.leaving := by
  induction mid generalizing c with
  | nil => exact ⟨c, rfl, rfl⟩
  | cons e rest ih =>
    have he := hmid e (List.mem_cons_self _ _)
    have hrest : ∀ e ∈ rest, e.passesGraceful = true :=
      fun e h => hmid e (List.mem_cons_of_mem _ h)
    cases e with
    | signal sig =>
      cases sig <;> simp [Event.passesGraceful] at he
      obtain ⟨c₁, h₁, h₂⟩ := ih (c.emit
        [Effect.Log "trace" "caught SIGPIPE during graceful shutdown, ignoring"]) hrest
      exact ⟨c₁, by simpa [waitGraceful] using h₁, h₂⟩
    | winsvcShutdown =>
      obtain ⟨c₁, h₁, h₂⟩ := ih c hrest
      exact ⟨c₁, by simpa [waitGraceful] using h₁, h₂⟩
    | shutdown =>
      obtain ⟨c₁, h₁, h₂⟩ := ih c hrest
      exact ⟨c₁, by simpa [waitGraceful] using h₁, h₂⟩
    | retryJoinErr =>
      obtain ⟨c₁, h₁, h₂⟩ := ih c hrest
      exact ⟨c₁, by simpa [waitGraceful] using h₁, h₂⟩
    | timeout => simp [Event.passesGraceful] at he
    | leaveReturned err => simp [Event.passesGraceful] at he

/-- C7: while `terminateGracefully` is waiting (the leave has not completed),
a terminate or interrupt signal makes it return 1 at once, whatever would have
followed, a successful leave included. -/
theorem C7_second_signal_forces_exit {B : Blocks} {S : Type} (c c₁ : Command B S)
    (pre more : List Event) (sig : Signal)
    (hsig : sig = Signal.SIGTERM ∨ sig = Signal.SIGINT)
    (hwait : terminateGracefully c pre = (c₁, LifecycleState.GracefulShutdown)) :
    terminateGracefully c (pre ++ Event.signal sig :: more) =
      (c₁.emit [Effect.Log "trace" "caught signal during graceful shutdown"],
        LifecycleState.Terminated 1) := by
  unfold terminateGracefully at hwait ⊢
  rw [waitGraceful_append _ _ _ _ hwait]
  rcases hsig with h | h <;> subst h <;> simp [waitGraceful]

/-- Witness for C7: a broken pipe, then a second terminate signal, then a
leave that would have succeeded. -/
theorem C7_second_signal_forces_exit_witness :
    (terminateGracefully Sample.commandLeave
      ([Event.signal Signal.SIGPIPE] ++
        Event.signal Signal.SIGTERM :: [Event.leaveReturned none])).2 =
      LifecycleState.Terminated 1 :=
  congrArg Prod.snd
    (C7_second_signal_forces_exit Sample.commandLeave
      (terminateGracefully Sample.commandLeave [Event.signal Signal.SIGPIPE]).1
      [Event.signal Signal.SIGPIPE] [Event.leaveReturned none] Signal.SIGTERM
      (Or.inl rfl) rfl)

/-- C8: when a running agent receives a terminate signal with `LeaveOnTerm`
set, or an interrupt with `LeaveOnInt` set, and the leave then returns without
error before the timer fires and before any signal other than a broken pipe,
`handleSignals` returns 0. -/
theorem C8_leave_completes_exit_zero {B : Blocks} {S : Type} (X : Externals B)
    (A : AgentOps B S) (notifyErr : GoError) (c₀ c : Command B S)
    (pre mid more : List (Tick B)) (sig : Signal) (inp inp₁ : Inputs B)
    (hrun : handleSignals X A notifyErr c₀ pre = (c, LifecycleState.Running))
    (hsig : (sig = Signal.SIGTERM ∧ c.agent.config.LeaveOnTerm = true) ∨
      (sig = Signal.SIGINT ∧ c.agent.config.LeaveOnInt = true))
    (hmid : ∀ t ∈ mid, t.event.passesGraceful = true) :
    (handleSignals X A notifyErr c₀
      (pre ++ ⟨Event.signal sig, inp⟩ ::
        (mid ++ ⟨Event.leaveReturned none, inp₁⟩ :: more))).2 =
      LifecycleState.Terminated 0 := by
  unfold handleSignals at hrun ⊢
  rw [runSignals_append X A _ _ _ _ hrun]
  have key : ∀ d : Command B S,
      (terminateGracefully d
        ((mid ++ ⟨Event.leaveReturned none, inp₁⟩ :: more).map Tick.event)).2 =
        LifecycleState.Terminated 0 := by
    intro d
    unfold terminateGracefully
    have hmid₁ : ∀ e ∈ mid.map Tick.event, e.passesGraceful = true := by
      intro e he
      obtain ⟨t, ht, rfl⟩ := List.mem_map.1 he
      exact hmid t ht
    obtain ⟨d₁, hd₁, hl⟩ := waitGraceful_passes (startGraceful d) _ hmid₁
    have hleaving : d₁.leaving = true := by rw [hl]; rfl
    rw [List.map_append, List.map_cons, waitGraceful_append _ _ _ _ hd₁]
    simp [waitGraceful, hleaving]
  rcases hsig with ⟨h, hl⟩ | ⟨h, hl⟩ <;> subst h <;> simp only [runSignals, hl] <;>
    exact key _

/-- Witness for C8: a terminate signal on an agent that leaves on terminate, a
broken pipe, then the leave returning nil. -/
theorem C8_leave_completes_exit_zero_witness :
    (handleSignals Sample.externals Sample.agentOps none Sample.commandLeave
      ([] ++ Sample.tick (Event.signal Signal.SIGTERM) ::
        ([Sample.tick (Event.signal Signal.SIGPIPE)] ++
          Sample.tick (Event.leaveReturned none) :: []))).2 =
      LifecycleState.Terminated 0 :=
  C8_leave_completes_exit_zero Sample.externals Sample.agentOps none Sample.commandLeave
    (handleSignals Sample.externals Sample.agentOps none Sample.commandLeave []).1
    [] [Sample.tick (Event.signal Signal.SIGPIPE)] [] Signal.SIGTERM Sample.inputs
    Sample.inputs rfl (Or.inl ⟨rfl, rfl⟩) (by simp [Sample.tick, Event.passesGraceful])

/-- C9: a broken pipe changes nothing but the output.  Received by the loop of
`handleSignals` it leaves the command running, and received by the loop of
`terminateGracefully` it leaves the command waiting for the leave; in both the
state is the one before the signal with one line written (no reload, no leave,
no return). -/
theorem C9_sigpipe_ignored {B : Blocks} {S : Type} (X : Externals B) (A : AgentOps B S)
    (notifyErr : GoError) (c₀ c : Command B S) (pre : List (Tick B)) (inp : Inputs B)
    (d₀ d : Command B S) (events : List Event)
    (hrun : handleSignals X A notifyErr c₀ pre = (c, LifecycleState.Running))
    (hwait : terminateGracefully d₀ events = (d, LifecycleState.GracefulShutdown)) :
    handleSignals X A notifyErr c₀ (pre ++ [⟨Event.signal Signal.SIGPIPE, inp⟩]) =
      (c.emit [Effect.Ui (Diag.Output "Caught signal: broken pipe")],
        LifecycleState.Running) ∧
    terminateGracefully d₀ (events ++ [Event.signal Signal.SIGPIPE]) =
      (d.emit [Effect.Log "trace" "caught SIGPIPE during graceful shutdown, ignoring"],
        LifecycleState.GracefulShutdown) := by
  constructor
  · unfold handleSignals at hrun ⊢
    rw [runSignals_append X A _ _ _ _ hrun]
    rfl
  · unfold terminateGracefully at hwait ⊢
    rw [waitGraceful_append _ _ _ _ hwait]
    rfl

/-- Witness for C9: a broken pipe as the first signal of a running agent, and
as the first signal of a graceful shutdown. -/
theorem C9_sigpipe_ignored_witness :
    (handleSignals Sample.externals Sample.agentOps none Sample.commandLeave
      ([] ++ [Sample.tick (Event.signal Signal.SIGPIPE)])).2 = LifecycleState.Running ∧
    (terminateGracefully Sample.commandLeave ([] ++ [Event.signal Signal.SIGPIPE])).2 =
      LifecycleState.GracefulShutdown :=
  have h := C9_sigpipe_ignored Sample.externals Sample.agentOps none Sample.commandLeave
    (handleSignals Sample.externals Sample.agentOps none Sample.commandLeave []).1
    [] Sample.inputs Sample.commandLeave
    (terminateGracefully Sample.commandLeave []).1 [] rfl rfl
  ⟨congrArg Prod.snd h.1, congrArg Prod.snd h.2⟩

/-- C10: when a running agent receives a terminate signal with `LeaveOnTerm`
false, or an interrupt with `LeaveOnInt` false, `handleSignals` returns 1 at
once; the only effect is the line naming the signal, so no leave is started. -/
theorem C10_signal_without_leave_exits_one {B : Blocks} {S : Type} (X : Externals B)
    (A : AgentOps B S) (notifyErr : GoError) (c₀ c : Command B S)
    (pre more : List (Tick B)) (sig : Signal) (inp : Inputs B)
    (hrun : handleSignals X A notifyErr c₀ pre = (c, LifecycleState.Running))
    (hsig : (sig = Signal.SIGTERM ∧ c.agent.config.LeaveOnTerm = false) ∨
      (sig = Signal.SIGINT ∧ c.agent.config.LeaveOnInt = false)) :
    handleSignals X A notifyErr c₀ (pre ++ ⟨Event.signal sig, inp⟩ :: more) =
      (c.emit [Effect.Ui (Diag.Output ("Caught signal: " ++ sig.String))],
        LifecycleState.Terminated 1) := by
  unfold handleSignals at hrun ⊢
  rw [runSignals_append X A _ _ _ _ hrun]
  rcases hsig with ⟨h, hl⟩ | ⟨h, hl⟩ <;> subst h <;> simp [runSignals, hl]

/-- Witness for C10: a terminate signal on an agent that does not leave on
terminate, followed by events that are never looked at. -/
theorem C10_signal_without_leave_exits_one_witness :
    (handleSignals Sample.externals Sample.agentOps none Sample.commandNoLeave
      ([] ++ Sample.tick (Event.signal Signal.SIGTERM) ::
        [Sample.tick (Event.leaveReturned none)])).2 = LifecycleState.Terminated 1 :=
  congrArg Prod.snd
    (C10_signal_without_leave_exits_one Sample.externals Sample.agentOps none
      Sample.commandNoLeave
      (handleSignals Sample.externals Sample.agentOps none Sample.commandNoLeave []).1
      [] [Sample.tick (Event.leaveReturned none)] Signal.SIGTERM Sample.inputs rfl
      (Or.inl ⟨rfl, rfl⟩))

/-! ## Shutdown requests and join failures -/

/-- The outcome of the graceful loop depends on the command only through the
flag telling that the leave is in flight. -/
theorem waitGraceful_state_congr {B : Blocks} {S : Type} (c d : Command B S)
    (events : List Event) (h : c.leaving = d.leaving) :
    (waitGraceful c events).2 = (waitGraceful d events).2 := by
  induction events generalizing c d with
  | nil => rfl
  | cons e rest ih =>
    cases e with
    | signal sig =>
      cases sig <;> simp only [waitGraceful]
      exact ih _ _ h
    | leaveReturned err =>
      cases err <;> by_cases hl : c.leaving = true
      all_goals
        have hd := h ▸ hl
        simp only [waitGraceful, hl, hd, if_true, if_false]
      all_goals first
        | rfl
        | exact ih _ _ (by simp [Command.emit])
        | exact ih _ _ h
    | timeout => rfl
    | _ =>
      simp only [waitGraceful]
      exact ih _ _ h

theorem terminateGracefully_state_congr {B : Blocks} {S : Type} (c d : Command B S)
    (events : List Event) :
    (terminateGracefully c events).2 = (terminateGracefully d events).2 :=
  waitGraceful_state_congr _ _ events rfl

/-- C11, as stated, fails: with `LeaveOnTerm` set and `LeaveOnInt` unset a
terminate signal starts the graceful shutdown, while a message on `ShutdownCh`
or on the service-stop channel makes `handleSignals` return 1 at once. -/
theorem C11_counterexample :
    (handleSignals Sample.externals Sample.agentOps none Sample.commandTermOnly
      [Sample.tick (Event.signal Signal.SIGTERM)]).2 = LifecycleState.GracefulShutdown ∧
    (handleSignals Sample.externals Sample.agentOps none Sample.commandTermOnly
      [Sample.tick Event.shutdown]).2 = LifecycleState.Terminated 1 ∧
    (handleSignals Sample.externals Sample.agentOps none Sample.commandTermOnly
      [Sample.tick Event.winsvcShutdown]).2 = LifecycleState.Terminated 1 := by
  refine ⟨by decide, by decide, by decide⟩

/-- C11, amended: a message on `ShutdownCh` or on the service-stop channel
received by a running agent is handled like an interrupt signal: the choice
between returning 1 at once and the graceful shutdown is made on `LeaveOnInt`,
and the outcome of every continuation is the same.  It is handled like a
terminate signal when `LeaveOnTerm` equals `LeaveOnInt`. -/
theorem C11_shutdown_request_as_interrupt {B : Blocks} {S : Type} (X : Externals B)
    (A : AgentOps B S) (notifyErr : GoError) (c₀ c : Command B S)
    (pre more : List (Tick B)) (e : Event) (inp : Inputs B)
    (hrun : handleSignals X A notifyErr c₀ pre = (c, LifecycleState.Running))
    (he : e = Event.shutdown ∨ e = Event.winsvcShutdown) :
    (handleSignals X A notifyErr c₀ (pre ++ ⟨e, inp⟩ :: more)).2 =
      (handleSignals X A notifyErr c₀
        (pre ++ ⟨Event.signal Signal.SIGINT, inp⟩ :: more)).2 ∧
    (c.agent.config.LeaveOnTerm = c.agent.config.LeaveOnInt →
      (handleSignals X A notifyErr c₀ (pre ++ ⟨e, inp⟩ :: more)).2 =
        (handleSignals X A notifyErr c₀
          (pre ++ ⟨Event.signal Signal.SIGTERM, inp⟩ :: more)).2) := by
  unfold handleSignals at hrun ⊢
  rw [runSignals_append X A _ _ _ _ hrun, runSignals_append X A _ _ _ _ hrun,
    runSignals_append X A _ _ _ _ hrun]
  constructor
  · rcases he with h | h <;> subst h <;> simp only [runSignals] <;>
      by_cases hl : c.agent.config.LeaveOnInt = true <;>
      simp only [hl, Bool.not_true, Bool.not_false, if_true, if_false, Bool.false_eq_true] <;>
      first
        | rfl
        | exact terminateGracefully_state_congr _ _ _
  · intro hsame
    rcases he with h | h <;> subst h <;> simp only [runSignals, hsame] <;>
      by_cases hl : c.agent.config.LeaveOnInt = true <;>
      simp only [hl, Bool.not_true, Bool.not_false, if_true, if_false, Bool.false_eq_true] <;>
      first
        | rfl
        | exact terminateGracefully_state_congr _ _ _

/-- Witness for C11 amended: a message on `ShutdownCh` and an interrupt on an
agent that leaves on both signals, followed by a successful leave. -/
theorem C11_shutdown_request_as_interrupt_witness :
    (handleSignals Sample.externals Sample.agentOps none Sample.commandLeave
      ([] ++ Sample.tick Event.shutdown :: [Sample.tick (Event.leaveReturned none)])).2 =
    (handleSignals Sample.externals Sample.agentOps none Sample.commandLeave
      ([] ++ Sample.tick (Event.signal Signal.SIGINT) ::
        [Sample.tick (Event.leaveReturned none)])).2 :=
  (C11_shutdown_request_as_interrupt Sample.externals Sample.agentOps none
    Sample.commandLeave
    (handleSignals Sample.externals Sample.agentOps none Sample.commandLeave []).1
    [] [Sample.tick (Event.leaveReturned none)] Event.shutdown Sample.inputs rfl
    (Or.inl rfl)).1

/-- C12: the code at the failing input.  With `LeaveOnInt` set, a first
message on `ShutdownCh` starts the graceful shutdown; a second message is not
read by the loop of `terminateGracefully`, and when the leave then returns nil
the command returns 0, not 1. -/
theorem C12_second_shutdown_message_unread :
    (handleSignals Sample.externals Sample.agentOps none Sample.commandLeave
      [Sample.tick Event.shutdown]).2 = LifecycleState.GracefulShutdown ∧
    (handleSignals Sample.externals Sample.agentOps none Sample.commandLeave
      [Sample.tick Event.shutdown, Sample.tick Event.shutdown]).2 =
      LifecycleState.GracefulShutdown ∧
    (handleSignals Sample.externals Sample.agentOps none Sample.commandLeave
      [Sample.tick Event.shutdown, Sample.tick Event.shutdown,
        Sample.tick (Event.leaveReturned none)]).2 = LifecycleState.Terminated 0 := by
  refine ⟨by decide, by decide, by decide⟩

/-- C13, as stated, fails: during a graceful shutdown a value on the
join-failure channel is not read, and a leave that then returns nil makes the
command return 0. -/
theorem C13_counterexample :
    (handleSignals Sample.externals Sample.agentOps none Sample.commandLeave
      [Sample.tick (Event.signal Signal.SIGTERM)]).2 = LifecycleState.GracefulShutdown ∧
    (handleSignals Sample.externals Sample.agentOps none Sample.commandLeave
      [Sample.tick (Event.signal Signal.SIGTERM), Sample.tick Event.retryJoinErr,
        Sample.tick (Event.leaveReturned none)]).2 = LifecycleState.Terminated 0 := by
  refine ⟨by decide, by decide⟩

/-- C13, amended: received by a running agent, a value on the join-failure
channel makes `handleSignals` return 1 at once, with no effect; during a
graceful shutdown the channel is not read, and the command keeps waiting in
the same state. -/
theorem C13_join_failure_while_running {B : Blocks} {S : Type} (X : Externals B)
    (A : AgentOps B S) (notifyErr : GoError) (c₀ c : Command B S)
    (pre more : List (Tick B)) (inp : Inputs B) (d₀ d : Command B S) (events : List Event)
    (hrun : handleSignals X A notifyErr c₀ pre = (c, LifecycleState.Running))
    (hwait : terminateGracefully d₀ events = (d, LifecycleState.GracefulShutdown)) :
    handleSignals X A notifyErr c₀ (pre ++ ⟨Event.retryJoinErr, inp⟩ :: more) =
      (c, LifecycleState.Terminated 1) ∧
    terminateGracefully d₀ (events ++ [Event.retryJoinErr]) =
      (d, LifecycleState.GracefulShutdown) := by
  constructor
  · unfold handleSignals at hrun ⊢
    rw [runSignals_append X A _ _ _ _ hrun]
    rfl
  · unfold terminateGracefully at hwait ⊢
    rw [waitGraceful_append _ _ _ _ hwait]
    rfl

/-- Witness for C13 amended: a join failure as the first event of a running
agent, and as the first event of a graceful shutdown. -/
theorem C13_join_failure_while_running_witness :
    (handleSignals Sample.externals Sample.agentOps none Sample.commandLeave
      ([] ++ Sample.tick Event.retryJoinErr :: [])).2 = LifecycleState.Terminated 1 ∧
    (terminateGracefully Sample.commandLeave ([] ++ [Event.retryJoinErr])).2 =
      LifecycleState.GracefulShutdown :=
  have h := C13_join_failure_while_running Sample.externals Sample.agentOps none
    Sample.commandLeave
    (handleSignals Sample.externals Sample.agentOps none Sample.commandLeave []).1
    [] [] Sample.inputs Sample.commandLeave
    (terminateGracefully Sample.commandLeave []).1 [] rfl rfl
  ⟨congrArg Prod.snd h.1, congrArg Prod.snd h.2⟩

/-! ## Reload -/

/-- C14, as stated, fails: when the configuration cannot be loaded,
`handleReload` returns nil and `handleSignals` keeps running. -/
theorem C14_counterexample :
    (readConfig Sample.externals Sample.inputsUnreadable).1 = none ∧
    (handleReload Sample.externals Sample.agentOps Sample.inputsUnreadable
      Sample.commandLeave).2 = none ∧
    (handleSignals Sample.externals Sample.agentOps none Sample.commandLeave
      [⟨Event.signal Signal.SIGHUP, Sample.inputsUnreadable⟩]).2 =
      LifecycleState.Running := by
  refine ⟨rfl, by decide, by decide⟩

/-- C14, amended: when `readConfig` yields no configuration, `handleReload`
writes what `readConfig` wrote and `Failed to reload configs`, returns no
error and leaves the agent and the HTTP servers as they are; `handleSignals`
then signals readiness again and keeps running. -/
theorem C14_failed_read_is_not_fatal {B : Blocks} {S : Type} (X : Externals B)
    (A : AgentOps B S) (notifyErr : GoError) (c₀ c : Command B S) (pre : List (Tick B))
    (inp : Inputs B)
    (hrun : handleSignals X A notifyErr c₀ pre = (c, LifecycleState.Running))
    (hread : (readConfig X inp).1 = none) :
    handleReload X A inp c =
      (c.emit (Effect.Ui (Diag.Output "Reloading configuration...") ::
        (readConfig X inp).2.map Effect.Ui ++
        [Effect.Ui (Diag.Error "Failed to reload configs")]), none) ∧
    handleSignals X A notifyErr c₀ (pre ++ [⟨Event.signal Signal.SIGHUP, inp⟩]) =
      (c.emit ([Effect.Ui (Diag.Output "Caught signal: hangup"),
          Effect.SdNotify SdState.sdReloading,
          Effect.Ui (Diag.Output "Reloading configuration...")] ++
        (readConfig X inp).2.map Effect.Ui ++
        [Effect.Ui (Diag.Error "Failed to reload configs"),
          Effect.SdNotify SdState.sdReady]), LifecycleState.Running) := by
  have hreload : ∀ d : Command B S, handleReload X A inp d =
      (d.emit (Effect.Ui (Diag.Output "Reloading configuration...") ::
        (readConfig X inp).2.map Effect.Ui ++
        [Effect.Ui (Diag.Error "Failed to reload configs")]), none) := by
    intro d
    simp [handleReload, hread, Command.emit]
  refine ⟨hreload c, ?_⟩
  unfold handleSignals at hrun ⊢
  rw [runSignals_append X A _ _ _ _ hrun]
  simp [runSignals, hreload, Command.emit, Signal.String]

/-- Witness for C14 amended: a hangup while the configuration file cannot be
loaded. -/
theorem C14_failed_read_is_not_fatal_witness :
    (handleReload Sample.externals Sample.agentOps Sample.inputsUnreadable
      Sample.commandLeave).2 = none ∧
    (handleSignals Sample.externals Sample.agentOps none Sample.commandLeave
      ([] ++ [⟨Event.signal Signal.SIGHUP, Sample.inputsUnreadable⟩])).2 =
      LifecycleState.Running :=
  have h := C14_failed_read_is_not_fatal Sample.externals Sample.agentOps none
    Sample.commandLeave
    (handleSignals Sample.externals Sample.agentOps none Sample.commandLeave []).1
    [] Sample.inputsUnreadable rfl rfl
  ⟨congrArg Prod.snd h.1, congrArg Prod.snd h.2⟩

/-- The listener step of `handleReload` in closed form: it never returns an
error, and it restarts the listeners when asked to. -/
theorem handleReloadHTTP_eq {B : Blocks} {S : Type} (A : AgentOps B S) (flag : Bool)
    (c : Command B S) :
    handleReloadHTTP A flag c =
      (if flag then
        match A.NewHTTPServers c.agent c.agent.config with
        | Except.error _ =>
          c.emit (Effect.Log "info" "reloading HTTP server with new TLS configuration"
            :: List.replicate c.httpServers Effect.HTTPShutdown ++ [Effect.NewHTTPServers]
            ++ [Effect.Log "error" "reloading config failed"])
        | Except.ok servers =>
          { c.emit (Effect.Log "info" "reloading HTTP server with new TLS configuration"
              :: List.replicate c.httpServers Effect.HTTPShutdown ++ [Effect.NewHTTPServers])
            with httpServers := servers }
       else c, none) := by
  unfold handleReloadHTTP reloadHTTPServer
  cases flag
  · simp
  · cases h : A.NewHTTPServers c.agent c.agent.config <;> simp [h, Command.emit]

/-- Messages on the `Ui` are not calls. -/
theorem count_map_ui (ui : List Diag) (e : Effect) (he : ∀ d, e ≠ Effect.Ui d) :
    (ui.map Effect.Ui).count e = 0 := by
  rw [List.count_eq_zero]
  intro hmem
  obtain ⟨d, -, hd⟩ := List.mem_map.1 hmem
  exact he d hd.symm

/-- After a successful `readConfig`, `handleReload` goes on with the agent
step, on the reload target, having only written to the `Ui`. -/
theorem handleReload_eq_agent {B : Blocks} {S : Type} (X : Externals B) (A : AgentOps B S)
    (inp : Inputs B) (c : Command B S) (newConf : Config B)
    (hread : (readConfig X inp).1 = some newConf) :
    ∃ ui : List Diag, handleReload X A inp c =
      handleReloadAgent A (reloadTarget A c.agent.config newConf)
        (c.emit (ui.map Effect.Ui)) := by
  unfold handleReload reloadTarget
  simp only [hread]
  by_cases hv : A.isLogLevelValid (A.ToUpper newConf.LogLevel) = true
  · refine ⟨Diag.Output "Reloading configuration..." :: (readConfig X inp).2, ?_⟩
    simp [hv, Command.emit]
  · refine ⟨Diag.Output "Reloading configuration..." :: (readConfig X inp).2 ++
      [Diag.Error ("Invalid log level: " ++ A.ToUpper newConf.LogLevel
        ++ ". Valid log levels are: " ++ A.validLogLevels)], ?_⟩
    simp [hv, Command.emit]

/-- C15, as stated, fails: in a reload for which `ShouldReload` asks for
nothing, on an agent with a server and a client, the server's and the client's
`Reload` are both invoked. -/
theorem C15_counterexample :
    Sample.agentOps.ShouldReload Sample.commandLeave.agent Sample.config = (false, false) ∧
    (handleReload Sample.externals Sample.agentOps Sample.inputs
      Sample.commandLeave).1.effects.count Effect.ServerReload = 1 ∧
    (handleReload Sample.externals Sample.agentOps Sample.inputs
      Sample.commandLeave).1.effects.count Effect.ClientReload = 1 := by
  refine ⟨rfl, by decide, by decide⟩

/-- C15, amended: in a reload for which `ShouldReload` asks neither for an
agent reload nor for an HTTP reload, `handleReload` invokes the agent's
`Reload` zero times, restarts no listener and keeps the HTTP servers.  The
server's and the client's `Reload` do not depend on `ShouldReload`.  The
server's is invoked once when the agent has a server whose configuration
converts, and not otherwise.  The client's is invoked once when the server's
step lets the reload go on (there is no server, or its configuration converts
and its `Reload` succeeds), the agent, as the server's step leaves it (`a`),
has a client, and the client's configuration converts and finalizes; it is not
invoked otherwise. -/
theorem C15_no_agent_reload_no_listener_restart {B : Blocks} {S : Type} (X : Externals B)
    (A : AgentOps B S) (inp : Inputs B) (c : Command B S) (newConf conf : Config B)
    (a : Agent B S)
    (hread : (readConfig X inp).1 = some newConf)
    (hconf : conf = reloadTarget A c.agent.config newConf)
    (hnone : A.ShouldReload c.agent conf = (false, false))
    (ha : a = if c.agent.server = true then (A.ServerReload c.agent conf).1 else c.agent) :
    (handleReload X A inp c).1.effects.count Effect.AgentReload =
      c.effects.count Effect.AgentReload ∧
    (handleReload X A inp c).1.effects.count Effect.NewHTTPServers =
      c.effects.count Effect.NewHTTPServers ∧
    (handleReload X A inp c).1.effects.count Effect.HTTPShutdown =
      c.effects.count Effect.HTTPShutdown ∧
    (handleReload X A inp c).1.httpServers = c.httpServers ∧
    (handleReload X A inp c).1.effects.count Effect.ServerReload =
      c.effects.count Effect.ServerReload +
        (if c.agent.server = true ∧ A.convertServerConfig conf = none then 1 else 0) ∧
    (handleReload X A inp c).1.effects.count Effect.ClientReload =
      c.effects.count Effect.ClientReload +
        (if (c.agent.server = true →
              A.convertServerConfig conf = none ∧ (A.ServerReload c.agent conf).2 = none) ∧
            a.client ≠ none ∧ A.convertClientConfig conf = none ∧
            A.finalizeClientConfig a conf = none
         then 1 else 0) := by
  obtain ⟨ui, hui⟩ := handleReload_eq_agent X A inp c newConf hread
  have hagent : (c.emit (ui.map Effect.Ui)).agent = c.agent := rfl
  rw [hui, ← hconf]
  unfold handleReloadAgent
  simp only [hagent, hnone, Bool.false_eq_true, if_false]
  unfold handleReloadServer handleReloadClient
  simp only [handleReloadHTTP_eq, Bool.false_eq_true, if_false]
  refine ⟨?_, ?_, ?_, ?_, ?_, ?_⟩
  · repeat' split
    all_goals simp [Command.emit, List.count_append, List.count_cons, count_map_ui]
  · repeat' split
    all_goals simp [Command.emit, List.count_append, List.count_cons, count_map_ui]
  · repeat' split
    all_goals simp [Command.emit, List.count_append, List.count_cons, count_map_ui]
  · repeat' split
    all_goals simp [Command.emit]
  · cases hs : c.agent.server <;> cases hcs : A.convertServerConfig conf <;>
      simp only [Command.emit, hs, hcs, Bool.false_eq_true, if_false, if_true] <;>
      repeat' split
    all_goals simp_all [Command.emit, List.count_append, List.count_cons, count_map_ui]
  · subst ha
    cases hs : c.agent.server <;> cases hcs : A.convertServerConfig conf <;>
      simp only [Command.emit, hs, hcs, Bool.false_eq_true, if_false, if_true] <;>
      repeat' split
    all_goals simp_all [Command.emit, List.count_append, List.count_cons, count_map_ui]

/-- Witness for C15 amended: on the sample agent, which has a server and a
client, a reload that asks for nothing invokes the server's and the client's
`Reload` once each; when the server's `Reload` fails, the client's is not
invoked. -/
theorem C15_no_agent_reload_no_listener_restart_witness :
    (handleReload Sample.externals Sample.agentOps Sample.inputs
      Sample.commandLeave).1.effects.count Effect.AgentReload = 0 ∧
    (handleReload Sample.externals Sample.agentOps Sample.inputs
      Sample.commandLeave).1.effects.count Effect.NewHTTPServers = 0 ∧
    (handleReload Sample.externals Sample.agentOps Sample.inputs
      Sample.commandLeave).1.effects.count Effect.ServerReload = 1 ∧
    (handleReload Sample.externals Sample.agentOps Sample.inputs
      Sample.commandLeave).1.effects.count Effect.ClientReload = 1 ∧
    (handleReload Sample.externals Sample.agentOpsServerReloadFails Sample.inputs
      Sample.commandLeave).1.effects.count Effect.ServerReload = 1 ∧
    (handleReload Sample.externals Sample.agentOpsServerReloadFails Sample.inputs
      Sample.commandLeave).1.effects.count Effect.ClientReload = 0 :=
  have h := C15_no_agent_reload_no_listener_restart Sample.externals Sample.agentOps
    Sample.inputs Sample.commandLeave Sample.config Sample.config Sample.commandLeave.agent
    rfl rfl rfl rfl
  have h₁ := C15_no_agent_reload_no_listener_restart Sample.externals
    Sample.agentOpsServerReloadFails Sample.inputs Sample.commandLeave Sample.config
    Sample.config Sample.commandLeave.agent rfl rfl rfl rfl
  ⟨h.1, h.2.1, h.2.2.2.2.1.trans (by decide), h.2.2.2.2.2.trans (by decide),
    h₁.2.2.2.2.1.trans (by decide), h₁.2.2.2.2.2.trans (by decide)⟩

/-- C16, as stated, fails: in a reload that touches the TLS settings and in
which the server's configuration does not convert, `handleReload` returns
before the listeners are restarted. -/
theorem C16_counterexample :
    (Sample.agentOpsBadServer.ShouldReload Sample.commandLeave.agent Sample.config).2
      = true ∧
    (handleReload Sample.externals Sample.agentOpsBadServer Sample.inputs
      Sample.commandLeave).1.effects.count Effect.NewHTTPServers = 0 := by
  refine ⟨rfl, by decide⟩

/-- C16, amended: in a reload for which `ShouldReload` asks for an HTTP
reload, `handleReload` restarts the listeners exactly once when no earlier
step of the reload fails, and not at all when one does.  The steps are: the
agent's `Reload`, when `ShouldReload` asks for it; the conversion of the
server's configuration and the server's `Reload`, when the agent, as the
agent's step leaves it (`a₁`), has a server; the conversion and the
finalization of the client's configuration and the client's `Reload`, when the
agent, as the server's step leaves it (`a₂`), has a client.  Each restart
calls `NewHTTPServers` once, and nothing else in the reload calls it. -/
theorem C16_listener_restart_once {B : Blocks} {S : Type} (X : Externals B)
    (A : AgentOps B S) (inp : Inputs B) (c : Command B S) (newConf conf : Config B)
    (a₁ a₂ : Agent B S)
    (hread : (readConfig X inp).1 = some newConf)
    (hconf : conf = reloadTarget A c.agent.config newConf)
    (hhttp : (A.ShouldReload c.agent conf).2 = true)
    (ha₁ : a₁ = if (A.ShouldReload c.agent conf).1 = true then (A.Reload c.agent conf).1
      else c.agent)
    (ha₂ : a₂ = if a₁.server = true then (A.ServerReload a₁ conf).1 else a₁) :
    (handleReload X A inp c).1.effects.count Effect.NewHTTPServers =
      c.effects.count Effect.NewHTTPServers +
        (if ((A.ShouldReload c.agent conf).1 = true → (A.Reload c.agent conf).2 = none) ∧
            (a₁.server = true →
              A.convertServerConfig conf = none ∧ (A.ServerReload a₁ conf).2 = none) ∧
            (a₂.client ≠ none →
              A.convertClientConfig conf = none ∧ A.finalizeClientConfig a₂ conf = none ∧
              (A.ClientReload a₂ conf).2 = none)
         then 1 else 0) := by
  obtain ⟨ui, hui⟩ := handleReload_eq_agent X A inp c newConf hread
  have hagent : (c.emit (ui.map Effect.Ui)).agent = c.agent := rfl
  rw [hui, ← hconf]
  subst ha₂ ha₁
  unfold handleReloadAgent handleReloadServer handleReloadClient
  simp only [handleReloadHTTP_eq, hagent, hhttp, if_true]
  cases hsr : (A.ShouldReload c.agent conf).1 <;>
    simp only [Bool.false_eq_true, if_false, if_true, Command.emit] <;>
    repeat' split
  all_goals simp_all [Command.emit, List.count_append, List.count_cons, List.count_replicate,
    count_map_ui]

/-- Witness for C16 amended: a reload of the sample agent that touches the
TLS settings restarts the listeners once when every step succeeds, and not at
all when the server's `Reload` fails. -/
theorem C16_listener_restart_once_witness :
    (handleReload Sample.externals Sample.agentOpsTLS Sample.inputs
      Sample.commandLeave).1.effects.count Effect.NewHTTPServers = 1 ∧
    (handleReload Sample.externals Sample.agentOpsTLSServerReloadFails Sample.inputs
      Sample.commandLeave).1.effects.count Effect.NewHTTPServers = 0 :=
  ⟨(C16_listener_restart_once Sample.externals Sample.agentOpsTLS Sample.inputs
      Sample.commandLeave Sample.config Sample.config Sample.commandLeave.agent
      Sample.commandLeave.agent rfl rfl rfl rfl rfl).trans (by decide),
    (C16_listener_restart_once Sample.externals Sample.agentOpsTLSServerReloadFails
      Sample.inputs Sample.commandLeave Sample.config Sample.config Sample.commandLeave.agent
      Sample.commandLeave.agent rfl rfl rfl rfl rfl).trans (by decide)⟩

/-- C17, as stated, fails: when the server's configuration does not convert,
`handleReload` returns at once, and the client's `Reload`, which is invoked
when the conversion succeeds, is not. -/
theorem C17_counterexample :
    (handleReload Sample.externals Sample.agentOpsBadServer Sample.inputs
      Sample.commandLeave).2 = none ∧
    (handleReload Sample.externals Sample.agentOpsBadServer Sample.inputs
      Sample.commandLeave).1.effects.count Effect.ServerReload = 0 ∧
    (handleReload Sample.externals Sample.agentOpsBadServer Sample.inputs
      Sample.commandLeave).1.effects.count Effect.ClientReload = 0 ∧
    (handleReload Sample.externals Sample.agentOpsTLS Sample.inputs
      Sample.commandLeave).1.effects.count Effect.ClientReload = 1 := by
  refine ⟨by decide, by decide, by decide, by decide⟩

/-- C17, amended: a failure to convert or finalize a subsystem's
configuration is not fatal and that subsystem's `Reload` is not invoked:
the step of `handleReload` in which it happens logs the failure and returns
nil at once.  So when the server's conversion fails (lines 1158-1164), neither
the client's reload nor the listener restart is carried out; when the client's
conversion or finalization fails (lines 1176-1188), the listener restart is
not carried out, the server's step having run before. -/
theorem C17_failed_conversion_returns {B : Blocks} {S : Type} (A : AgentOps B S)
    (newConf : Config B) (shouldReloadHTTP : Bool) (c : Command B S) :
    (c.agent.server = true → A.convertServerConfig newConf ≠ none →
      handleReloadServer A newConf shouldReloadHTTP c =
        (c.emit [Effect.Log "debug" "starting reload of server config",
          Effect.Log "error" "failed to convert server config"], none)) ∧
    (c.agent.client ≠ none → A.convertClientConfig newConf ≠ none →
      handleReloadClient A newConf shouldReloadHTTP c =
        (c.emit [Effect.Log "debug" "starting reload of client config",
          Effect.Log "error" "failed to convert client config"], none)) ∧
    (c.agent.client ≠ none → A.convertClientConfig newConf = none →
      A.finalizeClientConfig c.agent newConf ≠ none →
      handleReloadClient A newConf shouldReloadHTTP c =
        (c.emit [Effect.Log "debug" "starting reload of client config",
          Effect.Log "error" "failed to finalize client config"], none)) := by
  refine ⟨?_, ?_, ?_⟩
  · intro hs hconv
    unfold handleReloadServer
    cases h : A.convertServerConfig newConf with
    | none => exact absurd h hconv
    | some err => simp [hs, Command.emit]
  · intro hcl hconv
    unfold handleReloadClient
    cases hclient : c.agent.client with
    | none => exact absurd hclient hcl
    | some cl =>
      cases h : A.convertClientConfig newConf with
      | none => exact absurd h hconv
      | some err => simp [Command.emit]
  · intro hcl hconv hfin
    unfold handleReloadClient
    cases hclient : c.agent.client with
    | none => exact absurd hclient hcl
    | some cl =>
      cases h : A.finalizeClientConfig c.agent newConf with
      | none => exact absurd h hfin
      | some err => simp [hconv, h, Command.emit]

/-- Witness for C17 amended: the three failures on the sample agent, which has
a server and a client. -/
theorem C17_failed_conversion_returns_witness :
    (handleReloadServer Sample.agentOpsBadServer Sample.config true
      Sample.commandLeave).2 = none ∧
    (handleReloadClient Sample.agentOpsBadClient Sample.config true
      Sample.commandLeave).2 = none ∧
    (handleReloadClient Sample.agentOpsBadFinalize Sample.config true
      Sample.commandLeave).2 = none :=
  ⟨congrArg Prod.snd
      ((C17_failed_conversion_returns Sample.agentOpsBadServer Sample.config true
        Sample.commandLeave).1 rfl (by simp [Sample.agentOpsBadServer])),
    congrArg Prod.snd
      ((C17_failed_conversion_returns Sample.agentOpsBadClient Sample.config true
        Sample.commandLeave).2.1 (by simp [Sample.commandLeave])
        (by simp [Sample.agentOpsBadClient])),
    congrArg Prod.snd
      ((C17_failed_conversion_returns Sample.agentOpsBadFinalize Sample.config true
        Sample.commandLeave).2.2 (by simp [Sample.commandLeave]) rfl
        (by simp [Sample.agentOpsBadFinalize]))⟩

/-! ## Startup -/

/-- C18: when the assembled configuration enables neither server nor client
mode, `Run` returns 1 and its only effects are messages on the `Ui`: what the
assembly wrote, then the error `Must specify either server, client or dev mode
for the agent.`, whose text begins, up to the case of letters, with the words
`must specify either server, client or dev mode`.  No telemetry, agent, HTTP
server, join or signal loop is started. -/
theorem C18_no_mode_exits_before_start {B : Blocks} {S : Type} (X : Externals B)
    (A : AgentOps B S) (R : RunOps B S) (notifyErr : GoError) (inp : Inputs B)
    (ticks : List (Tick B)) (config cmdConfig : Config B)
    (hasm : inp.assembled = some (config, cmdConfig))
    (hs : config.Server.Enabled = false) (hc : config.Client.Enabled = false) :
    Run X A R notifyErr inp ticks =
      ((inp.assembleUi ++
          [Diag.Error "Must specify either server, client or dev mode for the agent."]).map
          Effect.Ui,
        LifecycleState.Terminated 1) ∧
    ("must specify either server, client or dev mode").data <+:
      ("Must specify either server, client or dev mode for the agent.").data.map
        Char.toLower := by
  refine ⟨?_, by decide⟩
  have hv : IsValidConfig X inp.world config cmdConfig =
      ⟨false, [Diag.Error "Must specify either server, client or dev mode for the agent."]⟩ := by
    simp [IsValidConfig, IsValidConfigBlocks, Block.seq, checkMode, hs, hc, Block.fatal]
  simp [Run, readConfig, hasm, hv]

/-- Witness for C18: the sample configuration with both modes switched off. -/
theorem C18_no_mode_exits_before_start_witness :
    Run Sample.externals Sample.agentOps Sample.runOps none Sample.inputsNoMode [] =
      ([Effect.Ui
          (Diag.Error "Must specify either server, client or dev mode for the agent.")],
        LifecycleState.Terminated 1) :=
  (C18_no_mode_exits_before_start Sample.externals Sample.agentOps Sample.runOps none
    Sample.inputsNoMode [] Sample.configNoMode Sample.cmdConfig rfl rfl rfl).1

/-- No effect of the list contacts another node to join a cluster. -/
theorem noJoin_map_ui (ui : List Diag) : ∀ e ∈ ui.map Effect.Ui, e.isJoin = false := by
  intro e he
  obtain ⟨d, -, rfl⟩ := List.mem_map.1 he
  rfl

theorem noJoin_append {l₁ l₂ : List Effect} (h₁ : ∀ e ∈ l₁, e.isJoin = false)
    (h₂ : ∀ e ∈ l₂, e.isJoin = false) : ∀ e ∈ l₁ ++ l₂, e.isJoin = false := by
  intro e he
  rcases List.mem_append.1 he with h | h
  · exact h₁ e h
  · exact h₂ e h

theorem noJoin_sinkCalls (sink : Sink) : ∀ e ∈ sinkCalls sink, e.isJoin = false := by
  cases sink <;> simp [sinkCalls, Effect.isJoin]

theorem noJoin_buildSinks {B : Blocks} {S : Type} (R : RunOps B S) (sinks : List Sink) :
    ∀ e ∈ (buildSinks R sinks).1, e.isJoin = false := by
  induction sinks with
  | nil => simp [buildSinks]
  | cons sink rest ih =>
    unfold buildSinks
    split
    · simp [Effect.isJoin]
    · split <;> rename_i heq <;> rw [heq] at ih <;>
        exact noJoin_append (noJoin_sinkCalls sink) ih

theorem noJoin_setupTelemetry {B : Blocks} {S : Type} (R : RunOps B S) (config : Config B) :
    ∀ e ∈ (setupTelemetry R config).1, e.isJoin = false := by
  unfold setupTelemetry
  simp only
  split
  · simp [Effect.isJoin]
  · split
    · refine noJoin_append ?_ (noJoin_buildSinks R _)
      simp [Effect.isJoin]
    · split
      · refine noJoin_append (noJoin_append ?_ (noJoin_buildSinks R _)) ?_ <;>
          simp [Effect.isJoin]
      · refine noJoin_append (noJoin_append ?_ (noJoin_buildSinks R _)) ?_ <;>
          simp [Effect.isJoin]

theorem noJoin_setupAgent_error {B : Blocks} {S : Type} (A : AgentOps B S) (R : RunOps B S)
    (config : Config B) (before effects : List Effect)
    (hb : ∀ e ∈ before, e.isJoin = false)
    (h : setupAgent A R config before = Except.error effects) :
    ∀ e ∈ effects, e.isJoin = false := by
  unfold setupAgent at h
  repeat' split at h
  all_goals first
    | (simp at h; done)
    | (simp only [Except.error.injEq] at h; subst h
       exact noJoin_append hb (by simp [Effect.isJoin]))

theorem noJoin_setupAgent_ok {B : Blocks} {S : Type} (A : AgentOps B S) (R : RunOps B S)
    (config : Config B) (before : List Effect) (c : Command B S)
    (hb : ∀ e ∈ before, e.isJoin = false)
    (h : setupAgent A R config before = Except.ok c) :
    ∀ e ∈ c.effects, e.isJoin = false := by
  unfold setupAgent at h
  repeat' split at h
  all_goals first
    | (simp at h; done)
    | (simp only [Except.ok.injEq] at h; subst h
       refine noJoin_append (noJoin_append hb (by simp [Effect.isJoin])) ?_
       simp [Effect.isJoin])

/-- The loggers leave the server block of the configuration as it is. -/
theorem SetupLoggers_server {B : Blocks} {S : Type} (A : AgentOps B S) (R : RunOps B S)
    (config config₁ : Config B) (h : (SetupLoggers A R config).1 = some config₁) :
    config₁.Server = config.Server := by
  unfold SetupLoggers at h
  simp only at h
  repeat' split at h
  all_goals first
    | (simp at h; done)
    | (simp only [Option.some.injEq] at h; subst h; rfl)

theorem noJoin_runDeferred {B : Blocks} {S : Type} (c : Command B S)
    (h : ∀ e ∈ c.effects, e.isJoin = false) : ∀ e ∈ runDeferred c, e.isJoin = false := by
  unfold runDeferred
  refine noJoin_append h ?_
  intro e he
  rcases List.mem_cons.1 he with rfl | he
  · rfl
  · rw [List.eq_of_mem_replicate he]
    rfl

/-- C19: for a server-enabled configuration in which `Server.StartJoin` and
`Server.ServerJoin.StartJoin` are both non-empty, `startupJoin` returns the
mutual-exclusion error with no effect, so without calling `Join`; and when
`readConfig` yields such a configuration `Run` returns 1 without having called
`Join` or started a `RetryJoin` goroutine. -/
theorem C19_both_start_join_lists {B : Blocks} {S : Type} (X : Externals B)
    (A : AgentOps B S) (R : RunOps B S) (notifyErr : GoError) (inp : Inputs B)
    (ticks : List (Tick B)) (config : Config B) (sj : ServerJoin) (c : Command B S)
    (hs : config.Server.Enabled = true) (hold : config.Server.StartJoin ≠ [])
    (hsj : config.Server.ServerJoin = some sj) (hnew : sj.StartJoin ≠ []) :
    startupJoin R config c =
      (c, some
        "server_join and start_join cannot both be defined; prefer setting the server_join block") ∧
    ((readConfig X inp).1 = some config →
      (Run X A R notifyErr inp ticks).2 = LifecycleState.Terminated 1 ∧
      ∀ e ∈ (Run X A R notifyErr inp ticks).1, e.isJoin = false) := by
  have hmsg : ("server_join and start_join cannot both be defined; "
      ++ "prefer setting the server_join block") =
      "server_join and start_join cannot both be defined; prefer setting the server_join block" := by
    decide
  have hjoin : ∀ (cfg : Config B) (d : Command B S), cfg.Server = config.Server →
      startupJoin R cfg d = (d, some
        "server_join and start_join cannot both be defined; prefer setting the server_join block") := by
    intro cfg d hcfg
    have h₁ : cfg.Server.StartJoin.length ≠ 0 := by
      rw [hcfg]; simpa using hold
    have h₂ : (newStartJoin cfg).length ≠ 0 := by
      simp only [newStartJoin, hcfg, hsj]; simpa using hnew
    have hs₁ : cfg.Server.Enabled = true := by rw [hcfg]; exact hs
    simp [startupJoin, hs₁, h₁, h₂, hmsg]
  refine ⟨hjoin config c rfl, ?_⟩
  intro hread
  unfold Run
  rcases hrc : readConfig X inp with ⟨cfg, ui⟩
  rw [hrc] at hread
  simp only at hread
  subst hread
  simp only
  rcases hl : SetupLoggers A R config with ⟨cfg₁, lui⟩
  cases cfg₁ with
  | none =>
    exact ⟨rfl, noJoin_append (noJoin_map_ui ui) (noJoin_map_ui lui)⟩
  | some config₁ =>
    have hserver : config₁.Server = config.Server :=
      SetupLoggers_server A R config config₁ (by rw [hl])
    have hbefore : ∀ e ∈ ui.map Effect.Ui ++ lui.map Effect.Ui ++ Effect.NewLogger ::
        (if config₁.LogJson then [Effect.LogGateFlush] else []), e.isJoin = false := by
      refine noJoin_append (noJoin_append (noJoin_map_ui ui) (noJoin_map_ui lui)) ?_
      split <;> simp [Effect.isJoin]
    simp only
    unfold runSetup
    simp only
    have hlogged : ∀ e ∈ (ui.map Effect.Ui ++ lui.map Effect.Ui ++ Effect.NewLogger ::
        (if config₁.LogJson then [Effect.LogGateFlush] else [])) ++
        [if config₁.Files.length > 0 then
            Effect.Ui (Diag.Output ("Loaded configuration from "
              ++ String.intercalate ", " config₁.Files))
          else Effect.Ui (Diag.Output "No configuration files loaded")],
        e.isJoin = false := by
      refine noJoin_append hbefore ?_
      split <;> simp [Effect.isJoin]
    rcases ht : setupTelemetry R config₁ with ⟨tel, terr⟩
    have htel : ∀ e ∈ tel, e.isJoin = false := by
      have := noJoin_setupTelemetry R config₁
      rwa [ht] at this
    cases terr with
    | some err =>
      exact ⟨rfl, noJoin_append (noJoin_append hlogged htel) (by simp [Effect.isJoin])⟩
    | none =>
      simp only
      cases ha : setupAgent A R config₁ _ with
      | error effects =>
        exact ⟨rfl, noJoin_append
          (noJoin_setupAgent_error A R config₁ _ effects (noJoin_append hlogged htel) ha)
          (by simp [Effect.isJoin])⟩
      | ok d =>
        have hd := noJoin_setupAgent_ok A R config₁ _ d (noJoin_append hlogged htel) ha
        have hra : runAgent X A R notifyErr config₁ d ticks =
            (runDeferred (d.emit [Effect.Ui (Diag.Error
              "server_join and start_join cannot both be defined; prefer setting the server_join block")]),
              LifecycleState.Terminated 1) := by
          simp [runAgent, hjoin config₁ d hserver]
        dsimp only
        rw [hra]
        refine ⟨rfl, noJoin_runDeferred _ ?_⟩
        exact noJoin_append hd (by simp [Effect.isJoin])

/-- Witness for C19: the sample server configuration with both lists set. -/
theorem C19_both_start_join_lists_witness :
    (Run Sample.externals Sample.agentOps Sample.runOps none Sample.inputsBothStartJoin
      []).2 = LifecycleState.Terminated 1 :=
  ((C19_both_start_join_lists Sample.externals Sample.agentOps Sample.runOps none
    Sample.inputsBothStartJoin [] Sample.configBothStartJoin ⟨["10.0.0.2"], [], 0, 0⟩
    Sample.commandLeave rfl (by decide) rfl (by decide)).2 rfl).1

/-- The server's and the client's steps of `handleRetryJoin` leave the
configuration as it is and write no deprecation notice. -/
theorem handleRetryJoinServer_frame {B : Blocks} {S : Type} (R : RunOps B S)
    (config : Config B) (c : Command B S) :
    (handleRetryJoinServer R config c).2.1 = config ∧
    (handleRetryJoinServer R config c).1.effects.count retryJoinNotice =
      c.effects.count retryJoinNotice := by
  unfold handleRetryJoinServer handleRetryJoinClient
  constructor
  · repeat' split
    all_goals rfl
  · repeat' split
    all_goals simp [Command.emit, List.count_append, List.count_cons, retryJoinNotice]

/-- C20: on a server-enabled configuration with a non-empty deprecated
`RetryJoin` list that passes the validation (and whose `server_join` block
exists), `handleRetryJoin` moves the list, and the deprecated attempts and
interval when they are not zero, into the `server_join` block, clears the
deprecated fields and writes the deprecation notice once.  Run again on the
result, it leaves the configuration as it is, so the addresses are not
duplicated, and writes no further notice. -/
theorem C20_retry_join_moved_once {B : Blocks} {S : Type} (R : RunOps B S)
    (config : Config B) (c : Command B S) (sj : ServerJoin)
    (hs : config.Server.Enabled = true) (hlegacy : config.Server.RetryJoin ≠ [])
    (hvalid : R.Validate Joiner.empty config = none)
    (hsj : config.Server.ServerJoin = some sj) :
    ∃ r r₂ : Command B S × Config B × GoError,
      handleRetryJoin R config c = some r ∧
      r.2.1.Server.ServerJoin = some
        { sj with
          RetryJoin := config.Server.RetryJoin
          RetryMaxAttempts :=
            if config.Server.RetryMaxAttempts ≠ 0 then config.Server.RetryMaxAttempts
            else sj.RetryMaxAttempts
          RetryInterval :=
            if config.Server.RetryInterval ≠ 0 then config.Server.RetryInterval
            else sj.RetryInterval } ∧
      r.2.1.Server.RetryJoin = [] ∧
      r.2.1.Server.RetryMaxAttempts = 0 ∧
      r.2.1.Server.RetryInterval = 0 ∧
      r.1.effects.count retryJoinNotice = c.effects.count retryJoinNotice + 1 ∧
      handleRetryJoin R r.2.1 r.1 = some r₂ ∧
      r₂.2.1 = r.2.1 ∧
      r₂.1.effects.count retryJoinNotice = r.1.effects.count retryJoinNotice := by
  have hlen : config.Server.RetryJoin.length ≠ 0 := by simpa using hlegacy
  have hfirst : handleRetryJoin R config c =
      some (handleRetryJoinServer R { config with Server := moveRetryJoin config.Server sj }
        (c.emit [retryJoinNotice])) := by
    simp [handleRetryJoin, hs, hlen, hvalid, hsj, retryJoinNotice]
  obtain ⟨hcfg, hcount⟩ := handleRetryJoinServer_frame R
    { config with Server := moveRetryJoin config.Server sj } (c.emit [retryJoinNotice])
  have hsecond : handleRetryJoin R
      (handleRetryJoinServer R { config with Server := moveRetryJoin config.Server sj }
        (c.emit [retryJoinNotice])).2.1
      (handleRetryJoinServer R { config with Server := moveRetryJoin config.Server sj }
        (c.emit [retryJoinNotice])).1 =
      some (handleRetryJoinServer R { config with Server := moveRetryJoin config.Server sj }
        (handleRetryJoinServer R { config with Server := moveRetryJoin config.Server sj }
          (c.emit [retryJoinNotice])).1) := by
    rw [hcfg]
    simp [handleRetryJoin, moveRetryJoin]
  obtain ⟨hcfg₂, hcount₂⟩ := handleRetryJoinServer_frame R
    { config with Server := moveRetryJoin config.Server sj }
    (handleRetryJoinServer R { config with Server := moveRetryJoin config.Server sj }
      (c.emit [retryJoinNotice])).1
  refine ⟨_, _, hfirst, ?_, ?_, ?_, ?_, ?_, hsecond, ?_, hcount₂⟩
  · rw [hcfg]
    simp [moveRetryJoin, hlen]
  · rw [hcfg]; rfl
  · rw [hcfg]; rfl
  · rw [hcfg]; rfl
  · rw [hcount]
    simp [Command.emit, List.count_append]
  · rw [hcfg₂, hcfg]

/-- Witness for C20: the sample server configuration with the deprecated
`retry_join` and `retry_max` fields. -/
theorem C20_retry_join_moved_once_witness :
    ∃ r r₂ : Command Sample.blocks Unit × Config Sample.blocks × GoError,
      handleRetryJoin Sample.runOps Sample.configLegacyRetry Sample.commandLeave = some r ∧
      r.2.1.Server.ServerJoin = some
        { (⟨[], [], 0, 0⟩ : ServerJoin) with
          RetryJoin := Sample.configLegacyRetry.Server.RetryJoin
          RetryMaxAttempts :=
            if Sample.configLegacyRetry.Server.RetryMaxAttempts ≠ 0 then
              Sample.configLegacyRetry.Server.RetryMaxAttempts
            else 0
          RetryInterval :=
            if Sample.configLegacyRetry.Server.RetryInterval ≠ 0 then
              Sample.configLegacyRetry.Server.RetryInterval
            else 0 } ∧
      r.2.1.Server.RetryJoin = [] ∧
      r.2.1.Server.RetryMaxAttempts = 0 ∧
      r.2.1.Server.RetryInterval = 0 ∧
      r.1.effects.count retryJoinNotice =
        Sample.commandLeave.effects.count retryJoinNotice + 1 ∧
      handleRetryJoin Sample.runOps r.2.1 r.1 = some r₂ ∧
      r₂.2.1 = r.2.1 ∧
      r₂.1.effects.count retryJoinNotice = r.1.effects.count retryJoinNotice :=
  C20_retry_join_moved_once Sample.runOps Sample.configLegacyRetry Sample.commandLeave
    ⟨[], [], 0, 0⟩ rfl (by decide) rfl rfl

/-! ## Region, datacenter and the remaining directory and bootstrap checks -/

theorem Block.seq_append (bs cs : List Block) :
    Block.seq (bs ++ cs) =
      if (Block.seq bs).ok then
        ⟨(Block.seq cs).ok, (Block.seq bs).ui ++ (Block.seq cs).ui⟩
      else Block.seq bs := by
  induction bs with
  | nil => simp [Block.seq, Block.pass]
  | cons b bs ih =>
    by_cases hb : b.ok = true
    · by_cases hs : (Block.seq bs).ok = true <;> simp [Block.seq, hb, ih, hs]
    · simp [Block.seq, hb]

theorem ContainsAny_false_iff (s chars : String) :
    ContainsAny s chars = false ↔ ∀ ch ∈ chars.data, ch ∉ s.data := by
  simp only [ContainsAny, List.any_eq_false, List.contains_eq_any_beq, List.any_eq_true,
    beq_iff_eq, not_exists, not_and]
  constructor
  · intro h ch hch hs
    exact h ch hs ch hch rfl
  · intro h x hx y hy hxy
    subst hxy
    exact h _ hy hx

/-- C26: in a configuration accepted by `IsValidConfig`, `Region` contains no
null byte and `Datacenter` contains neither a null byte nor the character
`*`. -/
theorem C26_region_datacenter_characters {B : Blocks} (X : Externals B) (W : World B)
    (config cmdConfig : Config B)
    (hok : (IsValidConfig X W config cmdConfig).ok = true) :
    '\x00' ∉ config.Region.data ∧ '\x00' ∉ config.Datacenter.data ∧
      '*' ∉ config.Datacenter.data := by
  have hb := IsValidConfig_ok_blocks hok
  have hr := hb (checkRegion config) (by simp [IsValidConfigBlocks])
  have hd := hb (checkDatacenter config) (by simp [IsValidConfigBlocks])
  have hr₁ : ContainsAny config.Region "\x00" = false := by
    cases h : ContainsAny config.Region "\x00" with
    | false => rfl
    | true => simp [checkRegion, h, Block.fatal] at hr
  have hd₁ : ContainsAny config.Datacenter "\x00*" = false := by
    cases h : ContainsAny config.Datacenter "\x00*" with
    | false => rfl
    | true => simp [checkDatacenter, h, Block.fatal] at hd
  rw [ContainsAny_false_iff] at hr₁ hd₁
  exact ⟨hr₁ '\x00' (by decide), hd₁ '\x00' (by decide), hd₁ '*' (by decide)⟩

/-- Witness for C26: the sample configuration, region `global` and datacenter
`dc1`. -/
theorem C26_region_datacenter_characters_witness :
    '\x00' ∉ Sample.config.Region.data ∧ '\x00' ∉ Sample.config.Datacenter.data ∧
      '*' ∉ Sample.config.Datacenter.data :=
  C26_region_datacenter_characters Sample.externals Sample.world Sample.config
    Sample.cmdConfig (by decide)

/-- C27: the code at the failing input.  Outside dev mode, a client-enabled
configuration without data directory whose `alloc-dir` and `state-dir` are set
fails the directory check, and is rejected, because `alloc-mounts-dir` and
`plugin-dir` are empty; with the four directories set it passes. -/
theorem C27_alloc_and_state_dir_do_not_suffice :
    Sample.configAllocStateOnly.DevMode = false ∧
    Sample.configAllocStateOnly.Client.Enabled = true ∧
    Sample.configAllocStateOnly.Client.AllocDir ≠ "" ∧
    Sample.configAllocStateOnly.Client.StateDir ≠ "" ∧
    checkClientDirs Sample.configAllocStateOnly =
      Block.fatal ("Must specify the state, alloc-dir, alloc-mounts-dir and "
        ++ "plugin-dir if data-dir is omitted.") ∧
    (IsValidConfig Sample.externals Sample.world Sample.configAllocStateOnly
      Sample.cmdConfig).ok = false ∧
    (IsValidConfig Sample.externals Sample.world Sample.configFourDirs
      Sample.cmdConfig).ok = true := by
  refine ⟨rfl, rfl, by decide, by decide, by decide, by decide, by decide⟩

/-- C30: in a server-enabled configuration outside dev mode that reaches the
bootstrap checks, `IsValidConfig` writes, between what came before and what
comes after, the warning on an even number of bootstrap servers when
`BootstrapExpect` is 0, and the warning on bootstrap mode, and only it, when
`BootstrapExpect` is 1.  The two warning blocks never return false, and the
result is that of the check that follows them. -/
theorem C30_bootstrap_warnings {B : Blocks} (X : Externals B) (W : World B)
    (config cmdConfig : Config B) (hdev : config.DevMode = false)
    (hserver : config.Server.Enabled = true)
    (hbefore : (Block.seq (blocksBeforeNonDev X W config cmdConfig)).ok = true)
    (hdata : (checkServerDataDir config).ok = true)
    (hdirs : (checkClientDirs config).ok = true) :
    (config.Server.BootstrapExpect = 0 →
      (IsValidConfig X W config cmdConfig).ui =
        (Block.seq (blocksBeforeNonDev X W config cmdConfig)).ui ++
          [Diag.Error
            "WARNING: Number of bootstrap servers should ideally be set to an odd number."]
          ++ uiAfterBootstrap X config) ∧
    (config.Server.BootstrapExpect = 1 →
      (IsValidConfig X W config cmdConfig).ui =
        (Block.seq (blocksBeforeNonDev X W config cmdConfig)).ui ++
          [Diag.Error "WARNING: Bootstrap mode enabled! Potentially unsafe operation."]
          ++ uiAfterBootstrap X config) ∧
    (warnBootstrapOne config).ok = true ∧ (warnBootstrapEven config).ok = true ∧
    (IsValidConfig X W config cmdConfig).ok = (checkOIDCIssuer X config).ok := by
  have hsplit : IsValidConfigBlocks X W config cmdConfig =
      blocksBeforeNonDev X W config cmdConfig ++
        [checkNonDev X config cmdConfig, warnProtocolVersion config] := rfl
  have hsd : checkServerDataDir config = Block.pass := by
    unfold checkServerDataDir at hdata ⊢
    split
    · rename_i h; simp [h, Block.fatal] at hdata
    · rfl
  have hcd : checkClientDirs config = Block.pass := by
    unfold checkClientDirs at hdirs ⊢
    split
    · split
      · rename_i h₁ h₂; simp [h₁, h₂, Block.fatal] at hdirs
      · rfl
    · rfl
  have hcli : checkBootstrapCLI config cmdConfig = Block.pass := by
    simp [checkBootstrapCLI, hserver]
  have hproto : (warnProtocolVersion config).ok = true := by
    unfold warnProtocolVersion
    split <;> rfl
  have hone : (warnBootstrapOne config).ok = true := by
    unfold warnBootstrapOne
    split <;> rfl
  have heven : (warnBootstrapEven config).ok = true := by
    unfold warnBootstrapEven
    split <;> rfl
  have hui : (IsValidConfig X W config cmdConfig).ui =
      (Block.seq (blocksBeforeNonDev X W config cmdConfig)).ui ++
        ((warnBootstrapOne config).ui ++ (warnBootstrapEven config).ui) ++
        uiAfterBootstrap X config := by
    unfold IsValidConfig
    rw [hsplit, Block.seq_append]
    generalize Block.seq (blocksBeforeNonDev X W config cmdConfig) = before at hbefore ⊢
    simp only [hbefore, if_true, checkNonDev, hdev, Bool.not_false, Block.seq, hsd, hcd, hcli,
      Block.pass, hone, heven, hproto, uiAfterBootstrap]
    by_cases ho : (checkOIDCIssuer X config).ok = true <;> simp [ho]
  have hokeq : (IsValidConfig X W config cmdConfig).ok = (checkOIDCIssuer X config).ok := by
    unfold IsValidConfig
    rw [hsplit, Block.seq_append]
    generalize Block.seq (blocksBeforeNonDev X W config cmdConfig) = before at hbefore ⊢
    simp only [hbefore, if_true, checkNonDev, hdev, Bool.not_false, Block.seq, hsd, hcd, hcli,
      Block.pass, hone, heven, hproto]
    by_cases ho : (checkOIDCIssuer X config).ok = true <;> simp [ho]
  refine ⟨?_, ?_, hone, heven, hokeq⟩
  · intro hzero
    rw [hui]
    simp [warnBootstrapOne, warnBootstrapEven, hserver, hzero, Block.pass, Block.say]
  · intro hbe
    have hmod : Int.tmod 1 2 ≠ 0 := by decide
    rw [hui]
    simp [warnBootstrapOne, warnBootstrapEven, hserver, hbe, hmod, Block.pass, Block.say]

/-- Witness for C30: the sample server configuration with no bootstrap count,
and with a bootstrap count of one. -/
theorem C30_bootstrap_warnings_witness :
    (IsValidConfig Sample.externals Sample.world Sample.configBootstrapZero
      Sample.cmdConfig).ui =
      (Block.seq (blocksBeforeNonDev Sample.externals Sample.world
        Sample.configBootstrapZero Sample.cmdConfig)).ui ++
        [Diag.Error
          "WARNING: Number of bootstrap servers should ideally be set to an odd number."]
        ++ uiAfterBootstrap Sample.externals Sample.configBootstrapZero ∧
    (IsValidConfig Sample.externals Sample.world Sample.configBootstrapOne
      Sample.cmdConfig).ui =
      (Block.seq (blocksBeforeNonDev Sample.externals Sample.world
        Sample.configBootstrapOne Sample.cmdConfig)).ui ++
        [Diag.Error "WARNING: Bootstrap mode enabled! Potentially unsafe operation."]
        ++ uiAfterBootstrap Sample.externals Sample.configBootstrapOne :=
  ⟨(C30_bootstrap_warnings Sample.externals Sample.world Sample.configBootstrapZero
      Sample.cmdConfig rfl rfl (by decide) (by decide) (by decide)).1 rfl,
    (C30_bootstrap_warnings Sample.externals Sample.world Sample.configBootstrapOne
      Sample.cmdConfig rfl rfl (by decide) (by decide) (by decide)).2.1 rfl⟩

/-! ## The graceful shutdown: time bound, failed leave, hangup -/

/-- Once the timer fires, the graceful loop returns 1 unless the leave has
returned nil before. -/
theorem waitGraceful_timeout {B : Blocks} {S : Type} (c : Command B S)
    (pre more : List Event) (hpre : ∀ e ∈ pre, e ≠ Event.leaveReturned none) :
    (waitGraceful c (pre ++ Event.timeout :: more)).2 = LifecycleState.Terminated 1 := by
  induction pre generalizing c with
  | nil => rfl
  | cons e rest ih =>
    have hrest : ∀ e ∈ rest, e ≠ Event.leaveReturned none :=
      fun e h => hpre e (List.mem_cons_of_mem _ h)
    have he := hpre e (List.mem_cons_self _ _)
    cases e with
    | signal sig => cases sig <;> simp [waitGraceful, ih _ hrest]
    | leaveReturned err =>
      cases err with
      | none => exact absurd rfl he
      | some msg =>
        by_cases hl : c.leaving = true <;> simp [waitGraceful, hl, ih _ hrest]
    | _ => simp [waitGraceful, ih _ hrest]

/-- C25, as stated, fails: with the largest drain deadline that a
`time.Duration` holds, the sum with the five seconds wraps around and the
timer is given a negative duration, not five seconds plus the deadline. -/
theorem C25_counterexample :
    (gracefulDelay Sample.commandDrainMax.agent).1 = -9223372031854775809 ∧
    (gracefulDelay Sample.commandDrainMax.agent).1 ≠
      5 * 1000000000 + 9223372036854775807 := by
  refine ⟨by decide, by decide⟩

/-- C25, amended: the duration given to the timer of `terminateGracefully` is
five seconds, plus the drain deadline of the client when a client exists, its
configuration is readable and `Drain.Deadline` is not zero; the sum is made
in the 64-bit integers of `time.Duration`, and is exact when the deadline is
at most the largest duration less five seconds.  When the timer fires before
the leave has returned nil, the result is exit code 1. -/
theorem C25_graceful_time_bound {B : Blocks} {S : Type} (c : Command B S)
    (pre more : List Event) (hpre : ∀ e ∈ pre, e ≠ Event.leaveReturned none) :
    gracefulTimeout = 5 * 1000000000 ∧
    Effect.NewTimer (gracefulDelay c.agent).1 ∈ (startGraceful c).effects ∧
    (∀ client config drain, c.agent.client = some client →
      client.GetConfig = some config → config.Drain = some drain → drain.Deadline ≠ 0 →
      (gracefulDelay c.agent).1 = int64 (gracefulTimeout + drain.Deadline) ∧
      (-2 ^ 63 ≤ drain.Deadline → drain.Deadline ≤ 2 ^ 63 - 1 - gracefulTimeout →
        (gracefulDelay c.agent).1 = gracefulTimeout + drain.Deadline)) ∧
    ((∀ client config drain, c.agent.client = some client →
        client.GetConfig = some config → config.Drain = some drain → drain.Deadline = 0) →
      (gracefulDelay c.agent).1 = gracefulTimeout) ∧
    (terminateGracefully c (pre ++ Event.timeout :: more)).2 =
      LifecycleState.Terminated 1 := by
  refine ⟨rfl, ?_, ?_, ?_, waitGraceful_timeout _ pre more hpre⟩
  · simp [startGraceful, Command.emit]
  · intro client config drain hc hg hd hne
    have hval : (gracefulDelay c.agent).1 = int64 (gracefulTimeout + drain.Deadline) := by
      simp [gracefulDelay, hc, hg, hd, hne]
    refine ⟨hval, ?_⟩
    intro hlo hhi
    rw [hval]
    unfold int64 gracefulTimeout at *
    omega
  · intro hall
    unfold gracefulDelay
    split
    · rfl
    · rename_i client hc
      split
      · rfl
      · rename_i config hg
        split
        · rfl
        · rename_i drain hd
          simp [hall client config drain hc hg hd]

/-- Witness for C25 amended: a client that drains for at most one minute; the
timer fires after a broken pipe. -/
theorem C25_graceful_time_bound_witness :
    (gracefulDelay Sample.commandDrainMinute.agent).1 = gracefulTimeout + 60000000000 ∧
    (terminateGracefully Sample.commandDrainMinute
      ([Event.signal Signal.SIGPIPE] ++ Event.timeout :: [Event.leaveReturned none])).2 =
      LifecycleState.Terminated 1 :=
  have h := C25_graceful_time_bound Sample.commandDrainMinute [Event.signal Signal.SIGPIPE]
    [Event.leaveReturned none] (by decide)
  ⟨(h.2.2.1 ⟨some ⟨some ⟨60000000000⟩⟩⟩ ⟨some ⟨60000000000⟩⟩ ⟨60000000000⟩ rfl rfl rfl
      (by decide)).2 (by decide) (by decide), h.2.2.2.2⟩

/-- Once the goroutine calling `Leave` has ended, the loop can no longer
return 0: it waits until an event forces the exit with 1. -/
theorem waitGraceful_after_leave {B : Blocks} {S : Type} (c : Command B S)
    (events : List Event) (hl : c.leaving = false) :
    (waitGraceful c events).2 =
      if events.any Event.forcesExit then LifecycleState.Terminated 1
      else LifecycleState.GracefulShutdown := by
  induction events generalizing c with
  | nil => rfl
  | cons e rest ih =>
    cases e with
    | signal sig =>
      cases sig with
      | SIGPIPE =>
        simp only [waitGraceful, List.any_cons, Event.forcesExit, Bool.false_or]
        exact ih _ (by simpa [Command.emit] using hl)
      | _ => simp [waitGraceful, Event.forcesExit]
    | leaveReturned err =>
      simp only [waitGraceful, hl, Bool.false_eq_true, if_false, List.any_cons,
        Event.forcesExit, Bool.false_or]
      exact ih _ hl
    | timeout => simp [waitGraceful, Event.forcesExit]
    | _ =>
      simp only [waitGraceful, List.any_cons, Event.forcesExit, Bool.false_or]
      exact ih _ hl

/-- Before the leave returns, the loop returns 1 on an event that forces the
exit and waits otherwise. -/
theorem waitGraceful_failed_leave {B : Blocks} {S : Type} (c : Command B S)
    (pre more : List Event) (msg : String) (hl : c.leaving = true)
    (hpre : ∀ e ∈ pre, ∀ err, e ≠ Event.leaveReturned err) :
    (waitGraceful c (pre ++ Event.leaveReturned (some msg) :: more)).2 =
      if (pre ++ more).any Event.forcesExit then LifecycleState.Terminated 1
      else LifecycleState.GracefulShutdown := by
  induction pre generalizing c with
  | nil =>
    simp only [List.nil_append, waitGraceful, hl, if_true]
    exact waitGraceful_after_leave _ more (by simp [Command.emit])
  | cons e rest ih =>
    have hrest : ∀ e ∈ rest, ∀ err, e ≠ Event.leaveReturned err :=
      fun e h => hpre e (List.mem_cons_of_mem _ h)
    have he := hpre e (List.mem_cons_self _ _)
    cases e with
    | signal sig =>
      cases sig with
      | SIGPIPE =>
        simp only [List.cons_append, waitGraceful, List.any_cons, Event.forcesExit,
          Bool.false_or]
        exact ih _ (by simpa [Command.emit] using hl) hrest
      | _ => simp [waitGraceful, Event.forcesExit]
    | leaveReturned err => exact absurd rfl (he err)
    | timeout => simp [waitGraceful, Event.forcesExit]
    | _ =>
      simp only [List.cons_append, waitGraceful, List.any_cons, Event.forcesExit,
        Bool.false_or]
      exact ih _ hl hrest

/-- The loop returns 0 only on a leave that returned nil, and that is the
first return of the leave. -/
theorem waitGraceful_zero {B : Blocks} {S : Type} (c : Command B S) (events : List Event)
    (h : (waitGraceful c events).2 = LifecycleState.Terminated 0) :
    ∃ pre more, events = pre ++ Event.leaveReturned none :: more ∧
      (c.leaving = true → ∀ e ∈ pre, ∀ err, e ≠ Event.leaveReturned err) := by
  induction events generalizing c with
  | nil => simp [waitGraceful] at h
  | cons e rest ih =>
    cases e with
    | signal sig =>
      cases sig <;> simp only [waitGraceful] at h
      all_goals first
        | (exfalso; simp at h)
        | (obtain ⟨pre, more, heq, hp⟩ := ih _ h
           refine ⟨Event.signal Signal.SIGPIPE :: pre, more, by simp [heq], ?_⟩
           intro hl e he err
           rcases List.mem_cons.1 he with rfl | he
           · simp
           · exact hp (by simpa [Command.emit] using hl) e he err)
    | leaveReturned err =>
      by_cases hl : c.leaving = true
      · cases err with
        | none => exact ⟨[], rest, rfl, by simp⟩
        | some msg =>
          simp only [waitGraceful, hl, if_true] at h
          have := waitGraceful_after_leave
            ({ c with leaving := false }.emit [Effect.Ui (Diag.Error ("Error: " ++ msg))])
            rest (by simp [Command.emit])
          rw [this] at h
          split at h <;> simp at h
      · have := waitGraceful_after_leave c (Event.leaveReturned err :: rest) (by simpa using hl)
        rw [this] at h
        split at h <;> simp at h
    | timeout => simp [waitGraceful] at h
    | winsvcShutdown =>
      simp only [waitGraceful] at h
      obtain ⟨pre, more, heq, hp⟩ := ih _ h
      refine ⟨Event.winsvcShutdown :: pre, more, by simp [heq], ?_⟩
      intro hl e he err
      rcases List.mem_cons.1 he with rfl | he
      · simp
      · exact hp hl e he err
    | shutdown =>
      simp only [waitGraceful] at h
      obtain ⟨pre, more, heq, hp⟩ := ih _ h
      refine ⟨Event.shutdown :: pre, more, by simp [heq], ?_⟩
      intro hl e he err
      rcases List.mem_cons.1 he with rfl | he
      · simp
      · exact hp hl e he err
    | retryJoinErr =>
      simp only [waitGraceful] at h
      obtain ⟨pre, more, heq, hp⟩ := ih _ h
      refine ⟨Event.retryJoinErr :: pre, more, by simp [heq], ?_⟩
      intro hl e he err
      rcases List.mem_cons.1 he with rfl | he
      · simp
      · exact hp hl e he err

/-- C28: when the leave returns an error, `terminateGracefully` does not
return 0: it returns 1 if the timer fires or a signal other than a broken pipe
arrives, before or after the error, and keeps waiting otherwise.  And it
returns 0 only if the leave returned nil, as its first and only return. -/
theorem C28_failed_leave_never_zero {B : Blocks} {S : Type} (c : Command B S)
    (pre more : List Event) (msg : String)
    (hpre : ∀ e ∈ pre, ∀ err, e ≠ Event.leaveReturned err) :
    (terminateGracefully c (pre ++ Event.leaveReturned (some msg) :: more)).2 ≠
      LifecycleState.Terminated 0 ∧
    (terminateGracefully c (pre ++ Event.leaveReturned (some msg) :: more)).2 =
      (if (pre ++ more).any Event.forcesExit then LifecycleState.Terminated 1
        else LifecycleState.GracefulShutdown) ∧
    (∀ events : List Event,
      (terminateGracefully c events).2 = LifecycleState.Terminated 0 →
      ∃ before after, events = before ++ Event.leaveReturned none :: after ∧
        ∀ e ∈ before, ∀ err, e ≠ Event.leaveReturned err) := by
  have hval := waitGraceful_failed_leave (startGraceful c) pre more msg rfl hpre
  refine ⟨?_, hval, ?_⟩
  · unfold terminateGracefully
    rw [hval]
    split <;> simp
  · intro events h
    obtain ⟨before, after, heq, hp⟩ := waitGraceful_zero (startGraceful c) events h
    exact ⟨before, after, heq, hp rfl⟩

/-- Witness for C28: a leave that fails after a broken pipe, followed by the
timer. -/
theorem C28_failed_leave_never_zero_witness :
    (terminateGracefully Sample.commandLeave
      ([Event.signal Signal.SIGPIPE] ++
        Event.leaveReturned (some "no leader") :: [Event.timeout])).2 =
      LifecycleState.Terminated 1 :=
  (C28_failed_leave_never_zero Sample.commandLeave [Event.signal Signal.SIGPIPE]
    [Event.timeout] "no leader" (by simp)).2.1

/-- C29: while `terminateGracefully` is waiting, every signal other than a
broken pipe, a hangup included, makes it return 1 at once; the only effect is
a line of the logger, so a hangup triggers no reload. -/
theorem C29_any_signal_forces_exit {B : Blocks} {S : Type} (c c₁ : Command B S)
    (pre more : List Event) (sig : Signal) (hsig : sig ≠ Signal.SIGPIPE)
    (hwait : terminateGracefully c pre = (c₁, LifecycleState.GracefulShutdown)) :
    terminateGracefully c (pre ++ Event.signal sig :: more) =
      (c₁.emit [Effect.Log "trace" "caught signal during graceful shutdown"],
        LifecycleState.Terminated 1) ∧
    terminateGracefully c (pre ++ Event.signal Signal.SIGHUP :: more) =
      (c₁.emit [Effect.Log "trace" "caught signal during graceful shutdown"],
        LifecycleState.Terminated 1) := by
  unfold terminateGracefully at hwait ⊢
  rw [waitGraceful_append _ _ _ _ hwait, waitGraceful_append _ _ _ _ hwait]
  refine ⟨?_, rfl⟩
  cases sig <;> first
    | exact absurd rfl hsig
    | rfl

/-- Witness for C29: a hangup during the graceful shutdown of the sample
agent, before a leave that would have succeeded. -/
theorem C29_any_signal_forces_exit_witness :
    (terminateGracefully Sample.commandLeave
      ([] ++ Event.signal Signal.SIGHUP :: [Event.leaveReturned none])).2 =
      LifecycleState.Terminated 1 :=
  congrArg Prod.snd
    (C29_any_signal_forces_exit Sample.commandLeave
      (terminateGracefully Sample.commandLeave []).1 [] [Event.leaveReturned none]
      Signal.SIGHUP (by decide) rfl).1

/-! ## Telemetry -/

theorem globalSinks_append (l₁ l₂ : List Effect) :
    globalSinks (l₁ ++ l₂) = globalSinks l₁ ++ globalSinks l₂ := by
  induction l₁ with
  | nil => rfl
  | cons e rest ih => cases e <;> simp [globalSinks, ih]

theorem globalSinks_sinkCalls (sink : Sink) : globalSinks (sinkCalls sink) = [] := by
  cases sink <;> rfl

/-- The constructors install no global sink, and when they all succeed the
fan-out built is the list of the sinks asked for. -/
theorem buildSinks_spec {B : Blocks} {S : Type} (R : RunOps B S) (sinks : List Sink) :
    globalSinks (buildSinks R sinks).1 = [] ∧
    (∀ fanout, (buildSinks R sinks).2 = Except.ok fanout → fanout = sinks) := by
  induction sinks with
  | nil => simp [buildSinks, globalSinks]
  | cons sink rest ih =>
    unfold buildSinks
    split
    · simp [globalSinks]
    · split <;> rename_i heq <;> rw [heq] at ih <;>
        simp only [globalSinks_append, globalSinks_sinkCalls, List.nil_append] <;>
        refine ⟨ih.1, ?_⟩ <;> intro fanout hf
      · simp at hf
      · simp only [Except.ok.injEq] at hf
        rw [← hf, ih.2 _ rfl]

/-- When a constructor fails, the error returned is that of the first sink, in
the order of construction, whose constructor fails. -/
theorem buildSinks_error {B : Blocks} {S : Type} (R : RunOps B S) (sinks : List Sink)
    (hfail : ∃ sink ∈ sinks, R.NewSink sink ≠ none) :
    ∃ built sink rest err, sinks = built ++ sink :: rest ∧
      (∀ b ∈ built, R.NewSink b = none) ∧ R.NewSink sink = some err ∧
      (buildSinks R sinks).2 = Except.error err := by
  induction sinks with
  | nil => simp at hfail
  | cons first others ih =>
    cases hfirst : R.NewSink first with
    | some err =>
      exact ⟨[], first, others, err, rfl, by simp, hfirst, by simp [buildSinks, hfirst]⟩
    | none =>
      have hothers : ∃ sink ∈ others, R.NewSink sink ≠ none := by
        obtain ⟨sink, hmem, hne⟩ := hfail
        rcases List.mem_cons.1 hmem with rfl | hmem
        · exact absurd hfirst hne
        · exact ⟨sink, hmem, hne⟩
      obtain ⟨built, sink, rest, err, heq, hbuilt, hsink, herr⟩ := ih hothers
      refine ⟨first :: built, sink, rest, err, by simp [heq], ?_, hsink, ?_⟩
      · intro b hb
        rcases List.mem_cons.1 hb with rfl | hb
        · exact hfirst
        · exact hbuilt b hb
      · unfold buildSinks
        simp only [hfirst]
        rcases hrest : buildSinks R others with ⟨calls, result⟩
        rw [hrest] at herr
        simp only at herr
        subst herr
        rfl

/-- The outcome of `setupTelemetry` in terms of the prefix filters and of the
construction of the sinks asked for. -/
theorem setupTelemetry_eq {B : Blocks} {S : Type} (R : RunOps B S) (config : Config B) :
    setupTelemetry R config =
      match R.PrefixFilters (telemetryOf R config) with
      | Except.error err =>
        ([Effect.NewInmemSink (telemetryOf R config).inMemoryCollectionInterval
            (telemetryOf R config).inMemoryRetentionPeriod, Effect.DefaultInmemSignal],
          some err)
      | Except.ok (allowed, blocked) =>
        match (buildSinks R (requestedSinks config.NodeName (telemetryOf R config))).2 with
        | Except.error err =>
          ([Effect.NewInmemSink (telemetryOf R config).inMemoryCollectionInterval
              (telemetryOf R config).inMemoryRetentionPeriod, Effect.DefaultInmemSignal] ++
            (buildSinks R (requestedSinks config.NodeName (telemetryOf R config))).1,
            some err)
        | Except.ok fanout =>
          ([Effect.NewInmemSink (telemetryOf R config).inMemoryCollectionInterval
              (telemetryOf R config).inMemoryRetentionPeriod, Effect.DefaultInmemSignal] ++
            (buildSinks R (requestedSinks config.NodeName (telemetryOf R config))).1 ++
            [if fanout.length > 0 then
              Effect.NewGlobal
                (metricsConf R config (telemetryOf R config) allowed blocked)
                (MetricSink.fanout (fanout ++ [inmemSink (telemetryOf R config)]))
            else
              Effect.NewGlobal
                { metricsConf R config (telemetryOf R config) allowed blocked with
                  EnableHostname := false }
                (MetricSink.single (inmemSink (telemetryOf R config)))], none) := by
  unfold setupTelemetry telemetryOf inmemSink
  simp only
  split
  · rfl
  · split
    · rfl
    · split <;> rfl

/-- C22: when `setupTelemetry` succeeds it installs one global sink.  With
`k ≥ 1` external endpoints configured (statsite, statsd, prometheus, datadog,
circonus) it is the fan-out of their `k` sinks, in that order, followed by the
in-memory sink, `k + 1` members in all; with none it is the in-memory sink
alone. -/
theorem C22_global_sink_members {B : Blocks} {S : Type} (R : RunOps B S)
    (config : Config B) (hsucc : (setupTelemetry R config).2 = none) :
    (requestedSinks config.NodeName (telemetryOf R config)).length =
      (if (telemetryOf R config).StatsiteAddr ≠ "" then 1 else 0) +
      (if (telemetryOf R config).StatsdAddr ≠ "" then 1 else 0) +
      (if (telemetryOf R config).PrometheusMetrics then 1 else 0) +
      (if (telemetryOf R config).DataDogAddr ≠ "" then 1 else 0) +
      (if (telemetryOf R config).CirconusAPIToken ≠ "" ∨
          (telemetryOf R config).CirconusCheckSubmissionURL ≠ "" then 1 else 0) ∧
    (requestedSinks config.NodeName (telemetryOf R config) ≠ [] →
      (globalSinks (setupTelemetry R config).1).map Prod.snd =
        [MetricSink.fanout (requestedSinks config.NodeName (telemetryOf R config) ++
          [inmemSink (telemetryOf R config)])] ∧
      (requestedSinks config.NodeName (telemetryOf R config) ++
        [inmemSink (telemetryOf R config)]).length =
        (requestedSinks config.NodeName (telemetryOf R config)).length + 1) ∧
    (requestedSinks config.NodeName (telemetryOf R config) = [] →
      (globalSinks (setupTelemetry R config).1).map Prod.snd =
        [MetricSink.single (inmemSink (telemetryOf R config))]) := by
  refine ⟨?_, ?_, ?_⟩
  · unfold requestedSinks
    simp only [List.length_append]
    repeat' split
    all_goals rfl
  · intro hne
    refine ⟨?_, by simp⟩
    rw [setupTelemetry_eq] at hsucc ⊢
    have hb := buildSinks_spec R (requestedSinks config.NodeName (telemetryOf R config))
    cases hp : R.PrefixFilters (telemetryOf R config) with
    | error err => simp [hp] at hsucc
    | ok filters =>
      cases hf : (buildSinks R (requestedSinks config.NodeName (telemetryOf R config))).2 with
      | error err => simp [hp, hf] at hsucc
      | ok fanout =>
        have hfan := hb.2 fanout hf
        subst hfan
        have hlen : 0 < (requestedSinks config.NodeName (telemetryOf R config)).length :=
          List.length_pos.2 hne
        simp [hp, hf, globalSinks_append, hb.1, globalSinks, hlen]
  · intro hnil
    rw [setupTelemetry_eq] at hsucc ⊢
    have hb := buildSinks_spec R (requestedSinks config.NodeName (telemetryOf R config))
    cases hp : R.PrefixFilters (telemetryOf R config) with
    | error err => simp [hp] at hsucc
    | ok filters =>
      cases hf : (buildSinks R (requestedSinks config.NodeName (telemetryOf R config))).2 with
      | error err => simp [hp, hf] at hsucc
      | ok fanout =>
        have hfan := hb.2 fanout hf
        subst hfan
        simp [hp, hf, globalSinks_append, hb.1, globalSinks, hnil]

/-- Witness for C22: the sample configuration with a statsite and a datadog
endpoint. -/
theorem C22_global_sink_members_witness :
    (globalSinks (setupTelemetry Sample.runOps Sample.configTwoSinks).1).map Prod.snd =
      [MetricSink.fanout
        (requestedSinks Sample.configTwoSinks.NodeName
          (telemetryOf Sample.runOps Sample.configTwoSinks) ++
          [inmemSink (telemetryOf Sample.runOps Sample.configTwoSinks)])] :=
  ((C22_global_sink_members Sample.runOps Sample.configTwoSinks rfl).2.1
    (by decide)).1

/-- C23, as stated, fails: with a statsd sink constructed and
`disable_hostname` set, the configuration installed has both hostname
switches off; and with no external sink and the default settings, the
hostname label is on. -/
theorem C23_counterexample :
    globalSinks (setupTelemetry Sample.runOps Sample.configStatsdNoHostname).1 =
      [(⟨"host", false, false, [], [], true⟩,
        MetricSink.fanout [Sink.statsd "127.0.0.1:8125", Sink.inmem 0 0])] ∧
    globalSinks (setupTelemetry Sample.runOps Sample.config).1 =
      [(⟨"host", false, true, [], [], true⟩, MetricSink.single (Sink.inmem 0 0))] := by
  refine ⟨by decide, by decide⟩

/-- C23, amended: when `setupTelemetry` succeeds, the metrics configuration
installed globally has `EnableHostnameLabel` set exactly when
`disable_hostname` is not, with or without external sinks; `EnableHostname`
is set, when at least one external sink was constructed, exactly when
`use_node_name` is set or `disable_hostname` is not, and is cleared when no
external sink was constructed. -/
theorem C23_hostname_settings {B : Blocks} {S : Type} (R : RunOps B S)
    (config : Config B) (hsucc : (setupTelemetry R config).2 = none) :
    ∃ conf sink, globalSinks (setupTelemetry R config).1 = [(conf, sink)] ∧
      conf.EnableHostnameLabel = !(telemetryOf R config).DisableHostname ∧
      (requestedSinks config.NodeName (telemetryOf R config) ≠ [] →
        conf.EnableHostname =
          ((telemetryOf R config).UseNodeName || !(telemetryOf R config).DisableHostname)) ∧
      (requestedSinks config.NodeName (telemetryOf R config) = [] →
        conf.EnableHostname = false) := by
  rw [setupTelemetry_eq] at hsucc ⊢
  have hb := buildSinks_spec R (requestedSinks config.NodeName (telemetryOf R config))
  cases hp : R.PrefixFilters (telemetryOf R config) with
  | error err => simp [hp] at hsucc
  | ok filters =>
    obtain ⟨allowed, blocked⟩ := filters
    cases hf : (buildSinks R (requestedSinks config.NodeName (telemetryOf R config))).2 with
    | error err => simp [hp, hf] at hsucc
    | ok fanout =>
      have hfan := hb.2 fanout hf
      subst hfan
      by_cases hne : requestedSinks config.NodeName (telemetryOf R config) = []
      · refine ⟨{ metricsConf R config (telemetryOf R config) allowed blocked with
            EnableHostname := false },
          MetricSink.single (inmemSink (telemetryOf R config)), ?_, ?_, ?_, ?_⟩
        · simp [globalSinks_append, hb.1, globalSinks, hne]
        · simp [metricsConf]
        · intro h; exact absurd hne h
        · intro _; rfl
      · have hlen : 0 < (requestedSinks config.NodeName (telemetryOf R config)).length :=
          List.length_pos.2 hne
        refine ⟨metricsConf R config (telemetryOf R config) allowed blocked,
          MetricSink.fanout (requestedSinks config.NodeName (telemetryOf R config) ++
            [inmemSink (telemetryOf R config)]), ?_, ?_, ?_, ?_⟩
        · simp [globalSinks_append, hb.1, globalSinks, hlen]
        · simp [metricsConf]
        · intro _
          cases hu : (telemetryOf R config).UseNodeName <;> simp [metricsConf, hu]
        · intro h; exact absurd h hne

/-- Witness for C23 amended: the sample configuration with a statsd endpoint
and `disable_hostname` set. -/
theorem C23_hostname_settings_witness :
    ∃ conf sink,
      globalSinks (setupTelemetry Sample.runOps Sample.configStatsdNoHostname).1 =
        [(conf, sink)] ∧
      conf.EnableHostnameLabel =
        !(telemetryOf Sample.runOps Sample.configStatsdNoHostname).DisableHostname ∧
      (requestedSinks Sample.configStatsdNoHostname.NodeName
          (telemetryOf Sample.runOps Sample.configStatsdNoHostname) ≠ [] →
        conf.EnableHostname =
          ((telemetryOf Sample.runOps Sample.configStatsdNoHostname).UseNodeName ||
            !(telemetryOf Sample.runOps Sample.configStatsdNoHostname).DisableHostname)) ∧
      (requestedSinks Sample.configStatsdNoHostname.NodeName
          (telemetryOf Sample.runOps Sample.configStatsdNoHostname) = [] →
        conf.EnableHostname = false) :=
  C23_hostname_settings Sample.runOps Sample.configStatsdNoHostname rfl

/-- The loggers leave the telemetry block and the node name as they are. -/
theorem SetupLoggers_telemetry {B : Blocks} {S : Type} (A : AgentOps B S) (R : RunOps B S)
    (config config₁ : Config B) (h : (SetupLoggers A R config).1 = some config₁) :
    config₁.Telemetry = config.Telemetry ∧ config₁.NodeName = config.NodeName := by
  unfold SetupLoggers at h
  simp only at h
  repeat' split at h
  all_goals first
    | (simp at h; done)
    | (simp only [Option.some.injEq] at h; subst h; exact ⟨rfl, rfl⟩)

/-- The telemetry setup reads the telemetry block and the node name only. -/
theorem setupTelemetry_congr {B : Blocks} {S : Type} (R : RunOps B S)
    (config config₁ : Config B) (ht : config₁.Telemetry = config.Telemetry)
    (hn : config₁.NodeName = config.NodeName) :
    setupTelemetry R config₁ = setupTelemetry R config := by
  unfold setupTelemetry metricsConf
  simp only [ht, hn]

/-- C24: when the constructor of one of the external sinks asked for fails,
`setupTelemetry` returns an error and installs no global sink; the error is
that of the first sink, in the order of construction, whose constructor
fails; and `Run`, on a configuration read with such a telemetry block,
returns 1. -/
theorem C24_sink_failure_aborts {B : Blocks} {S : Type} (X : Externals B)
    (A : AgentOps B S) (R : RunOps B S) (notifyErr : GoError) (inp : Inputs B)
    (ticks : List (Tick B)) (config : Config B)
    (hfail : ∃ sink ∈ requestedSinks config.NodeName (telemetryOf R config),
      R.NewSink sink ≠ none) :
    (setupTelemetry R config).2 ≠ none ∧
    globalSinks (setupTelemetry R config).1 = [] ∧
    (∀ filters, R.PrefixFilters (telemetryOf R config) = Except.ok filters →
      ∃ built sink rest err,
        requestedSinks config.NodeName (telemetryOf R config) = built ++ sink :: rest ∧
        (∀ b ∈ built, R.NewSink b = none) ∧ R.NewSink sink = some err ∧
        (setupTelemetry R config).2 = some err) ∧
    ((readConfig X inp).1 = some config →
      (Run X A R notifyErr inp ticks).2 = LifecycleState.Terminated 1) := by
  obtain ⟨built, sink, rest, err, heq, hbuilt, hsink, herr⟩ :=
    buildSinks_error R _ hfail
  have hb := buildSinks_spec R (requestedSinks config.NodeName (telemetryOf R config))
  have herror : (setupTelemetry R config).2 ≠ none := by
    rw [setupTelemetry_eq]
    cases hp : R.PrefixFilters (telemetryOf R config) with
    | error e => simp
    | ok filters => simp [herr]
  refine ⟨herror, ?_, ?_, ?_⟩
  · rw [setupTelemetry_eq]
    cases hp : R.PrefixFilters (telemetryOf R config) with
    | error e => simp [globalSinks]
    | ok filters => simp [herr, globalSinks_append, hb.1, globalSinks]
  · intro filters hp
    refine ⟨built, sink, rest, err, heq, hbuilt, hsink, ?_⟩
    rw [setupTelemetry_eq]
    simp [hp, herr]
  · intro hread
    unfold Run
    rcases hrc : readConfig X inp with ⟨cfg, ui⟩
    rw [hrc] at hread
    simp only at hread
    subst hread
    simp only
    rcases hl : SetupLoggers A R config with ⟨cfg₁, lui⟩
    cases cfg₁ with
    | none => rfl
    | some config₁ =>
      obtain ⟨ht, hn⟩ := SetupLoggers_telemetry A R config config₁ (by rw [hl])
      simp only
      unfold runSetup
      simp only
      rw [setupTelemetry_congr R config config₁ ht hn]
      rcases hst : setupTelemetry R config with ⟨tel, terr⟩
      rw [hst] at herror
      cases terr with
      | none => exact absurd rfl herror
      | some e => rfl

/-- Witness for C24: the datadog constructor fails after the statsite sink was
constructed. -/
theorem C24_sink_failure_aborts_witness :
    (setupTelemetry Sample.runOpsBadDatadog Sample.configTwoSinks).2 ≠ none ∧
    globalSinks (setupTelemetry Sample.runOpsBadDatadog Sample.configTwoSinks).1 = [] ∧
    (Run Sample.externals Sample.agentOps Sample.runOpsBadDatadog none
      Sample.inputsTwoSinks []).2 = LifecycleState.Terminated 1 :=
  have h := C24_sink_failure_aborts Sample.externals Sample.agentOps
    Sample.runOpsBadDatadog none Sample.inputsTwoSinks [] Sample.configTwoSinks
    ⟨Sink.datadog "127.0.0.1:8126" "node1" [], by decide, by decide⟩
  ⟨h.1, h.2.1, h.2.2.2 rfl⟩

/-! ## The retry-join coordinator -/

/-- With `n` attempts allowed and a join function that always fails, the
coordinator that has made `attempt < n` attempts makes the remaining ones,
sleeping between them, and ends on the fatal signal. -/
theorem RetryJoin_exhausts (joinCfg : ServerJoin) (resolve : Nat → Except String (List String))
    (join : Nat → List String → Except String Int) (n : Nat)
    (hmax : joinCfg.RetryMaxAttempts = n)
    (hjoin : ∀ k a, ∃ err, join k a = Except.error err)
    (remaining attempt fuel : Nat) (hrem : attempt + remaining + 1 = n)
    (hfuel : remaining + 1 ≤ fuel) :
    RetryJoin joinCfg resolve join fuel attempt =
      some ((List.range' attempt remaining).flatMap
          (fun k => [failedAttempt resolve k, JoinStep.sleep joinCfg.RetryInterval]) ++
        [failedAttempt resolve (attempt + remaining), JoinStep.fatal]) := by
  induction remaining generalizing attempt fuel with
  | zero =>
    obtain ⟨fuel, rfl⟩ : ∃ f, fuel = f + 1 := ⟨fuel - 1, by omega⟩
    have hlast : ((attempt + 1 : Nat) : Int) = joinCfg.RetryMaxAttempts := by
      rw [hmax]; exact_mod_cast (by omega : attempt + 1 = n)
    have hpos : joinCfg.RetryMaxAttempts > 0 := by
      rw [hmax]; exact_mod_cast (by omega : 0 < n)
    cases hres : resolve attempt with
    | error e => simp [RetryJoin, hres, retryJoinFailed, hlast, hpos, failedAttempt]
    | ok addrs =>
      obtain ⟨err, herr⟩ := hjoin attempt addrs
      simp [RetryJoin, hres, herr, retryJoinFailed, hlast, hpos, failedAttempt]
  | succ remaining ih =>
    obtain ⟨fuel, rfl⟩ : ∃ f, fuel = f + 1 := ⟨fuel - 1, by omega⟩
    have hnot : ¬ (((attempt + 1 : Nat) : Int) = joinCfg.RetryMaxAttempts) := by
      rw [hmax]
      intro h
      have : attempt + 1 = n := by exact_mod_cast h
      omega
    have hnot₁ : ¬ ((attempt : Int) + 1 = joinCfg.RetryMaxAttempts) := by
      simpa using hnot
    have hnext := ih (attempt + 1) fuel (by omega) (by omega)
    have hidx : attempt + 1 + remaining = attempt + (remaining + 1) := by omega
    rw [hidx] at hnext
    cases hres : resolve attempt with
    | error e =>
      simp [RetryJoin, hres, retryJoinFailed, hnot₁, hnext, List.range'_succ, failedAttempt]
    | ok addrs =>
      obtain ⟨err, herr⟩ := hjoin attempt addrs
      simp [RetryJoin, hres, herr, retryJoinFailed, hnot₁, hnext, List.range'_succ,
        failedAttempt]

/-- The steps of the attempts that are followed by a sleep: one attempt and
one sleep each, a call of join where the addresses resolve, no fatal signal. -/
theorem count_failed_rounds (resolve : Nat → Except String (List String)) (interval : Int)
    (l : List Nat) :
    (l.flatMap (fun k => [failedAttempt resolve k, JoinStep.sleep interval])).countP
        JoinStep.isAttempt = l.length ∧
    (l.flatMap (fun k => [failedAttempt resolve k, JoinStep.sleep interval])).countP
        JoinStep.isJoin = l.countP (fun k => (resolve k).toBool) ∧
    (l.flatMap (fun k => [failedAttempt resolve k, JoinStep.sleep interval])).countP
        JoinStep.isSleep = l.length ∧
    (l.flatMap (fun k => [failedAttempt resolve k, JoinStep.sleep interval])).count
        JoinStep.fatal = 0 := by
  induction l with
  | nil => simp
  | cons k l ih =>
    obtain ⟨h₁, h₂, h₃, h₄⟩ := ih
    simp only [List.flatMap_cons, List.countP_append, List.count_append, h₁, h₂, h₃, h₄]
    cases hres : resolve k <;>
      simp [failedAttempt, hres, List.countP_cons, List.count_cons, JoinStep.isAttempt,
        JoinStep.isJoin, JoinStep.isSleep, Except.toBool] <;> omega

/-- C21, as stated, fails on the coordinator of section 4.4: with three
attempts allowed and a join function that always fails, a resolution that
fails at the second attempt counts as a failed attempt, so join is invoked
twice, not three times, before the fatal signal. -/
theorem C21_counterexample :
    RetryJoin Sample.serverJoinThree Sample.resolveFailsOnce
        (fun _ _ => Except.error "connection refused") 3 0 =
      some [JoinStep.join ["10.0.0.1"], JoinStep.sleep 30000000000,
        JoinStep.resolveFailed "lookup nomad.service.consul: no such host",
        JoinStep.sleep 30000000000,
        JoinStep.join ["10.0.0.1"], JoinStep.fatal] ∧
    [JoinStep.join ["10.0.0.1"], JoinStep.sleep 30000000000,
      JoinStep.resolveFailed "lookup nomad.service.consul: no such host",
      JoinStep.sleep 30000000000,
      JoinStep.join ["10.0.0.1"], JoinStep.fatal].countP JoinStep.isJoin = 2 := by
  refine ⟨by decide, by decide⟩

/-- C21, amended: with a positive `maxAttempts` equal to `n` and a join
function that always fails, the coordinator, given room for `n` attempts, ends
after these steps: `n - 1` times an attempt followed by a sleep, then a last
attempt followed at once by the fatal signal.  An attempt is a call of join
when the addresses resolve and a failed resolution otherwise.  So there are
`n` attempts, join is invoked once for each attempt whose addresses resolve,
that is `n` times when they all resolve and fewer when one does not, the fatal
signal is sent once, at the end, and the coordinator sleeps `n - 1` times,
never after the last attempt. -/
theorem C21_retry_join_exhaustion (joinCfg : ServerJoin)
    (resolve : Nat → Except String (List String))
    (join : Nat → List String → Except String Int) (n fuel : Nat)
    (hn : 0 < n) (hmax : joinCfg.RetryMaxAttempts = n)
    (hjoin : ∀ k a, ∃ err, join k a = Except.error err) (hfuel : n ≤ fuel) :
    ∃ steps, RetryJoin joinCfg resolve join fuel 0 = some steps ∧
      steps = (List.range (n - 1)).flatMap
          (fun k => [failedAttempt resolve k, JoinStep.sleep joinCfg.RetryInterval]) ++
        [failedAttempt resolve (n - 1), JoinStep.fatal] ∧
      steps.countP JoinStep.isAttempt = n ∧
      steps.countP JoinStep.isJoin = (List.range n).countP (fun k => (resolve k).toBool) ∧
      ((∀ k, k < n → (resolve k).toBool = true) → steps.countP JoinStep.isJoin = n) ∧
      (∀ k, k < n → (resolve k).toBool = false → steps.countP JoinStep.isJoin < n) ∧
      steps.count JoinStep.fatal = 1 ∧
      steps.countP JoinStep.isSleep = n - 1 ∧
      steps.getLast? = some JoinStep.fatal := by
  have hrun := RetryJoin_exhausts joinCfg resolve join n hmax hjoin (n - 1) 0 fuel
    (by omega) (by omega)
  rw [← List.range_eq_range', Nat.zero_add] at hrun
  obtain ⟨h₁, h₂, h₃, h₄⟩ := count_failed_rounds resolve joinCfg.RetryInterval (List.range (n - 1))
  have hjoins : ((List.range (n - 1)).flatMap
        (fun k => [failedAttempt resolve k, JoinStep.sleep joinCfg.RetryInterval]) ++
      [failedAttempt resolve (n - 1), JoinStep.fatal]).countP JoinStep.isJoin =
      (List.range n).countP (fun k => (resolve k).toBool) := by
    obtain ⟨m, rfl⟩ : ∃ m, n = m + 1 := ⟨n - 1, by omega⟩
    rw [List.countP_append, h₂, List.range_succ, List.countP_append]
    simp only [Nat.add_sub_cancel]
    cases hres : resolve m <;>
      simp [failedAttempt, hres, List.countP_cons, JoinStep.isJoin, Except.toBool]
  refine ⟨_, hrun, rfl, ?_, hjoins, ?_, ?_, ?_, ?_, ?_⟩
  · rw [List.countP_append, h₁]
    cases hres : resolve (n - 1) <;>
      simp [failedAttempt, hres, List.countP_cons, JoinStep.isAttempt] <;> omega
  · intro hall
    rw [hjoins]
    have h := (List.countP_eq_length (p := fun k => (resolve k).toBool)
      (l := List.range n)).2 (fun k hk => hall k (List.mem_range.1 hk))
    simpa using h
  · intro k hk hfail
    rw [hjoins]
    have hle := List.countP_le_length (fun k => (resolve k).toBool) (l := List.range n)
    have hne : (List.range n).countP (fun k => (resolve k).toBool) ≠ (List.range n).length := by
      intro heq
      have := (List.countP_eq_length.1 heq) k (List.mem_range.2 hk)
      simp [hfail] at this
    simp only [List.length_range] at hle hne
    omega
  · rw [List.count_append, h₄]
    cases hres : resolve (n - 1) <;> simp [failedAttempt, hres, List.count_cons]
  · rw [List.countP_append, h₃]
    cases hres : resolve (n - 1) <;>
      simp [failedAttempt, hres, List.countP_cons, JoinStep.isSleep]
  · simp [List.getLast?_append]

/-- Witness for C21 amended: three attempts allowed, thirty seconds apart,
addresses that resolve at every attempt: join is invoked three times. -/
theorem C21_retry_join_exhaustion_witness :
    ∃ steps,
      RetryJoin Sample.serverJoinThree (fun _ => Except.ok ["10.0.0.1"])
        (fun _ _ => Except.error "connection refused") 3 0 = some steps ∧
      steps.countP JoinStep.isAttempt = 3 ∧
      steps.countP JoinStep.isJoin = 3 ∧
      steps.count JoinStep.fatal = 1 ∧
      steps.countP JoinStep.isSleep = 3 - 1 ∧
      steps.getLast? = some JoinStep.fatal :=
  Exists.elim
    (C21_retry_join_exhaustion Sample.serverJoinThree (fun _ => Except.ok ["10.0.0.1"])
      (fun _ _ => Except.error "connection refused") 3 3 (by decide) rfl
      (fun _ _ => ⟨_, rfl⟩) (by decide))
    (fun steps h => ⟨steps, h.1, h.2.2.1, h.2.2.2.2.1 (fun _ _ => rfl), h.2.2.2.2.2.2.1,
      h.2.2.2.2.2.2.2.1, h.2.2.2.2.2.2.2.2⟩)

end Nomad
